import Mathlib

/-!
# A shallow embedding of the class-file interpreter

The functions of `memoryunit.c`, `classloader.c`, `executionengine.c` and `util.c` that the
statements below are about are embedded one by one, under their own names.  Conventions of the
embedding:

* machine integers `u1`, `u2`, `u4`, `u8` are natural numbers; truncation is written out with
  `% 2 ^ w` where the C code truncates; the C `int` program counter is an `Int`;
* C strings are `String`s, scanned through their character list;
* a C function that can leave the normal control flow returns an `Outcome`: it returns
  normally (`ok`), it ends the VM through `JVMThrow` (`thrown`, with the exception number of
  `exceptions.h`) or through a direct `JVMstopAbrupt` (`stopAbrupt`), it performs an access that C
  leaves undefined (a `NULL` or dangling pointer, an index outside an allocated block, an
  uninitialised variable: `undefined`), or the fuel that bounds a recursion is used up
  (`outOfFuel`);
* pointers to `JavaClass` records are positions in the class table of the method area, pointers
  to frames are levels of the frame stack counted from the bottom, references held in 32-bit
  words are addresses of the `heap`.
-/

namespace JVM

/-! ## Machine types and constants (`estruturas.h`, `exceptions.h`, `javaarray.h`) -/

abbrev u1 := Nat
abbrev u2 := Nat
abbrev u4 := Nat
abbrev u8 := Nat

def ACC_PUBLIC : u2 := 0x0001
def ACC_PRIVATE : u2 := 0x0002
def ACC_PROTECTED : u2 := 0x0004
def ACC_STATIC : u2 := 0x0008
def ACC_FINAL : u2 := 0x0010
def ACC_SUPER : u2 := 0x0020
def ACC_ABSTRACT : u2 := 0x0400

def LECLASS_MIN_Version : u2 := 0
def LECLASS_MAJ_Version : u2 := 48

def NullPointerException : Nat := 40
def AbstractMethodError : Nat := 41
def IncompatibleClassChangeError : Nat := 42
def IllegalAccessError : Nat := 43
def ArrayIndexOutOfBoundsException : Nat := 44
def NegativeArraySizeException : Nat := 45

def T_BOOLEAN : u4 := 4
def T_CHAR : u4 := 5
def T_FLOAT : u4 := 6
def T_DOUBLE : u4 := 7
def T_BYTE : u4 := 8
def T_SHORT : u4 := 9
def T_INT : u4 := 10
def T_LONG : u4 := 11

/-- Result of running a C function of the interpreter. -/
inductive Outcome (α : Type) where
  /-- The function returns normally. -/
  | ok : α → Outcome α
  /-- The function calls `JVMThrow(exception, environment)`, which prints and exits. -/
  | thrown : Nat → Outcome α
  /-- The function calls `JVMstopAbrupt` directly, which prints and exits. -/
  | stopAbrupt : Outcome α
  /-- The function performs an access whose behaviour C leaves undefined. -/
  | undefined : Outcome α
  /-- The recursion bound of the model is exhausted. -/
  | outOfFuel : Outcome α
  deriving DecidableEq, Repr

namespace Outcome

/-- Sequencing: everything but `ok` ends the run. -/
def bind {α β : Type} (x : Outcome α) (f : α → Outcome β) : Outcome β :=
  match x with
  | ok a => f a
  | thrown e => thrown e
  | stopAbrupt => stopAbrupt
  | undefined => undefined
  | outOfFuel => outOfFuel

instance : Monad Outcome where
  pure := Outcome.ok
  bind := Outcome.bind

/-- A pointer dereference: `none` is an invalid pointer. -/
def ofOption {α : Type} : Option α → Outcome α
  | some a => ok a
  | none => undefined

/-- Projection of a normal result. -/
def map {α β : Type} (f : α → β) (x : Outcome α) : Outcome β :=
  x.bind (fun a => ok (f a))

end Outcome

/-! ## Method descriptors (`executionengine.c`) -/

/-- The loop of `getParameterNumberFromMethodDescriptor` over the characters from index `i` on.
`inName = false` is the `for` loop at `descriptor[i]`; `inName = true` is the inner
`while (descriptor[i] != ';')` after its `i++`.  Running off the end inside the `while` is the
`return -1`; running off the end of the `for` returns `nParams`. -/
def countParameters : List Char → Bool → Int → Int
  | [], false, nParams => nParams
  | [], true, _ => -1
  | c :: rest, true, nParams =>
      if c = ';' then countParameters rest false (nParams + 1)
      else countParameters rest true nParams
  | c :: rest, false, nParams =>
      if c = ')' then nParams
      else if c = 'L' then countParameters rest true nParams
      else if c = 'J' ∨ c = 'D' then countParameters rest false (nParams + 2)
      else countParameters rest false (nParams + 1)

/-- Number of `u4` words popped for the parameters of a method descriptor. -/
def getParameterNumberFromMethodDescriptor (descriptor : String) : Int :=
  match descriptor.data with
  | '(' :: rest => countParameters rest false 0
  | _ => -1

/-! ## Class images (`estruturas.h`) -/

/-- Entry of the constant pool: the tag and the member of the union it selects. -/
inductive cp_info where
  | Class (name_index : u2)
  | Fieldref (class_index name_and_type_index : u2)
  | NameAndType (name_index descriptor_index : u2)
  | Utf8 (bytes : String)
  | Methodref (class_index name_and_type_index : u2)
  | InterfaceMethodref (class_index name_and_type_index : u2)
  | String (string_index : u2)
  | Integer (bytes : u4)
  | Float (bytes : u4)
  | Long (high_bytes low_bytes : u4)
  | Double (high_bytes low_bytes : u4)
  deriving DecidableEq, Repr

structure attribute_info where
  attribute_name_index : u2
  attribute_length : u4
  info : List u1
  deriving DecidableEq, Repr

structure ExceptionTable where
  start_pc : u2
  end_pc : u2
  handler_pc : u2
  catch_type : u2
  deriving DecidableEq, Repr

/-- A `u1*` into the body of an attribute: the block and the offset inside it. -/
structure BytePtr where
  block : List u1
  offset : Nat
  deriving DecidableEq, Repr

/-- The byte `p[i]`; outside the block the read is undefined. -/
def BytePtr.read (p : BytePtr) (i : Int) : Outcome u1 :=
  if (p.offset : Int) + i < 0 then Outcome.undefined
  else Outcome.ofOption (p.block.get? ((p.offset : Int) + i).toNat)

structure CodeAttribute where
  max_stack : u2
  max_locals : u2
  code_length : u4
  code : BytePtr
  exception_table_length : u2
  exception_table : List ExceptionTable
  attributes_count : u2
  attributes : BytePtr
  deriving DecidableEq, Repr

/-- Both `field_info` and `method_info`; `attributes_count` is the length of `attributes`. -/
structure field_or_method where
  access_flags : u2
  name_index : u2
  descriptor_index : u2
  attributes : List attribute_info
  deriving DecidableEq, Repr

abbrev field_info := field_or_method
abbrev method_info := field_or_method

/-- The decoded `.class` file; each count is the length of its table. -/
structure ArqClass where
  magic : u4
  minor_version : u2
  major_version : u2
  constant_pool : List cp_info
  access_flags : u2
  this_class : u2
  super_class : u2
  interfaces : List u2
  fields : List field_info
  methods : List method_info
  attributes : List attribute_info
  deriving DecidableEq, Repr

/-! ## Constant-pool access (`classloader.c`) -/

/-- The entry `cp[index-1]`; index 0 and indices past the pool are outside the array. -/
def cpEntry (cp : List cp_info) (index : u2) : Outcome cp_info :=
  if index = 0 then Outcome.undefined else Outcome.ofOption (cp.get? (index - 1))

/-- The wide string `getUnicodeFromConstantPool` builds from `cp[index-1].u.Utf8`: one
`wchar_t` per byte, in front of the terminator it appends. -/
def getUnicodeFromConstantPool (cp : List cp_info) (index : u2) : Outcome (List Char) := do
  match (← cpEntry cp index) with
  | cp_info.Utf8 bytes => pure bytes.data
  | _ => Outcome.undefined

/-- The C string `getUTF8FromConstantPool` returns.  `wcstombs` converts the wide characters
in front of the first 0 (`wcslen`), so the name ends at the first 0 byte.  The program never
calls `setlocale`, and in the `"C"` locale a wide character above 127 does not convert:
`wcstombs` stops there and the buffer is left without terminator. -/
def getUTF8FromConstantPool (cp : List cp_info) (index : u2) : Outcome String := do
  let unicode ← getUnicodeFromConstantPool cp index
  let converted := unicode.takeWhile (fun c => c.toNat ≠ 0)
  if converted.all (fun c => c.toNat < 128) then pure (String.mk converted)
  else Outcome.undefined

/-- The name `cp[cp[index-1].u.Class.name_index - 1]`. -/
def getClassNameFromConstantPool (cp : List cp_info) (index : u2) : Outcome String := do
  match (← cpEntry cp index) with
  | cp_info.Class name_index => getUTF8FromConstantPool cp name_index
  | _ => Outcome.undefined

/-- Class name, member name and descriptor of a Fieldref, Methodref or InterfaceMethodref
(the three share the layout read through `u.Fieldref`). -/
def getFieldOrMethodInfoAttributesFromConstantPool (index : u2) (constant_pool : List cp_info) :
    Outcome (String × String × String) := do
  let field_or_method ← cpEntry constant_pool index
  let (class_index, name_and_type_index) ←
    (match field_or_method with
      | cp_info.Fieldref c n => Outcome.ok (c, n)
      | cp_info.Methodref c n => Outcome.ok (c, n)
      | cp_info.InterfaceMethodref c n => Outcome.ok (c, n)
      | _ => Outcome.undefined)
  let nameAndType ← cpEntry constant_pool name_and_type_index
  match nameAndType with
  | cp_info.NameAndType name_index descriptor_index =>
      let class_name ← getClassNameFromConstantPool constant_pool class_index
      let name ← getUTF8FromConstantPool constant_pool name_index
      let descriptor ← getUTF8FromConstantPool constant_pool descriptor_index
      pure (class_name, name, descriptor)
  | _ => Outcome.undefined

/-- Two big-endian bytes `p[i], p[i+1]` as a `u2`. -/
def readU2 (info : List u1) (i : Nat) : Outcome u2 := do
  let b1 ← Outcome.ofOption (info.get? i)
  let b2 ← Outcome.ofOption (info.get? (i + 1))
  pure ((b1 * 256 + b2) % 65536)

/-- Four big-endian bytes as a `u4`. -/
def readU4 (info : List u1) (i : Nat) : Outcome u4 := do
  let h ← readU2 info i
  let l ← readU2 info (i + 2)
  pure ((h * 65536 + l) % 4294967296)

/-- The loop of `parseExceptionTables`: `n` entries of four `u2` from offset `i`. -/
def parseExceptionTables (info : List u1) : Nat → Nat → Outcome (List ExceptionTable)
  | _, 0 => pure []
  | i, n + 1 => do
      let start_pc ← readU2 info i
      let end_pc ← readU2 info (i + 2)
      let handler_pc ← readU2 info (i + 4)
      let catch_type ← readU2 info (i + 6)
      let rest ← parseExceptionTables info (i + 8) n
      pure (ExceptionTable.mk start_pc end_pc handler_pc catch_type :: rest)

/-- The typed view of the body of a `Code` attribute. -/
def parseCode (info : List u1) : Outcome CodeAttribute := do
  let max_stack ← readU2 info 0
  let max_locals ← readU2 info 2
  let code_length ← readU4 info 4
  let index := 8 + code_length
  let exception_table_length ← readU2 info index
  let exception_table ← parseExceptionTables info (index + 2) exception_table_length
  let index := index + 2 + exception_table_length * 8
  let attributes_count ← readU2 info index
  pure (CodeAttribute.mk max_stack max_locals code_length (BytePtr.mk info 8)
    exception_table_length exception_table attributes_count (BytePtr.mk info (index + 2)))

/-- The test of `javaLibIsFrom`: the name starts with `java/` or with `Ljava/`. -/
def javaLibIsFrom (name : String) : Bool :=
  name.data.take 5 == "java/".data || name.data.take 6 == "Ljava/".data

/-! ## Run-time structures (`estruturas.h`, `javaarray.h`) -/

/-- The memory a `memoryAddress` points to: `size` bytes from `malloc`, holding the unsigned
value `bits`, or nothing yet when no initial value was written. -/
structure Cell where
  size : Nat
  bits : Option Nat
  deriving DecidableEq, Repr

structure FieldsTable where
  name : String
  descriptor : String
  memoryAddress : Cell
  fieldInfo : field_info
  deriving DecidableEq, Repr

/-- A `Fields` record; `fieldsCount` is the length of the table. -/
abbrev Fields := List FieldsTable

/-- A `JavaClass*`: the constant `(JavaClass*) 1` handed out for library classes, or the record
registered at position `i` of the class table. -/
inductive JavaClassPtr where
  | stub
  | loaded (i : Nat)
  deriving DecidableEq, Repr

structure Handler where
  javaClass : JavaClassPtr
  fields : Fields
  deriving DecidableEq, Repr

structure Object where
  handler : Handler
  deriving DecidableEq, Repr

/-- The array header; `arrayAddress` is the address of the element block. -/
structure JavaArray where
  atype : u4
  count : u2
  arrayAddress : Nat
  deriving DecidableEq, Repr

/-- What an address of the heap holds: an `Object`, a `JavaArray` header, or a block of array
elements (one entry per element, of the width of the array type). -/
inductive HeapCell where
  | object (o : Object)
  | array (a : JavaArray)
  | block (elems : List Nat)
  deriving DecidableEq, Repr

structure JavaClass where
  objectList : List Nat
  arqClass : ArqClass
  staticFields : Fields
  deriving DecidableEq, Repr

structure ClassTable where
  name : String
  javaClass : JavaClass
  deriving DecidableEq, Repr

/-- The method area; `classCount` is the length of the table. -/
structure MethodArea where
  classTable : List ClassTable
  deriving DecidableEq, Repr

/-- An activation frame.  `opStk` is the chain of cells above the base cell, top first
(`some []` is the base cell alone, `none` a `NULL` pointer); the number of cells is not bounded
here, as `pushInOperandStack` does not test it.  `localVariablesVector` has `max_locals` words. -/
structure Frame where
  javaClass : JavaClassPtr
  method_info : Option method_info
  returnPC : Int
  localVariablesVector : List u4
  opStk : Option (List u4)
  deriving DecidableEq, Repr

/-- The thread; `vmStack` lists the frames top first, `[]` is `NULL`. -/
structure Thread where
  PC : Int
  vmStack : List Frame
  deriving DecidableEq, Repr

/-- The execution environment, together with the two parts of the world the C code reaches
through pointers and files: the heap of objects and arrays, and for each file name the class
image `LECLASS_leitor` decodes from it. -/
structure Environment where
  thread : Thread
  methodArea : MethodArea
  debugFlags : u1
  heap : List (Nat × HeapCell)
  classFiles : List (String × ArqClass)
  deriving DecidableEq, Repr

/-- What is stored at an address; `NULL` and unallocated addresses hold nothing. -/
def heapAt (heap : List (Nat × HeapCell)) (address : Nat) : Option HeapCell :=
  if address = 0 then none else heap.lookup address

/-- Dereference of an `Object*`. -/
def derefObject (env : Environment) (ref : u4) : Outcome Object :=
  match heapAt env.heap ref with
  | some (HeapCell.object o) => Outcome.ok o
  | _ => Outcome.undefined

/-- Dereference of a `JavaArray*`. -/
def derefArray (env : Environment) (ref : u4) : Outcome JavaArray :=
  match heapAt env.heap ref with
  | some (HeapCell.array a) => Outcome.ok a
  | _ => Outcome.undefined

/-- The element block an `arrayAddress` points to. -/
def derefBlock (env : Environment) (address : Nat) : Outcome (List Nat) :=
  match heapAt env.heap address with
  | some (HeapCell.block elems) => Outcome.ok elems
  | _ => Outcome.undefined

/-- Replace what is stored at an address. -/
def heapStore (heap : List (Nat × HeapCell)) (address : Nat) (c : HeapCell) :
    List (Nat × HeapCell) :=
  heap.map (fun entry => if entry.1 = address then (address, c) else entry)

/-- Dereference of a `JavaClass*`. -/
def derefClass (methodArea : MethodArea) : JavaClassPtr → Outcome JavaClass
  | JavaClassPtr.stub => Outcome.undefined
  | JavaClassPtr.loaded i =>
      Outcome.ofOption ((methodArea.classTable.get? i).map (fun entry => entry.javaClass))

/-! ## Method area (`memoryunit.c`) -/

/-- The search loop of `findJavaClassOnMethodArea` from position `i` on. -/
def findClassFrom : List ClassTable → Nat → String → Option JavaClassPtr
  | [], _, _ => none
  | entry :: rest, i, qualifiedName =>
      if qualifiedName = entry.name then some (JavaClassPtr.loaded i)
      else findClassFrom rest (i + 1) qualifiedName

def findJavaClassOnMethodArea (qualifiedName : String) (methodArea : MethodArea) :
    Option JavaClassPtr :=
  if javaLibIsFrom qualifiedName then some JavaClassPtr.stub
  else findClassFrom methodArea.classTable 0 qualifiedName

/-- The loop of `getMethodInfoFromClass` over the method table. -/
def findMethod (cp : List cp_info) (methodName methodDescriptor : String) :
    List method_info → Outcome (Option method_info)
  | [] => pure none
  | m :: rest => do
      let actMethodName ← getUTF8FromConstantPool cp m.name_index
      let actMethodDescriptor ← getUTF8FromConstantPool cp m.descriptor_index
      if methodName = actMethodName ∧ methodDescriptor = actMethodDescriptor then pure (some m)
      else findMethod cp methodName methodDescriptor rest

def getMethodInfoFromClass (javaClass : JavaClass) (methodName methodDescriptor : String) :
    Outcome (Option method_info) :=
  findMethod javaClass.arqClass.constant_pool methodName methodDescriptor
    javaClass.arqClass.methods

/-- The loop of `getCodeFromMethodInfo` over the attributes of a method. -/
def findCode (constant_pool : List cp_info) : List attribute_info → Outcome (Option CodeAttribute)
  | [] => pure none
  | a :: rest => do
      let attrName ← getUTF8FromConstantPool constant_pool a.attribute_name_index
      if attrName = "Code" then (parseCode a.info).bind (fun c => pure (some c))
      else findCode constant_pool rest

/-- The `Code` attribute of a method; a `NULL` method is dereferenced. -/
def getCodeFromMethodInfo (method : Option method_info) (constant_pool : List cp_info) :
    Outcome (Option CodeAttribute) :=
  match method with
  | none => Outcome.undefined
  | some m => findCode constant_pool m.attributes

def getCodeAttributeFromMethod (javaClass : JavaClass) (methodName methodDescriptor : String) :
    Outcome (Option CodeAttribute) := do
  let method ← getMethodInfoFromClass javaClass methodName methodDescriptor
  getCodeFromMethodInfo method javaClass.arqClass.constant_pool

/-- The byte `code->code[pc]` of a method. -/
def getByteCodeFromMethod (methodInfo : Option method_info) (constant_pool : List cp_info)
    (pc : Int) : Outcome u1 := do
  match (← getCodeFromMethodInfo methodInfo constant_pool) with
  | none => Outcome.undefined
  | some code => code.code.read pc

/-- The loop of `getObjectAttributeReference`: the position of the entry whose cell is
returned, `none` for `NULL`. -/
def findField (attributeName : String) : Fields → Nat → Option Nat
  | [], _ => none
  | entry :: rest, i =>
      if attributeName = entry.name then some i else findField attributeName rest (i + 1)

/-- The cell of an instance field, as the position of its entry in the field table of the
object; the object pointer is dereferenced first. -/
def getObjectAttributeReference (env : Environment) (object : u4) (attributeName : String) :
    Outcome (Option Nat) := do
  let o ← derefObject env object
  pure (findField attributeName o.handler.fields 0)

/-! ## Frames and operand stacks (`memoryunit.c`) -/

/-- The frame `thread->vmStack->top`; an empty frame stack is a `NULL` dereference. -/
def getCurrentFrame (env : Environment) : Outcome Frame :=
  match env.thread.vmStack with
  | [] => Outcome.undefined
  | top :: _ => Outcome.ok top

/-- Write back the top frame. -/
def setCurrentFrame (env : Environment) (frame : Frame) : Environment :=
  { env with thread := { env.thread with vmStack := frame :: env.thread.vmStack.tail } }

/-- The frame a `Frame*` points to: level `lvl` counted from the bottom of the stack. -/
def frameAt (env : Environment) (lvl : Nat) : Outcome Frame :=
  if lvl < env.thread.vmStack.length then
    Outcome.ofOption (env.thread.vmStack.get? (env.thread.vmStack.length - 1 - lvl))
  else Outcome.undefined

/-- Write through a `Frame*`. -/
def setFrameAt (env : Environment) (lvl : Nat) (frame : Frame) : Environment :=
  { env with thread := { env.thread with
      vmStack := env.thread.vmStack.set (env.thread.vmStack.length - 1 - lvl) frame } }

/-- The assignment `frame->localVariablesVector[i] = value`. -/
def writeLocal (lvl : Nat) (i : Nat) (value : u4) (env : Environment) : Outcome Environment := do
  let frame ← frameAt env lvl
  if i < frame.localVariablesVector.length then
    pure (setFrameAt env lvl
      { frame with localVariablesVector := frame.localVariablesVector.set i value })
  else Outcome.undefined

/-- Push on the operand stack of the top frame; the cell after a `NULL` top is invalid. -/
def pushInOperandStack (env : Environment) (value : u4) : Outcome Environment := do
  let frame ← getCurrentFrame env
  match frame.opStk with
  | none => Outcome.undefined
  | some stk => pure (setCurrentFrame env { frame with opStk := some (value :: stk) })

/-- Pop from the operand stack of the top frame.  On the base cell the value read is the 0 left
by `calloc` and the stack pointer becomes `NULL`. -/
def popFromOperandStack (env : Environment) : Outcome (u4 × Environment) := do
  let frame ← getCurrentFrame env
  match frame.opStk with
  | none => Outcome.undefined
  | some [] => pure (0, setCurrentFrame env { frame with opStk := none })
  | some (value :: stk) => pure (value, setCurrentFrame env { frame with opStk := some stk })

/-- Release of a frame: `freeFrame` walks the cells from `frame->opStk` down to the base. -/
def freeFrame (frame : Frame) : Outcome Unit :=
  match frame.opStk with
  | none => Outcome.undefined
  | some _ => pure ()

/-- Unlink the top frame and restore `PC` from its `returnPC`. -/
def popFrame (env : Environment) : Outcome Environment :=
  match env.thread.vmStack with
  | [] => Outcome.undefined
  | top :: next => do
      freeFrame top
      pure { env with thread := { PC := top.returnPC, vmStack := next } }

/-- The function `JVMThrow`: the message names the class and the method of the top frame, then the VM
exits. -/
def JVMThrow {α : Type} (exception : Nat) (env : Environment) : Outcome α := do
  let top ← getCurrentFrame env
  let c ← derefClass env.methodArea top.javaClass
  let _ ← getClassNameFromConstantPool c.arqClass.constant_pool c.arqClass.this_class
  let m ← Outcome.ofOption top.method_info
  let _ ← getUTF8FromConstantPool c.arqClass.constant_pool m.name_index
  Outcome.thrown exception

/-! ## Class loading (`classloader.c`) -/

def LinkageSuccess : Nat := 0
def LinkageError_UnsupportedClassVersionError : Nat := 2
def LinkageError_ClassCirculatityError : Nat := 3

def classVerifier (arqClass : ArqClass) : Outcome Nat := do
  if arqClass.major_version > LECLASS_MAJ_Version then
    pure LinkageError_UnsupportedClassVersionError
  else if arqClass.major_version = LECLASS_MAJ_Version ∧
      arqClass.minor_version > LECLASS_MIN_Version then
    pure LinkageError_UnsupportedClassVersionError
  else
    let superName ← getClassNameFromConstantPool arqClass.constant_pool arqClass.super_class
    let thisName ← getClassNameFromConstantPool arqClass.constant_pool arqClass.this_class
    if superName = thisName then pure LinkageError_ClassCirculatityError
    else pure LinkageSuccess

def classGetFieldDescriptorSize (descriptor : String) : Nat :=
  if descriptor = "B" then 1
  else if descriptor = "C" then 1
  else if descriptor = "D" then 8
  else if descriptor = "F" then 4
  else if descriptor = "I" then 4
  else if descriptor = "J" then 8
  else if descriptor = "S" then 2
  else if descriptor = "Z" then 1
  else 4

/-- The cell of a field and its default value; no value is written for a descriptor that is
not one of the eight primitive ones. -/
def classInitializeField (descriptor : String) : Cell :=
  let size := classGetFieldDescriptorSize descriptor
  if descriptor = "B" then Cell.mk size (some 0)
  else if descriptor = "C" then Cell.mk size (some ('0').toNat)
  else if descriptor = "D" then Cell.mk size (some 0)
  else if descriptor = "F" then Cell.mk size (some 0)
  else if descriptor = "I" then Cell.mk size (some 0)
  else if descriptor = "J" then Cell.mk size (some 0)
  else if descriptor = "Z" then Cell.mk size (some 0)
  else if descriptor = "S" then Cell.mk size (some 0)
  else Cell.mk size none

/-- The loop of `classInitializeFields` over the field table of the class. -/
def initializeFieldsFrom (cp : List cp_info) (flagsAccept flagsRegect : u2) :
    List field_info → Outcome Fields
  | [] => pure []
  | fieldInfo :: rest => do
      if fieldInfo.access_flags &&& flagsAccept ≠ 0 ∧ fieldInfo.access_flags &&& flagsRegect = 0
      then
        let name ← getUTF8FromConstantPool cp fieldInfo.name_index
        let descriptor ← getUTF8FromConstantPool cp fieldInfo.descriptor_index
        let tail ← initializeFieldsFrom cp flagsAccept flagsRegect rest
        pure (FieldsTable.mk name descriptor (classInitializeField descriptor) fieldInfo :: tail)
      else initializeFieldsFrom cp flagsAccept flagsRegect rest

def classInitializeFields (arqClass : ArqClass) (flagsAccept flagsRegect : u2) : Outcome Fields :=
  initializeFieldsFrom arqClass.constant_pool flagsAccept flagsRegect arqClass.fields

/-- The class record after `classPreparing`. -/
def classPreparing (arqClass : ArqClass) : Outcome JavaClass := do
  let staticFields ← classInitializeFields arqClass ACC_STATIC ACC_FINAL
  pure (JavaClass.mk [] arqClass staticFields)

/-- Registration at the end of the class table; the pointer to the record is its position. -/
def addJavaClassToMethodArea (javaClass : JavaClass) (env : Environment) :
    Outcome (JavaClassPtr × Environment) := do
  let name ← getClassNameFromConstantPool javaClass.arqClass.constant_pool
    javaClass.arqClass.this_class
  pure (JavaClassPtr.loaded env.methodArea.classTable.length,
    { env with methodArea :=
        MethodArea.mk (env.methodArea.classTable ++ [ClassTable.mk name javaClass]) })

/-- A function that loads a class by name, as `loadCLass` does. -/
abbrev Loader := String → Environment → Outcome (JavaClassPtr × Environment)

/-- The body of `getClass`, over the loader it falls back to. -/
def getClassWith (load : Loader) (qualifiedName : String) (env : Environment) :
    Outcome (JavaClassPtr × Environment) :=
  match findJavaClassOnMethodArea qualifiedName env.methodArea with
  | some javaClass => pure (javaClass, env)
  | none => load qualifiedName env

/-- The body of `pushFrame`, over the loader `getClass` falls back to.  The frame is linked
before its class is resolved, so frames pushed while the class loads lie above it; the result is
the new frame, as its level in the stack, and the environment. -/
def pushFrameWith (load : Loader) (env : Environment) (className methodName
    methodDescriptor : String) : Outcome (Nat × Environment) := do
  let lvl := env.thread.vmStack.length
  let newFrame : Frame := Frame.mk JavaClassPtr.stub none env.thread.PC [] none
  let env : Environment :=
    { env with thread := { PC := 0, vmStack := newFrame :: env.thread.vmStack } }
  let (javaClassPtr, env) ← getClassWith load className env
  let javaClass ← derefClass env.methodArea javaClassPtr
  match (← getMethodInfoFromClass javaClass methodName methodDescriptor) with
  | none => Outcome.stopAbrupt
  | some method =>
      match (← getCodeAttributeFromMethod javaClass methodName methodDescriptor) with
      | none => Outcome.stopAbrupt
      | some methodCode =>
          let frame ← frameAt env lvl
          pure (lvl, setFrameAt env lvl
            { frame with
                javaClass := javaClassPtr
                method_info := some method
                localVariablesVector := List.replicate methodCode.max_locals 0
                opStk := some [] })

/-- The body of `classInitializer`, over the loader used for the super-class. -/
def classInitializerWith (load : Loader) (javaClass : JavaClass) (env : Environment) :
    Outcome Environment := do
  let superClassName ← getClassNameFromConstantPool javaClass.arqClass.constant_pool
    javaClass.arqClass.super_class
  let env ← (match findJavaClassOnMethodArea superClassName env.methodArea with
    | none => (load superClassName env).bind (fun r => pure r.2)
    | some _ => pure env)
  match (← getMethodInfoFromClass javaClass "<clinit>" "()V") with
  | none => pure env
  | some _ =>
      let env : Environment := { env with thread := { env.thread with PC := env.thread.PC - 1 } }
      let thisName ← getClassNameFromConstantPool javaClass.arqClass.constant_pool
        javaClass.arqClass.this_class
      let (_, env) ← pushFrameWith load env thisName "<clinit>" "()V"
      pure env

/-- Load, verify, prepare, register and initialise the class of `<qualifiedName>.class`.
The fuel bounds the nesting of loads (a class, its super-class, ...). -/
def loadCLass : Nat → Loader
  | 0 => fun _ _ => Outcome.outOfFuel
  | fuel + 1 => fun qualifiedName env =>
      match env.classFiles.lookup (qualifiedName ++ ".class") with
      | none => Outcome.stopAbrupt
      | some arqClass => do
          let opResult ← classVerifier arqClass
          if opResult ≠ LinkageSuccess then Outcome.stopAbrupt
          else
            let javaClass ← classPreparing arqClass
            let (ptr, env) ← addJavaClassToMethodArea javaClass env
            let env ← classInitializerWith (loadCLass fuel) javaClass env
            pure (ptr, env)

def getClass (fuel : Nat) : Loader := getClassWith (loadCLass fuel)

def pushFrame (fuel : Nat) (env : Environment) (className methodName methodDescriptor : String) :
    Outcome (Nat × Environment) :=
  pushFrameWith (loadCLass fuel) env className methodName methodDescriptor

/-! ## Method invocation (`executionengine.c`) -/

/-- The emulation of library methods (`javaLibExecuteMethod` of `util.c`), which the invoke
handlers call for classes of `java/`; it is a parameter of the handlers. -/
abbrev Bridge := String → String → String → Environment → Outcome Environment

/-- The two operand bytes after the opcode as a pool index; `PC` is left on the second. -/
def calculatePoolIndexFromCode (method : Option method_info) (constant_pool : List cp_info)
    (env : Environment) : Outcome (u2 × Environment) := do
  let pc1 := env.thread.PC + 1
  let b1 ← getByteCodeFromMethod method constant_pool pc1
  let pc2 := pc1 + 1
  let b2 ← getByteCodeFromMethod method constant_pool pc2
  pure (((b1 <<< 8) ||| b2) % 65536, { env with thread := { env.thread with PC := pc2 } })

/-- The loop `for (i = 0; i < nParams; i++) params[i] = popFromOperandStack(thread)`. -/
def popParams : Nat → Environment → Outcome (List u4 × Environment)
  | 0, env => pure ([], env)
  | n + 1, env => do
      let (value, env) ← popFromOperandStack env
      let (rest, env) ← popParams n env
      pure (value :: rest, env)

/-- The loop `for (i = 0; i < nParams; i++) newFrame->localVariablesVector[i+first] = params[i]`
from `i` on. -/
def storeParams (newFrame : Nat) : Nat → List u4 → Environment → Outcome Environment
  | _, [], env => pure env
  | i, value :: rest, env => do
      let env ← writeLocal newFrame i value env
      storeParams newFrame (i + 1) rest env

/-- The walk of `isClassSubClassFromClass`; the result of the recursive call is dropped by the
source, so only equal names give 1. -/
def isClassSubClassFromClass (load : Loader) :
    Nat → String → String → Environment → Outcome (Nat × Environment)
  | 0, _, _, _ => Outcome.outOfFuel
  | fuel + 1, className, supClassName, env =>
      if className = supClassName then pure (1, env)
      else do
        let (ptr, env) ← getClassWith load className env
        let javaClass ← derefClass env.methodArea ptr
        let superName ← getClassNameFromConstantPool javaClass.arqClass.constant_pool
          javaClass.arqClass.super_class
        if javaLibIsFrom superName then pure (0, env)
        else do
          let (_, env) ← isClassSubClassFromClass load fuel superName supClassName env
          pure (0, env)

/-- The search for a method in a class and then up its super-classes; the result is the method
and the name of the class that declares it. -/
def isMethodInClassOrSuperClass (load : Loader) :
    Nat → JavaClassPtr → String → String → Environment →
      Outcome (method_info × String × Environment)
  | 0, _, _, _, _ => Outcome.outOfFuel
  | fuel + 1, objectClass, method_name, method_descriptor, env => do
      let javaClass ← derefClass env.methodArea objectClass
      match (← getMethodInfoFromClass javaClass method_name method_descriptor) with
      | some method =>
          let method_class_name ← getClassNameFromConstantPool javaClass.arqClass.constant_pool
            javaClass.arqClass.this_class
          pure (method, method_class_name, env)
      | none =>
          let superClassName ← getClassNameFromConstantPool javaClass.arqClass.constant_pool
            javaClass.arqClass.super_class
          if javaLibIsFrom superClassName then JVMThrow AbstractMethodError env
          else do
            let (superClass, env) ← getClassWith load superClassName env
            isMethodInClassOrSuperClass load fuel superClass method_name method_descriptor env

def invokevirtual (fuel : Nat) (javaLibExecuteMethod : Bridge) (env : Environment) :
    Outcome Environment := do
  let top ← getCurrentFrame env
  let actual_class ← derefClass env.methodArea top.javaClass
  let (index, env) ← calculatePoolIndexFromCode top.method_info
    actual_class.arqClass.constant_pool env
  let (class_name, method_name, method_descriptor) ←
    getFieldOrMethodInfoAttributesFromConstantPool index actual_class.arqClass.constant_pool
  if javaLibIsFrom class_name then
    javaLibExecuteMethod class_name method_name method_descriptor env
  else
    let nParams := getParameterNumberFromMethodDescriptor method_descriptor
    let (params, env) ← popParams nParams.toNat env
    let (objectRef, env) ← popFromOperandStack env
    if objectRef = 0 then JVMThrow NullPointerException env
    else
      let object ← derefObject env objectRef
      let (method, class_name, env) ← isMethodInClassOrSuperClass (loadCLass fuel) fuel
        object.handler.javaClass method_name method_descriptor env
      if method.access_flags &&& ACC_ABSTRACT ≠ 0 then JVMThrow AbstractMethodError env
      else
        let (newFrame, env) ← pushFrame fuel env class_name method_name method_descriptor
        let env : Environment := { env with thread := { env.thread with PC := env.thread.PC - 1 } }
        let env ← writeLocal newFrame 0 objectRef env
        storeParams newFrame 1 params env

/-- The test of `verifyInvokeSpecial`: the three conditions are computed and the function
returns in either case. -/
def verifyInvokeSpecial (fuel : Nat) (method_class : JavaClassPtr) (env : Environment) :
    Outcome Environment := do
  let top ← getCurrentFrame env
  let actual_class ← derefClass env.methodArea top.javaClass
  let actual_class_name ← getClassNameFromConstantPool actual_class.arqClass.constant_pool
    actual_class.arqClass.this_class
  let methodClass ← derefClass env.methodArea method_class
  let method_class_name ← getClassNameFromConstantPool methodClass.arqClass.constant_pool
    methodClass.arqClass.this_class
  let (_, env) ← isClassSubClassFromClass (loadCLass fuel) fuel actual_class_name
    method_class_name env
  pure env

def invokespecial (fuel : Nat) (javaLibExecuteMethod : Bridge) (env : Environment) :
    Outcome Environment := do
  let top ← getCurrentFrame env
  let actual_class ← derefClass env.methodArea top.javaClass
  let (index, env) ← calculatePoolIndexFromCode top.method_info
    actual_class.arqClass.constant_pool env
  let (class_name, method_name, method_descriptor) ←
    getFieldOrMethodInfoAttributesFromConstantPool index actual_class.arqClass.constant_pool
  if javaLibIsFrom class_name then
    javaLibExecuteMethod class_name method_name method_descriptor env
  else
    let (method_class, env) ← getClass fuel class_name env
    let nParams := getParameterNumberFromMethodDescriptor method_descriptor
    let (params, env) ← popParams nParams.toNat env
    let (objectRef, env) ← popFromOperandStack env
    if objectRef = 0 then JVMThrow NullPointerException env
    else
      let env ← verifyInvokeSpecial fuel method_class env
      let object ← derefObject env objectRef
      let (method, class_name, env) ← isMethodInClassOrSuperClass (loadCLass fuel) fuel
        object.handler.javaClass method_name method_descriptor env
      if method.access_flags &&& ACC_STATIC ≠ 0 then JVMThrow IncompatibleClassChangeError env
      else if method.access_flags &&& ACC_ABSTRACT ≠ 0 then JVMThrow AbstractMethodError env
      else
        let (newFrame, env) ← pushFrame fuel env class_name method_name method_descriptor
        let env : Environment := { env with thread := { env.thread with PC := env.thread.PC - 1 } }
        let env ← writeLocal newFrame 0 objectRef env
        storeParams newFrame 1 params env

def invokestatic (fuel : Nat) (javaLibExecuteMethod : Bridge) (env : Environment) :
    Outcome Environment := do
  let top ← getCurrentFrame env
  let actual_class ← derefClass env.methodArea top.javaClass
  let (index, env) ← calculatePoolIndexFromCode top.method_info
    actual_class.arqClass.constant_pool env
  let (class_name, method_name, method_descriptor) ←
    getFieldOrMethodInfoAttributesFromConstantPool index actual_class.arqClass.constant_pool
  if javaLibIsFrom class_name then
    javaLibExecuteMethod class_name method_name method_descriptor env
  else
    let (method_class, env) ← getClass fuel class_name env
    let nParams := getParameterNumberFromMethodDescriptor method_descriptor
    let (params, env) ← popParams nParams.toNat env
    let methodClass ← derefClass env.methodArea method_class
    match (← getMethodInfoFromClass methodClass method_name method_descriptor) with
    | none => Outcome.undefined
    | some method =>
        if method.access_flags &&& ACC_STATIC = 0 then JVMThrow IncompatibleClassChangeError env
        else
          let (newFrame, env) ← pushFrame fuel env class_name method_name method_descriptor
          let env : Environment :=
            { env with thread := { env.thread with PC := env.thread.PC - 1 } }
          storeParams newFrame 0 params env

def invokeinterface (fuel : Nat) (javaLibExecuteMethod : Bridge) (env : Environment) :
    Outcome Environment := do
  let top ← getCurrentFrame env
  let actual_class ← derefClass env.methodArea top.javaClass
  let (index, env) ← calculatePoolIndexFromCode top.method_info
    actual_class.arqClass.constant_pool env
  let (class_name, method_name, method_descriptor) ←
    getFieldOrMethodInfoAttributesFromConstantPool index actual_class.arqClass.constant_pool
  if javaLibIsFrom class_name then
    javaLibExecuteMethod class_name method_name method_descriptor env
  else
    let nParams := getParameterNumberFromMethodDescriptor method_descriptor
    let (params, env) ← popParams nParams.toNat env
    let (objectRef, env) ← popFromOperandStack env
    let env : Environment := { env with thread := { env.thread with PC := env.thread.PC + 2 } }
    if objectRef = 0 then JVMThrow NullPointerException env
    else
      let object ← derefObject env objectRef
      let (method, _, env) ← isMethodInClassOrSuperClass (loadCLass fuel) fuel
        object.handler.javaClass method_name method_descriptor env
      if method.access_flags &&& ACC_ABSTRACT ≠ 0 then JVMThrow AbstractMethodError env
      else if method.access_flags &&& ACC_PUBLIC = 0 then JVMThrow IllegalAccessError env
      else
        let object ← derefObject env objectRef
        let objectClass ← derefClass env.methodArea object.handler.javaClass
        let class_name ← getClassNameFromConstantPool objectClass.arqClass.constant_pool
          objectClass.arqClass.this_class
        let (newFrame, env) ← pushFrame fuel env class_name method_name method_descriptor
        let env : Environment := { env with thread := { env.thread with PC := env.thread.PC - 1 } }
        let env ← writeLocal newFrame 0 objectRef env
        storeParams newFrame 1 params env

/-! ## Field access (`executionengine.c`) -/

/-- The read `*value_reference` of `width` bytes through a pointer to a field cell: a `NULL`
pointer, a cell shorter than the read and a cell never written are undefined; a longer cell
yields its low-order bytes (little-endian host). -/
def readCell (fields : Fields) (value_reference : Option Nat) (width : Nat) : Outcome Nat :=
  match value_reference with
  | none => Outcome.undefined
  | some i =>
      match fields.get? i with
      | none => Outcome.undefined
      | some entry =>
          if width ≤ entry.memoryAddress.size then
            match entry.memoryAddress.bits with
            | some bits => pure (bits % 2 ^ (8 * width))
            | none => Outcome.undefined
          else Outcome.undefined

/-- The read of an instance field of `width` bytes: `getObjectAttributeReference` and the
dereference of its result. -/
def readObjectField (env : Environment) (objectRef : u4) (attribute_name : String)
    (width : Nat) : Outcome Nat := do
  let value_reference ← getObjectAttributeReference env objectRef attribute_name
  let object ← derefObject env objectRef
  readCell object.handler.fields value_reference width

def getfield (env : Environment) : Outcome Environment := do
  let top ← getCurrentFrame env
  let (objectRef, env) ← popFromOperandStack env
  let actual_class ← derefClass env.methodArea top.javaClass
  let (index, env) ← calculatePoolIndexFromCode top.method_info
    actual_class.arqClass.constant_pool env
  let (class_name, attribute_name, attribute_descriptor) ←
    getFieldOrMethodInfoAttributesFromConstantPool index actual_class.arqClass.constant_pool
  if javaLibIsFrom class_name then pure env
  else if attribute_descriptor = "J" ∨ attribute_descriptor = "D" then
    let value ← readObjectField env objectRef attribute_name 8
    let high_bytes := value >>> 32
    let low_bytes := value &&& 0xFFFFFFFF
    let env ← pushInOperandStack env low_bytes
    pushInOperandStack env high_bytes
  else if attribute_descriptor = "B" ∨ attribute_descriptor = "C" ∨ attribute_descriptor = "Z"
  then
    let value ← readObjectField env objectRef attribute_name 1
    pushInOperandStack env value
  else if attribute_descriptor = "S" then
    let value ← readObjectField env objectRef attribute_name 2
    pushInOperandStack env value
  else
    let value ← readObjectField env objectRef attribute_name 4
    pushInOperandStack env value

/-! ## Array access (`executionengine.c`) -/

/-- The element reached by `arrayAddress + index * sizeof(u4)`: the byte offset is computed in
the 32-bit `size_t` of the address space the 32-bit references live in. -/
def wordElement (index : u4) : Nat := (index * 4) % 4294967296 / 4

def iaload (env : Environment) : Outcome Environment := do
  let (index, env) ← popFromOperandStack env
  let (arrayref, env) ← popFromOperandStack env
  let array_info ← derefArray env arrayref
  let elems ← derefBlock env array_info.arrayAddress
  let valor_numerico ← Outcome.ofOption (elems.get? (wordElement index))
  pushInOperandStack env valor_numerico

def aaload (env : Environment) : Outcome Environment := do
  let (index, env) ← popFromOperandStack env
  let (arrayref, env) ← popFromOperandStack env
  let array_info ← derefArray env arrayref
  if index ≥ array_info.count then JVMThrow ArrayIndexOutOfBoundsException env
  else
    let elems ← derefBlock env array_info.arrayAddress
    let valor_numerico ← Outcome.ofOption (elems.get? index)
    pushInOperandStack env valor_numerico

def iastore (env : Environment) : Outcome Environment := do
  let (valor_numerico, env) ← popFromOperandStack env
  let (index, env) ← popFromOperandStack env
  let (arrayref, env) ← popFromOperandStack env
  let array_info ← derefArray env arrayref
  let elems ← derefBlock env array_info.arrayAddress
  if wordElement index < elems.length then
    let elems := elems.set (wordElement index) valor_numerico
    pure { env with heap := heapStore env.heap array_info.arrayAddress (HeapCell.block elems) }
  else Outcome.undefined

def arraylength (env : Environment) : Outcome Environment := do
  let (arrayref, env) ← popFromOperandStack env
  let array_info ← derefArray env arrayref
  if array_info.arrayAddress = 0 then JVMThrow NullPointerException env
  else pushInOperandStack env array_info.count

/-! ## Return (`executionengine.c`) -/

def ireturn (env : Environment) : Outcome Environment := do
  let _ ← getCurrentFrame env
  let (conteudo, env) ← popFromOperandStack env
  let env ← popFrame env
  pushInOperandStack env conteudo

def lreturn (env : Environment) : Outcome Environment := do
  let _ ← getCurrentFrame env
  let (conteudo1, env) ← popFromOperandStack env
  let (conteudo2, env) ← popFromOperandStack env
  let env ← popFrame env
  let env ← pushInOperandStack env conteudo2
  pushInOperandStack env conteudo1

def freturn (env : Environment) : Outcome Environment := do
  let _ ← getCurrentFrame env
  let (conteudo, env) ← popFromOperandStack env
  let env ← popFrame env
  pushInOperandStack env conteudo

def dreturn (env : Environment) : Outcome Environment := do
  let _ ← getCurrentFrame env
  let (conteudo1, env) ← popFromOperandStack env
  let (conteudo2, env) ← popFromOperandStack env
  let env ← popFrame env
  let env ← pushInOperandStack env conteudo2
  pushInOperandStack env conteudo1

def areturn (env : Environment) : Outcome Environment := do
  let _ ← getCurrentFrame env
  let (conteudo, env) ← popFromOperandStack env
  let env ← popFrame env
  pushInOperandStack env conteudo

def return_ (env : Environment) : Outcome Environment := do
  let _ ← getCurrentFrame env
  popFrame env

/-! ## The interpreter loop (`executionengine.c`) -/

/-- A handler of the dispatcher. -/
abbrev instruction := Environment → Outcome Environment

/-- Step 1 of the loop of `execute`: the opcode at `PC` in the method of the top frame. -/
def fetchOpcode (env : Environment) : Outcome u1 := do
  let top ← getCurrentFrame env
  let javaClass ← derefClass env.methodArea top.javaClass
  getByteCodeFromMethod top.method_info javaClass.arqClass.constant_pool env.thread.PC

/-- One iteration of the loop of `execute`: fetch, decode, run the handler, `PC++`.  The
dispatcher `decode` switches on the `OP_` constants of `opcodes.h`; it is a parameter here and
either yields a handler, yields `NULL`, or stops the VM. -/
def executeStep (decode : u1 → Outcome (Option instruction)) (env : Environment) :
    Outcome Environment := do
  let opcode ← fetchOpcode env
  let nextInstruction ← decode opcode
  let env ← (match nextInstruction with
    | some handler => handler env
    | none => pure env)
  pure { env with thread := { env.thread with PC := env.thread.PC + 1 } }

/-! ## Integer conversions of the handlers

The C code converts between `u4`, `int`, `int32_t` and `short int`.  A conversion to a signed type
of a value outside its range keeps the low bits (two's complement), as the compilers of the
platform do. -/

/-- The value of a 32-bit word read as `int`. -/
def toInt32 (word : Nat) : Int :=
  if word % 4294967296 < 2147483648 then ((word % 4294967296 : Nat) : Int)
  else ((word % 4294967296 : Nat) : Int) - 4294967296

/-- The 32-bit word of an `int` value. -/
def ofInt32 (value : Int) : Nat := (value % 4294967296).toNat

/-- The value of a 16-bit pattern read as `short int`. -/
def toShort (pattern : Nat) : Int :=
  if pattern % 65536 < 32768 then ((pattern % 65536 : Nat) : Int)
  else ((pattern % 65536 : Nat) : Int) - 65536

/-- The 16-bit pattern of an `int` value converted to `short int`. -/
def ofShort (value : Int) : Nat := (value % 65536).toNat

/-! ## Comparison and branch (`executionengine.c`) -/

/-- The statement `environment->thread->PC += n`. -/
def addPC (env : Environment) (n : Int) : Environment :=
  { env with thread := { env.thread with PC := env.thread.PC + n } }

/-- The statement `environment->thread->PC = pc`. -/
def setPC (env : Environment) (pc : Int) : Environment :=
  { env with thread := { env.thread with PC := pc } }

/-- The byte at `PC` of the code of the top frame, as the handlers read it into a `u1`. -/
def codeByteAtPC (env : Environment) : Outcome u1 := do
  let top ← getCurrentFrame env
  let javaClass ← derefClass env.methodArea top.javaClass
  let byte ← getByteCodeFromMethod top.method_info javaClass.arqClass.constant_pool env.thread.PC
  pure (byte % 256)

/-- The `short int offset` of the conditional branches: `offset = (u2)byte1; offset = offset << 8;
offset |= byte2; offset -= 3`, each assignment converting back to `short int`. -/
def branchOffset (byte1 byte2 : u1) : Int :=
  let offset := toShort byte1
  let offset := toShort (ofShort (offset * 256))
  let offset := toShort (ofShort offset ||| byte2)
  toShort (ofShort (offset - 3))

/-- The common body of `ifeq`, `ifne`, `iflt`, `ifge`, `ifgt`, `ifle`, which differ in the test
on the popped word only. -/
def ifBranch (test : u4 → Bool) (env : Environment) : Outcome Environment := do
  let env := addPC env 1
  let byte1 ← codeByteAtPC env
  let env := addPC env 1
  let byte2 ← codeByteAtPC env
  let offset := branchOffset byte1 byte2
  let (operando, env) ← popFromOperandStack env
  if test operando then pure (addPC env offset) else pure env

def ifeq : Environment → Outcome Environment := ifBranch (fun operando => operando = 0)

def ifne : Environment → Outcome Environment := ifBranch (fun operando => operando ≠ 0)

def iflt : Environment → Outcome Environment := ifBranch (fun operando => toInt32 operando < 0)

def ifge : Environment → Outcome Environment := ifBranch (fun operando => toInt32 operando ≥ 0)

def ifgt : Environment → Outcome Environment := ifBranch (fun operando => toInt32 operando > 0)

def ifle : Environment → Outcome Environment := ifBranch (fun operando => toInt32 operando ≤ 0)

/-- The common body of the six `if_icmp` handlers: `operando1` is popped first, `operando2`
second, both converted to `int`, and the test is applied to `operando2` and `operando1`. -/
def ifIcmpBranch (test : Int → Int → Bool) (env : Environment) : Outcome Environment := do
  let env := addPC env 1
  let byte1 ← codeByteAtPC env
  let env := addPC env 1
  let byte2 ← codeByteAtPC env
  let offset := branchOffset byte1 byte2
  let (word1, env) ← popFromOperandStack env
  let operando1 := toInt32 word1
  let (word2, env) ← popFromOperandStack env
  let operando2 := toInt32 word2
  if test operando2 operando1 then pure (addPC env offset) else pure env

def if_icmpeq : Environment → Outcome Environment :=
  ifIcmpBranch (fun operando2 operando1 => operando2 = operando1)

def if_icmpne : Environment → Outcome Environment :=
  ifIcmpBranch (fun operando2 operando1 => operando2 ≠ operando1)

def if_icmplt : Environment → Outcome Environment :=
  ifIcmpBranch (fun operando2 operando1 => operando2 < operando1)

def if_icmpge : Environment → Outcome Environment :=
  ifIcmpBranch (fun operando2 operando1 => operando2 ≥ operando1)

def if_icmpgt : Environment → Outcome Environment :=
  ifIcmpBranch (fun operando2 operando1 => operando2 > operando1)

def if_icmple : Environment → Outcome Environment :=
  ifIcmpBranch (fun operando2 operando1 => operando2 ≤ operando1)

/-- The handler `ret`: the operand byte indexes the locals of the top frame and the word found
there is stored in `PC` (an `int`). -/
def ret (env : Environment) : Outcome Environment := do
  let env := addPC env 1
  let index_argument ← codeByteAtPC env
  let top ← getCurrentFrame env
  let word ← Outcome.ofOption (top.localVariablesVector.get? index_argument)
  pure (setPC env (toInt32 word))

/-- The loop `for (i = 0; i < n; i++) { byte = code[PC]; x |= byte; x = x << 8; PC++; }` of the
switch handlers, on the 32-bit pattern of `x`.  For the `int32_t` variables of `tableswitch` the
shift keeps the low 32 bits, as it does for the `u4` variables of `lookupswitch`. -/
def loadBytes : Nat → u4 → Environment → Outcome (u4 × Environment)
  | 0, x, env => pure (x, env)
  | n + 1, x, env => do
    let byte ← codeByteAtPC env
    loadBytes n (((x ||| byte) * 256) % 4294967296) (addPC env 1)

/-- The four-byte read of the switch handlers: three rounds of `loadBytes`, then
`x |= byte; PC++`. -/
def loadWord (env : Environment) : Outcome (u4 × Environment) := do
  let (x, env) ← loadBytes 3 0 env
  let byte ← codeByteAtPC env
  pure (x ||| byte, addPC env 1)

/-- The handler `tableswitch`, with `int32_t` variables.  A product `index * 4` outside the
range of `int32_t` is undefined. -/
def tableswitch (env : Environment) : Outcome Environment := do
  let opCode := env.thread.PC
  let env := addPC env 1
  let pad := Int.tmod env.thread.PC 4
  let env := if pad ≠ 0 then addPC env (4 - pad) else env
  let (def_, env) ← loadWord env
  let (low, env) ← loadWord env
  let (high, env) ← loadWord env
  let (word, env) ← popFromOperandStack env
  let index := toInt32 word
  if index < toInt32 low ∨ index > toInt32 high then
    pure (setPC env (toInt32 def_ + opCode))
  else if index * 4 < -2147483648 ∨ index * 4 > 2147483647 then Outcome.undefined
  else do
    let env := if 0 < index * 4 then addPC env (index * 4) else env
    let (offset, env) ← loadBytes 3 0 env
    let byte ← codeByteAtPC env
    let offset := offset ||| ofInt32 ((byte : Int) + opCode)
    pure (setPC env (toInt32 offset))

/-- The loop of `lookupswitch` that fills the `npairs` pairs `(match, offset)`. -/
def loadPairs : Nat → Environment → Outcome (List (u4 × u4) × Environment)
  | 0, env => pure ([], env)
  | n + 1, env => do
    let (match_, env) ← loadWord env
    let (offset, env) ← loadWord env
    let (pairs, env) ← loadPairs n env
    pure ((match_, offset) :: pairs, env)

/-- The handler `lookupswitch`, with `u4` variables.  With `npairs = 0` the statement
`auxiliar->match = 0` writes through the result of `calloc(0, ...)`, which is undefined. -/
def lookupswitch (env : Environment) : Outcome Environment := do
  let opCode := ofInt32 env.thread.PC
  let env := addPC env 1
  let pad := ofInt32 (Int.tmod env.thread.PC 4)
  let env := if pad ≠ 0 then addPC env (((4 + 4294967296 - pad) % 4294967296 : Nat) : Int)
    else env
  let (def_, env) ← loadWord env
  let (npairs, env) ← loadWord env
  if npairs = 0 then Outcome.undefined
  else do
    let (pairs, env) ← loadPairs npairs env
    let (key, env) ← popFromOperandStack env
    match pairs.find? (fun pair => key = pair.1) with
    | some pair => pure (setPC env (toInt32 ((pair.2 + opCode) % 4294967296)))
    | none => pure (setPC env (toInt32 ((def_ + opCode) % 4294967296)))

/-- The `short int index` of `ifnull` and `ifnonnull`: `index = (u2)byte1; index = index << 8;
index |= (u2)byte2`. -/
def nullIndex (byte1 byte2 : u1) : Int :=
  let index := toShort byte1
  let index := toShort (ofShort (index * 256))
  toShort (ofShort index ||| byte2)

/-- The statement `top->returnPC += n`. -/
def addReturnPC (env : Environment) (n : Int) : Outcome Environment := do
  let top ← getCurrentFrame env
  pure (setCurrentFrame env { top with returnPC := top.returnPC + n })

/-- The handler `ifnull`: the popped word is compared with `-1000` converted to `u4`, and the
field changed is `returnPC` of the top frame. -/
def ifnull (env : Environment) : Outcome Environment := do
  let env := addPC env 1
  let byte1 ← codeByteAtPC env
  let (auxiliar1, env) ← popFromOperandStack env
  let env := addPC env 1
  let byte2 ← codeByteAtPC env
  let index := nullIndex byte1 byte2
  if auxiliar1 = 4294966296 then addReturnPC env (index - 2)
  else addReturnPC env 1

/-- The handler `ifnonnull`: `PC` is not moved, so both reads return the byte at `PC`. -/
def ifnonnull (env : Environment) : Outcome Environment := do
  let byte1 ← codeByteAtPC env
  let env ← addReturnPC env 1
  let (auxiliar1, env) ← popFromOperandStack env
  let byte2 ← codeByteAtPC env
  let env ← addReturnPC env 1
  let index := nullIndex byte1 byte2
  if auxiliar1 ≠ 4294966296 then addReturnPC env (index - 2)
  else addReturnPC env 1

/-- The handler `aconst_null`: pushes `(u4)NULL`. -/
def aconst_null (env : Environment) : Outcome Environment :=
  pushInOperandStack env 0

/-! ## Integer arithmetic (`executionengine.c`) -/

/-- The handler `idiv`: the operands are `u4`; with a zero divisor the message
`ERRO nao pode ser feita divisao por zero` is printed and `div` keeps its initial 0. -/
def idiv (env : Environment) : Outcome Environment := do
  let (operando1, env) ← popFromOperandStack env
  let (operando2, env) ← popFromOperandStack env
  let div := if operando1 = 0 then 0 else operando2 / operando1
  pushInOperandStack env div

/-- The handler `irem`: the operands are `u4` and the divisor is not tested; the remainder by
zero is undefined. -/
def irem (env : Environment) : Outcome Environment := do
  let (operando1, env) ← popFromOperandStack env
  let (operando2, env) ← popFromOperandStack env
  if operando1 = 0 then Outcome.undefined
  else pushInOperandStack env (operando2 % operando1)

/-! ## Static fields (`memoryunit.c`, `executionengine.c`) -/

/-- The pointer `getClassAttributeReference` returns: `NULL`, the cell of entry `index` of the
static fields of a class, or the member `u.Float.bytes` of element `slot` of the constant-pool
array of a class. -/
inductive ValueRef where
  | null
  | staticCell (javaClass : JavaClassPtr) (index : Nat)
  | poolSlot (javaClass : JavaClassPtr) (slot : Nat)
  deriving DecidableEq, Repr

/-- The field `constantvalue_index` that `parseConstantValue` reads from the attribute body. -/
def parseConstantValue (info : List u1) : Outcome u2 := readU2 info 0

/-- The loop of `getConstantValueAtrributeFromField`: the index held by the first attribute
named `ConstantValue`, `none` for `NULL`. -/
def findConstantValue (cp : List cp_info) : List attribute_info → Outcome (Option u2)
  | [] => pure none
  | entry :: rest => do
      let name ← getUTF8FromConstantPool cp entry.attribute_name_index
      if name = "ConstantValue" then
        let constantvalue_index ← parseConstantValue entry.info
        pure (some constantvalue_index)
      else findConstantValue cp rest

def getConstantValueAtrributeFromField (field : field_info) (cp : List cp_info) :
    Outcome (Option u2) :=
  findConstantValue cp field.attributes

/-- The loop of `getClassFinalStaticAttributeReference`: the element of the pool array whose
value is returned, which is `constant_pool[constantvalue_index]`; `none` for `NULL`. -/
def findFinalStatic (cp : List cp_info) (attributeName : String) :
    List field_info → Outcome (Option Nat)
  | [] => pure none
  | field :: rest => do
      let name ← getUTF8FromConstantPool cp field.name_index
      if name = attributeName ∧ field.access_flags &&& ACC_FINAL ≠ 0 ∧
          field.access_flags &&& ACC_STATIC ≠ 0 then
        match (← getConstantValueAtrributeFromField field cp) with
        | some constantvalue_index => pure (some constantvalue_index)
        | none => findFinalStatic cp attributeName rest
      else findFinalStatic cp attributeName rest

def getClassFinalStaticAttributeReference (javaClass : JavaClass) (ptr : JavaClassPtr)
    (attributeName : String) : Outcome ValueRef := do
  match (← findFinalStatic javaClass.arqClass.constant_pool attributeName
      javaClass.arqClass.fields) with
  | some slot => pure (ValueRef.poolSlot ptr slot)
  | none => pure ValueRef.null

/-- The cell of a static field: the class is fetched with `getClass`, which loads it when it is
not in the method area. -/
def getClassAttributeReference (fuel : Nat) (className attributeName : String)
    (env : Environment) : Outcome (ValueRef × Environment) := do
  let (ptr, env) ← getClass fuel className env
  let class_ ← derefClass env.methodArea ptr
  match findField attributeName class_.staticFields 0 with
  | some i => pure (ValueRef.staticCell ptr i, env)
  | none =>
      let ref ← getClassFinalStaticAttributeReference class_ ptr attributeName
      pure (ref, env)

/-- The read `*value_reference` of `width` bytes through the result of
`getClassAttributeReference`.  In a pool element the member read is the first `u4` of the union:
`bytes` of an `Integer` or `Float`, `high_bytes` of a `Long` or `Double`, followed by
`low_bytes` (little-endian host); any other read is undefined. -/
def readReference (env : Environment) (value_reference : ValueRef) (width : Nat) :
    Outcome Nat :=
  match value_reference with
  | ValueRef.null => Outcome.undefined
  | ValueRef.staticCell ptr i => do
      let class_ ← derefClass env.methodArea ptr
      readCell class_.staticFields (some i) width
  | ValueRef.poolSlot ptr slot => do
      let class_ ← derefClass env.methodArea ptr
      match class_.arqClass.constant_pool.get? slot with
      | some (cp_info.Integer bytes) =>
          if width ≤ 4 then pure (bytes % 2 ^ (8 * width)) else Outcome.undefined
      | some (cp_info.Float bytes) =>
          if width ≤ 4 then pure (bytes % 2 ^ (8 * width)) else Outcome.undefined
      | some (cp_info.Long high_bytes low_bytes) =>
          if width ≤ 8 then pure ((high_bytes + low_bytes * 4294967296) % 2 ^ (8 * width))
          else Outcome.undefined
      | some (cp_info.Double high_bytes low_bytes) =>
          if width ≤ 8 then pure ((high_bytes + low_bytes * 4294967296) % 2 ^ (8 * width))
          else Outcome.undefined
      | _ => Outcome.undefined

/-- The handler `getstatic`.  The emulation of library fields (`javaLibGetStatic` of `util.c`)
is a parameter; the value read is pushed on the frame that is on top after the class was
fetched. -/
def getstatic (fuel : Nat) (javaLibGetStatic : Bridge) (env : Environment) :
    Outcome Environment := do
  let top ← getCurrentFrame env
  let actual_class ← derefClass env.methodArea top.javaClass
  let (index, env) ← calculatePoolIndexFromCode top.method_info
    actual_class.arqClass.constant_pool env
  let (class_name, attribute_name, attribute_descriptor) ←
    getFieldOrMethodInfoAttributesFromConstantPool index actual_class.arqClass.constant_pool
  if javaLibIsFrom class_name then
    javaLibGetStatic class_name attribute_name attribute_descriptor env
  else if attribute_descriptor = "J" ∨ attribute_descriptor = "D" then
    let (value_reference, env) ← getClassAttributeReference fuel class_name attribute_name env
    let value ← readReference env value_reference 8
    let high_bytes := value >>> 32
    let low_bytes := value &&& 0xFFFFFFFF
    let env ← pushInOperandStack env low_bytes
    pushInOperandStack env high_bytes
  else if attribute_descriptor = "B" ∨ attribute_descriptor = "C" ∨ attribute_descriptor = "Z"
  then
    let (value_reference, env) ← getClassAttributeReference fuel class_name attribute_name env
    let value ← readReference env value_reference 1
    pushInOperandStack env value
  else if attribute_descriptor = "S" then
    let (value_reference, env) ← getClassAttributeReference fuel class_name attribute_name env
    let value ← readReference env value_reference 2
    pushInOperandStack env value
  else
    let (value_reference, env) ← getClassAttributeReference fuel class_name attribute_name env
    let value ← readReference env value_reference 4
    pushInOperandStack env value

/-- The handler `nop`. -/
def nop (env : Environment) : Outcome Environment := pure env

/-! ## Shifts (`executionengine.c`, `executionengine.h`) -/

def SHIFT_MASK_UNSI : Nat := 0xffffffff
def SHIFT_MASK_32 : Nat := 0x1F
def SHIFT_MASK_64 : Nat := 0x3F

/-- The handler `ishl`: the operands and the result are `u4`. -/
def ishl (env : Environment) : Outcome Environment := do
  let (operando1, env) ← popFromOperandStack env
  let (operando2, env) ← popFromOperandStack env
  let operando1 := operando1 &&& SHIFT_MASK_32
  pushInOperandStack env ((operando2 <<< operando1) % 4294967296)

/-- The handler `ishr`: the operands and the result are `u4`, so `>>` shifts zeros in. -/
def ishr (env : Environment) : Outcome Environment := do
  let (operando1, env) ← popFromOperandStack env
  let (operando2, env) ← popFromOperandStack env
  let operando1 := operando1 &&& SHIFT_MASK_32
  pushInOperandStack env ((operando2 % 4294967296) >>> operando1)

/-- The handler `lshl`: the count is popped first, then the high and the low word of the
value; the count is masked with `SHIFT_MASK_32` and the shift is done in `u8`. -/
def lshl (env : Environment) : Outcome Environment := do
  let (operandoPilha1, env) ← popFromOperandStack env
  let operando1_64 := operandoPilha1 % 4294967296
  let (operandoPilha1, env) ← popFromOperandStack env
  let (operandoPilha2, env) ← popFromOperandStack env
  let operando2_64 := operandoPilha1 % 4294967296
  let operando2_64 := ((operando2_64 <<< 32) % 18446744073709551616) ||| operandoPilha2
  let operando1_64 := operando1_64 &&& SHIFT_MASK_32
  let shl64 := (operando2_64 <<< operando1_64) % 18446744073709551616
  let operandoPilha1 := ((shl64 &&& 0xFFFFFFFF00000000) >>> 32) % 4294967296
  let operandoPilha2 := (shl64 % 4294967296) &&& 0x00000000FFFFFFFF
  let env ← pushInOperandStack env operandoPilha2
  pushInOperandStack env operandoPilha1

/-! ## Type conversion (`executionengine.c`) -/

/-- The value of a word converted to `char`, which is a signed type of 8 bits on the hosts of
the program (x86). -/
def toChar (word : Nat) : Int :=
  if word % 256 < 128 then ((word % 256 : Nat) : Int) else ((word % 256 : Nat) : Int) - 256

/-- The handler `i2l`: the popped word goes through `int32_t` into an `int64_t`; the low word
`aux1 & SHIFT_MASK_UNSI` is pushed first, then the high word `aux1 >> 32` (the shift of a
negative `int64_t` propagates the sign). -/
def i2l (env : Environment) : Outcome Environment := do
  let (word, env) ← popFromOperandStack env
  let aux3 : Int := toInt32 word
  let aux1 : Int := aux3
  let aux2 := ofInt32 aux1 &&& SHIFT_MASK_UNSI
  let env ← pushInOperandStack env aux2
  let aux2 := ofInt32 (aux1 / 4294967296)
  pushInOperandStack env aux2

/-- The handler `l2i`: the high word is popped and dropped, the low word is popped and pushed
again. -/
def l2i (env : Environment) : Outcome Environment := do
  let (_, env) ← popFromOperandStack env
  let (aux1, env) ← popFromOperandStack env
  pushInOperandStack env (aux1 % 4294967296)

/-- The handler `i2b`: `aux1 = (char) pop; push((int32_t) aux1)`. -/
def i2b (env : Environment) : Outcome Environment := do
  let (word, env) ← popFromOperandStack env
  let aux1 := toChar word
  pushInOperandStack env (ofInt32 aux1)

/-- The handler `i2c`, whose body is that of `i2b`: `aux1 = (char) pop;
push((int32_t) aux1)`. -/
def i2c (env : Environment) : Outcome Environment := do
  let (word, env) ← popFromOperandStack env
  let aux1 := toChar word
  pushInOperandStack env (ofInt32 aux1)

/-- The handler `i2s`: `aux1 = (short) pop; push((int32_t) aux1)`. -/
def i2s (env : Environment) : Outcome Environment := do
  let (word, env) ← popFromOperandStack env
  let aux1 := toShort word
  pushInOperandStack env (ofInt32 aux1)

/-! ## Transfer between the locals and the operand stack (`executionengine.c`) -/

/-- The read `top->localVariablesVector[i]`; outside the array it is undefined. -/
def loadLocal (env : Environment) (i : Nat) : Outcome u4 := do
  let top ← getCurrentFrame env
  Outcome.ofOption (top.localVariablesVector.get? i)

/-- The assignment `top->localVariablesVector[i] = value`; outside the array it is
undefined. -/
def storeLocal (env : Environment) (i : Nat) (value : u4) : Outcome Environment := do
  let top ← getCurrentFrame env
  if i < top.localVariablesVector.length then
    pure (setCurrentFrame env
      { top with localVariablesVector := top.localVariablesVector.set i value })
  else Outcome.undefined

/-- The common body of the loads of two words: `locals[index]` is read as the high word and
`locals[index + 1]` as the low word; the low word is pushed first. -/
def loadTwoWords (index : Nat) (env : Environment) : Outcome Environment := do
  let valor_numerico_high ← loadLocal env index
  let valor_numerico_low ← loadLocal env (index + 1)
  let env ← pushInOperandStack env valor_numerico_low
  pushInOperandStack env valor_numerico_high

/-- The common body of the stores of two words: the high word is popped first, then the low
word; they go to `locals[index]` and `locals[index + 1]`. -/
def storeTwoWords (index : Nat) (env : Environment) : Outcome Environment := do
  let (valor_numerico_high, env) ← popFromOperandStack env
  let (valor_numerico_low, env) ← popFromOperandStack env
  let env ← storeLocal env index valor_numerico_high
  storeLocal env (index + 1) valor_numerico_low

/-- The handler `lload`: `PC++`, then the operand byte is the index. -/
def lload (env : Environment) : Outcome Environment := do
  let env := addPC env 1
  let index_argument ← codeByteAtPC env
  loadTwoWords index_argument env

/-- The handler `dload`, with the body of `lload`. -/
def dload (env : Environment) : Outcome Environment := do
  let env := addPC env 1
  let index_argument ← codeByteAtPC env
  loadTwoWords index_argument env

def lload_0 : Environment → Outcome Environment := loadTwoWords 0
def lload_1 : Environment → Outcome Environment := loadTwoWords 1
def lload_2 : Environment → Outcome Environment := loadTwoWords 2
def lload_3 : Environment → Outcome Environment := loadTwoWords 3
def dload_0 : Environment → Outcome Environment := loadTwoWords 0
def dload_1 : Environment → Outcome Environment := loadTwoWords 1
def dload_2 : Environment → Outcome Environment := loadTwoWords 2
def dload_3 : Environment → Outcome Environment := loadTwoWords 3

/-- The handler `lstore`: `PC++`, then the operand byte is the index. -/
def lstore (env : Environment) : Outcome Environment := do
  let env := addPC env 1
  let index_argument ← codeByteAtPC env
  storeTwoWords index_argument env

/-- The handler `dstore`, with the body of `lstore`. -/
def dstore (env : Environment) : Outcome Environment := do
  let env := addPC env 1
  let index_argument ← codeByteAtPC env
  storeTwoWords index_argument env

def lstore_0 : Environment → Outcome Environment := storeTwoWords 0
def lstore_1 : Environment → Outcome Environment := storeTwoWords 1
def lstore_2 : Environment → Outcome Environment := storeTwoWords 2
def lstore_3 : Environment → Outcome Environment := storeTwoWords 3
def dstore_0 : Environment → Outcome Environment := storeTwoWords 0
def dstore_1 : Environment → Outcome Environment := storeTwoWords 1
def dstore_2 : Environment → Outcome Environment := storeTwoWords 2
def dstore_3 : Environment → Outcome Environment := storeTwoWords 3

/-- The handler `iinc`: `PC++`, the index byte, `PC++`, the constant byte, which is converted
to `char` and added to the local (a `u4`). -/
def iinc (env : Environment) : Outcome Environment := do
  let env := addPC env 1
  let index ← codeByteAtPC env
  let env := addPC env 1
  let const_ ← codeByteAtPC env
  let constSemSinal := toChar const_
  let word ← loadLocal env index
  storeLocal env index (ofInt32 ((word : Int) + constSemSinal))

/-- The `OP_` constants of `opcodes.h` that `wide` compares its operand with. -/
structure WideOpcodes where
  OP_iload : u1
  OP_fload : u1
  OP_aload : u1
  OP_istore : u1
  OP_fstore : u1
  OP_astore : u1
  OP_lload : u1
  OP_dload : u1
  OP_lstore : u1
  OP_dstore : u1
  OP_ret : u1
  OP_iinc : u1
  deriving DecidableEq, Repr

/-- The handler `wide`: `PC++` and the modified opcode, `PC++` twice and the two index bytes;
then the case of the opcode.  The cases `ret` and `iinc` end with a `TODO` comment: `iinc` reads
the two constant bytes and computes `index_result + constbyte_result` into a variable that is
not used. -/
def wide (ops : WideOpcodes) (env : Environment) : Outcome Environment := do
  let env := addPC env 1
  let opcode_argument ← codeByteAtPC env
  let env := addPC env 1
  let indexbyte1_argument ← codeByteAtPC env
  let env := addPC env 1
  let indexbyte2_argument ← codeByteAtPC env
  let index_result := ((indexbyte1_argument <<< 8) ||| indexbyte2_argument) % 65536
  if opcode_argument = ops.OP_iload ∨ opcode_argument = ops.OP_fload ∨
      opcode_argument = ops.OP_aload then
    let valor_numerico ← loadLocal env index_result
    pushInOperandStack env valor_numerico
  else if opcode_argument = ops.OP_istore ∨ opcode_argument = ops.OP_fstore ∨
      opcode_argument = ops.OP_astore then
    let (valor_numerico, env) ← popFromOperandStack env
    storeLocal env index_result valor_numerico
  else if opcode_argument = ops.OP_lload ∨ opcode_argument = ops.OP_dload then
    loadTwoWords index_result env
  else if opcode_argument = ops.OP_lstore ∨ opcode_argument = ops.OP_dstore then
    storeTwoWords index_result env
  else if opcode_argument = ops.OP_ret then pure env
  else if opcode_argument = ops.OP_iinc then
    let env := addPC env 1
    let _ ← codeByteAtPC env
    let env := addPC env 1
    let _ ← codeByteAtPC env
    pure env
  else pure env

/-! ## Creation of objects (`memoryunit.c`) -/

/-- Link of an object into the list of its class, at the head. -/
def addObjectReferenceToJavaClass (object : Nat) (ptr : JavaClassPtr) (env : Environment) :
    Outcome Environment :=
  match ptr with
  | JavaClassPtr.stub => Outcome.undefined
  | JavaClassPtr.loaded i =>
      match env.methodArea.classTable.get? i with
      | none => Outcome.undefined
      | some entry =>
          let javaClass : JavaClass :=
            { entry.javaClass with objectList := object :: entry.javaClass.objectList }
          let classTable := env.methodArea.classTable.set i { entry with javaClass := javaClass }
          pure { env with methodArea := MethodArea.mk classTable }

/-- The function `newObjectFromClass`.  The address `malloc` returns for the `Object` is the
parameter `address` (0 when `malloc` fails); the field table is the one
`classInitializeFields(javaClass, 0xFFFF, ACC_STATIC)` builds from the fields of the class
itself. -/
def newObjectFromClass (fuel : Nat) (address : Nat) (className : String) (env : Environment) :
    Outcome (Nat × Environment) := do
  let (ptr, env) ← getClass fuel className env
  if address = 0 then Outcome.undefined
  else
    let javaClass ← derefClass env.methodArea ptr
    let fields ← classInitializeFields javaClass.arqClass 0xFFFF ACC_STATIC
    let object : Object := Object.mk (Handler.mk ptr fields)
    let env : Environment := { env with heap := (address, HeapCell.object object) :: env.heap }
    let env ← addObjectReferenceToJavaClass address ptr env
    pure (address, env)

/-! ## The method area at start (`memoryunit.c`) -/

/-- The method area `newMethodArea` creates: `classCount` is 0. -/
def newMethodArea : MethodArea := MethodArea.mk []

/-! ## Opcodes (`opcodes.c`, `executionengine.c`)

The header `opcodes.h`, which gives each constant `OP_<mnemonic>` its number, is not part of
the sources; the functions that switch on these constants take the numbering as a parameter.
Each table below lists the case labels of one `switch` in the order of the source. -/

/-- The numbering of `opcodes.h`: the value of the constant `OP_<mnemonic>`. -/
abbrev OpcodeTable := String → u1

/-- The cases of `getOpcodeName` that end with `break`: the constant and the name returned.
The case `OP_wide` has no `break` and falls through to `default`. -/
def opcodeNameCases : List (String × String) :=
  [
    ("aaload", "aaload"), ("aastore", "aastore"), ("aconst_null", "aconst_null"),
    ("aload", "aload"), ("aload_0", "aload_0"), ("aload_1", "aload_1"), ("aload_2", "aload_2"),
    ("aload_3", "aload_3"), ("anewarray", "anewarray"), ("areturn", "areturn"),
    ("arraylength", "arraylength"), ("astore", "astore"), ("astore_0", "astore_0"),
    ("astore_1", "astore_1"), ("astore_2", "astore_2"), ("astore_3", "astore_3"),
    ("athrow", "athrow"), ("baload", "baload"), ("bastore", "bastore"), ("bipush", "bipush"),
    ("breakpoint", "breakpoint"), ("caload", "caload"), ("castore", "castore"),
    ("checkcast", "checkcast"), ("d2f", "d2f"), ("d2i", "d2i"), ("d2l", "d2l"), ("dadd", "dadd"),
    ("daload", "daload"), ("dastore", "dastore"), ("dcmpg", "dcmpg"), ("dcmpl", "dcmpl"),
    ("dconst_0", "dconst_0"), ("dconst_1", "dconst_1"), ("ddiv", "ddiv"), ("dload", "dload"),
    ("dload_0", "dload_0"), ("dload_1", "dload_1"), ("dload_2", "dload_2"),
    ("dload_3", "dload_3"), ("dmul", "dmul"), ("dneg", "dneg"), ("drem", "Drem"),
    ("dreturn", "dreturn"), ("dstore", "dstore"), ("dstore_0", "dstore_0"),
    ("dstore_1", "dstore_1"), ("dstore_2", "dstore_2"), ("dstore_3", "dstore_3"),
    ("dsub", "dsub"), ("dup", "dup"), ("dup_x1", "dup_x1"), ("dup_x2", "dup_x2"),
    ("dup2", "dup2"), ("dup2_x1", "dup2_x1"), ("dup2_x2", "dup2_x2"), ("f2d", "f2d"),
    ("f2i", "f2i"), ("f2l", "f2l"), ("fadd", "fadd"), ("faload", "faload"),
    ("fastore", "fastore"), ("fcmpg", "fcmpg"), ("fcmpl", "fcmpl"), ("fconst_0", "fconst_0"),
    ("fconst_1", "fconst_1"), ("fconst_2", "fconst_2"), ("fdiv", "fdiv"), ("fload", "fload"),
    ("fload_0", "fload_0"), ("fload_1", "fload_1"), ("fload_2", "fload_2"),
    ("fload_3", "fload_3"), ("fmul", "fmul"), ("fneg", "fneg"), ("frem", "frem"),
    ("freturn", "freturn"), ("fstore", "fstore"), ("fstore_0", "fstore_0"),
    ("fstore_1", "fstore_1"), ("fstore_2", "fstore_2"), ("fstore_3", "fstore_3"),
    ("fsub", "fsub"), ("getfield", "getfield"), ("getstatic", "getstatic"), ("goto", "goto"),
    ("goto_w", "goto_w"), ("i2b", "i2b"), ("i2c", "i2c"), ("i2d", "i2d"), ("i2f", "i2f"),
    ("i2l", "i2l"), ("i2s", "i2s"), ("iadd", "iadd"), ("iaload", "iaload"), ("iand", "iand"),
    ("iastore", "iastore"), ("iconst_m1", "iconst_m1"), ("iconst_0", "iconst_0"),
    ("iconst_1", "iconst_1"), ("iconst_2", "iconst_2"), ("iconst_3", "iconst_3"),
    ("iconst_4", "iconst_4"), ("iconst_5", "iconst_5"), ("idiv", "idiv"),
    ("if_acmpeq", "if_acmpeq"), ("if_acmpne", "if_acmpne"), ("if_icmpeq", "if_icmpeq"),
    ("if_icmpge", "if_icmpge"), ("if_icmpgt", "if_icmpgt"), ("if_icmple", "if_icmple"),
    ("if_icmplt", "if_icmplt"), ("if_icmpne", "if_icmpne"), ("ifeq", "ifeq"), ("ifge", "ifge"),
    ("ifgt", "ifgt"), ("ifle", "ifle"), ("iflt", "iflt"), ("ifne", "ifne"),
    ("ifnonnull", "ifnonnull"), ("ifnull", "ifnull"), ("iinc", "iinc"), ("iload", "iload"),
    ("iload_0", "iload_0"), ("iload_1", "iload_1"), ("iload_2", "iload_2"),
    ("iload_3", "iload_3"), ("impdep1", "impdep1"), ("impdep2", "impdep2"), ("imul", "imul"),
    ("ineg", "ineg"), ("instanceof", "instanceof"), ("invokedynamic", "invokedynamic"),
    ("invokeinterface", "invokeinterface"), ("invokespecial", "invokespecial"),
    ("invokestatic", "invokestatic"), ("invokevirtual", "invokevirtual"), ("ior", "ior"),
    ("irem", "irem"), ("ireturn", "ireturn"), ("ishl", "ishl"), ("ishr", "ishr"),
    ("istore", "istore"), ("istore_0", "istore_0"), ("istore_1", "istore_1"),
    ("istore_2", "istore_2"), ("istore_3", "istore_3"), ("isub", "isub"), ("iushr", "iushr"),
    ("ixor", "ixor"), ("jsr", "jsr"), ("jsr_w", "jsr_w"), ("l2d", "l2d"), ("l2f", "l2f"),
    ("l2i", "l2i"), ("ladd", "ladd"), ("laload", "laload"), ("land", "land"),
    ("lastore", "lastore"), ("lcmp", "lcmp"), ("lconst_0", "lconst_0"), ("lconst_1", "lconst_1"),
    ("ldc", "ldc"), ("ldc_w", "ldc_w"), ("ldc2_w", "ldc2_w"), ("ldiv", "Ldiv"),
    ("lload", "lload"), ("lload_0", "lload_0"), ("lload_1", "lload_1"), ("lload_2", "lload_2"),
    ("lload_3", "lload_3"), ("lmul", "lmul"), ("lneg", "lneg"), ("lookupswitch", "lookupswitch"),
    ("lor", "lor"), ("lrem", "lrem"), ("lreturn", "lreturn"), ("lshl", "lshl"), ("lshr", "lshr"),
    ("lstore", "lstore"), ("lstore_0", "lstore_0"), ("lstore_1", "lstore_1"),
    ("lstore_2", "lstore_2"), ("lstore_3", "lstore_3"), ("lsub", "lsub"), ("lushr", "lushr"),
    ("lxor", "lxor"), ("monitorenter", "monitorenter"), ("monitorexit", "monitorexit"),
    ("multianewarray", "multianewarray"), ("new", "new"), ("newarray", "newarray"),
    ("nop", "nop"), ("pop", "pop"), ("pop2", "pop2"), ("putfield", "putfield"),
    ("putstatic", "putstatic"), ("ret", "ret"), ("return", "return"), ("saload", "saload"),
    ("sastore", "sastore"), ("sipush", "sipush"), ("swap", "swap"), ("tableswitch", "tableswitch") ]

/-- The function `getOpcodeName`; for `OP_wide` and for a byte that is no case label the result
is the empty string of `default`. -/
def getOpcodeName (OP : OpcodeTable) (opcode : u1) : String :=
  match opcodeNameCases.find? (fun c => OP c.1 = opcode) with
  | some c => c.2
  | none => ""

/-- The mnemonics of all the case labels of `getOpcodeName`; being labels of one `switch`, their
constants are different numbers. -/
def opcodeMnemonics : List String := opcodeNameCases.map Prod.fst ++ ["wide"]

/-- The cases of `getOpcodeAttributesNumber` whose result is a constant. -/
def opcodeAttributeCases : List (String × Int) :=
  [
    ("aaload", 0), ("aastore", 0), ("aconst_null", 0), ("aload", 1), ("aload_0", 0),
    ("aload_1", 0), ("aload_2", 0), ("aload_3", 0), ("anewarray", 2), ("areturn", 0),
    ("arraylength", 0), ("astore", 1), ("astore_0", 0), ("astore_1", 0), ("astore_2", 0),
    ("astore_3", 0), ("athrow", 0), ("baload", 0), ("bastore", 0), ("bipush", 1),
    ("breakpoint", 0), ("caload", 0), ("castore", 0), ("checkcast", 2), ("d2f", 0), ("d2i", 0),
    ("d2l", 0), ("dadd", 0), ("daload", 0), ("dastore", 0), ("dcmpg", 0), ("dcmpl", 0),
    ("dconst_0", 0), ("dconst_1", 0), ("ddiv", 0), ("dload", 1), ("dload_0", 0), ("dload_1", 0),
    ("dload_2", 0), ("dload_3", 0), ("dmul", 0), ("dneg", 0), ("drem", 0), ("dreturn", 0),
    ("dstore", 1), ("dstore_0", 0), ("dstore_1", 0), ("dstore_2", 0), ("dstore_3", 0),
    ("dsub", 0), ("dup", 0), ("dup_x1", 0), ("dup_x2", 0), ("dup2", 0), ("dup2_x1", 0),
    ("dup2_x2", 0), ("f2d", 0), ("f2i", 0), ("f2l", 0), ("fadd", 0), ("faload", 0),
    ("fastore", 0), ("fcmpg", 0), ("fcmpl", 0), ("fconst_0", 0), ("fconst_1", 0), ("fconst_2", 0),
    ("fdiv", 0), ("fload", 1), ("fload_0", 0), ("fload_1", 0), ("fload_2", 0), ("fload_3", 0),
    ("fmul", 0), ("fneg", 0), ("frem", 0), ("freturn", 0), ("fstore", 1), ("fstore_0", 0),
    ("fstore_1", 0), ("fstore_2", 0), ("fstore_3", 0), ("fsub", 0), ("getfield", 2),
    ("getstatic", 2), ("goto", 2), ("goto_w", 4), ("i2b", 0), ("i2c", 0), ("i2d", 0), ("i2f", 0),
    ("i2l", 0), ("i2s", 0), ("iadd", 0), ("iaload", 0), ("iand", 0), ("iastore", 0),
    ("iconst_m1", 0), ("iconst_0", 0), ("iconst_1", 0), ("iconst_2", 0), ("iconst_3", 0),
    ("iconst_4", 0), ("iconst_5", 0), ("idiv", 0), ("if_acmpeq", 2), ("if_acmpne", 2),
    ("if_icmpeq", 2), ("if_icmpge", 2), ("if_icmpgt", 2), ("if_icmple", 2), ("if_icmplt", 2),
    ("if_icmpne", 2), ("ifeq", 2), ("ifge", 2), ("ifgt", 2), ("ifle", 2), ("iflt", 2),
    ("ifne", 2), ("ifnonnull", 2), ("ifnull", 2), ("iinc", 2), ("iload", 1), ("iload_0", 0),
    ("iload_1", 0), ("iload_2", 0), ("iload_3", 0), ("impdep1", 0), ("impdep2", 0), ("imul", 0),
    ("ineg", 0), ("instanceof", 2), ("invokedynamic", 4), ("invokeinterface", 4),
    ("invokespecial", 2), ("invokestatic", 2), ("invokevirtual", 2), ("ior", 0), ("irem", 0),
    ("ireturn", 0), ("ishl", 0), ("ishr", 0), ("istore", 1), ("istore_0", 0), ("istore_1", 0),
    ("istore_2", 0), ("istore_3", 0), ("isub", 0), ("iushr", 0), ("ixor", 0), ("jsr", 2),
    ("jsr_w", 4), ("l2d", 0), ("l2f", 0), ("l2i", 0), ("ladd", 0), ("laload", 0), ("land", 0),
    ("lastore", 0), ("lcmp", 0), ("lconst_0", 0), ("lconst_1", 0), ("ldc", 1), ("ldc_w", 2),
    ("ldc2_w", 2), ("ldiv", 0), ("lload", 1), ("lload_0", 0), ("lload_1", 0), ("lload_2", 0),
    ("lload_3", 0), ("lmul", 0), ("lneg", 0), ("lor", 0), ("lrem", 0), ("lreturn", 0),
    ("lshl", 0), ("lshr", 0), ("lstore", 1), ("lstore_0", 0), ("lstore_1", 0), ("lstore_2", 0),
    ("lstore_3", 0), ("lsub", 0), ("lushr", 0), ("lxor", 0), ("monitorenter", 0),
    ("monitorexit", 0), ("multianewarray", 3), ("new", 2), ("newarray", 1), ("nop", 0),
    ("pop", 0), ("pop2", 0), ("putfield", 2), ("putstatic", 2), ("ret", 1), ("return", 0),
    ("saload", 0), ("sastore", 0), ("sipush", 2), ("swap", 0) ]

/-- The four bytes `*params++` of an operand of a switch instruction as an `int`; a byte past
the end of the code array is undefined. -/
def readIntAt (code : List u1) (params : Nat) : Outcome Int := do
  let b0 ← Outcome.ofOption (code.get? params)
  let b1 ← Outcome.ofOption (code.get? (params + 1))
  let b2 ← Outcome.ofOption (code.get? (params + 2))
  let b3 ← Outcome.ofOption (code.get? (params + 3))
  pure (toInt32 ((((b0 % 256) * 256 + b1 % 256) * 256 + b2 % 256) * 256 + b3 % 256))

/-- The assignment of an `int` expression to the `short result`; an expression outside the
range of `int` is undefined. -/
def shortResult (value : Int) : Outcome Int :=
  if value < -2147483648 ∨ value > 2147483647 then Outcome.undefined
  else pure (toShort (ofShort value))

/-- The function `getOpcodeAttributesNumber`: `params` is the offset in the code array `code`
of the pointer `params` (`codeBegin` is offset 0). -/
def getOpcodeAttributesNumber (OP : OpcodeTable) (opcode : u1) (code : List u1)
    (params : Nat) : Outcome Int :=
  if opcode = OP "lookupswitch" then do
    let pad := (4 - params % 4) % 4
    let params := params + pad
    let params := params + 4
    let npairs ← readIntAt code params
    shortResult (pad + 7 + npairs * 4 * 2)
  else if opcode = OP "tableswitch" then do
    let pad := (4 - params % 4) % 4
    let params := params + pad
    let params := params + 4
    let min ← readIntAt code params
    let max ← readIntAt code (params + 4)
    shortResult (pad + 11 + (max - min + 1) * 4)
  else if opcode = OP "wide" then do
    let first ← Outcome.ofOption (code.get? params)
    pure (if first % 256 = OP "iinc" then 5 else 3)
  else
    match opcodeAttributeCases.find? (fun c => OP c.1 = opcode) with
    | some c => pure c.2
    | none => pure (-1)

/-- The cases of `decode`: the constant and the C name of the handler returned. -/
def decodeCases : List (String × String) :=
  [
    ("iadd", "iadd"), ("ladd", "ladd"), ("fadd", "fadd"), ("dadd", "dadd"), ("isub", "isub"),
    ("lsub", "lsub"), ("fsub", "fsub"), ("dsub", "dsub"), ("imul", "imul"), ("lmul", "lmul"),
    ("fmul", "fmul"), ("dmul", "dmul"), ("idiv", "idiv"), ("ldiv", "Ldiv"), ("fdiv", "fdiv"),
    ("ddiv", "ddiv"), ("irem", "irem"), ("lrem", "lrem"), ("frem", "frem"), ("drem", "Drem"),
    ("ineg", "ineg"), ("lneg", "lneg"), ("fneg", "fneg"), ("dneg", "dneg"), ("ishl", "ishl"),
    ("lshl", "lshl"), ("ishr", "ishr"), ("lshr", "lshr"), ("iushr", "iushr"), ("lushr", "lushr"),
    ("iand", "iand"), ("land", "land"), ("ior", "ior"), ("lor", "lor"), ("ixor", "ixor"),
    ("lxor", "lxor"), ("iinc", "iinc"), ("nop", "nop"), ("aconst_null", "aconst_null"),
    ("iconst_m1", "iconst_m1"), ("iconst_0", "iconst_0"), ("iconst_1", "iconst_1"),
    ("iconst_2", "iconst_2"), ("iconst_3", "iconst_3"), ("iconst_4", "iconst_4"),
    ("iconst_5", "iconst_5"), ("lconst_0", "lconst_0"), ("lconst_1", "lconst_1"),
    ("fconst_0", "fconst_0"), ("fconst_1", "fconst_1"), ("fconst_2", "fconst_2"),
    ("dconst_0", "dconst_0"), ("dconst_1", "dconst_1"), ("bipush", "bipush"),
    ("sipush", "sipush"), ("ldc", "ldc"), ("ldc_w", "ldc_w"), ("ldc2_w", "ldc2_w"),
    ("iload", "iload"), ("lload", "lload"), ("fload", "fload"), ("dload", "dload"),
    ("aload", "aload"), ("iload_0", "iload_0"), ("iload_1", "iload_1"), ("iload_2", "iload_2"),
    ("iload_3", "iload_3"), ("lload_0", "lload_0"), ("lload_1", "lload_1"),
    ("lload_2", "lload_2"), ("lload_3", "lload_3"), ("fload_0", "fload_0"),
    ("fload_1", "fload_1"), ("fload_2", "fload_2"), ("fload_3", "fload_3"),
    ("dload_0", "dload_0"), ("dload_1", "dload_1"), ("dload_2", "dload_2"),
    ("dload_3", "dload_3"), ("aload_0", "aload_0"), ("aload_1", "aload_1"),
    ("aload_2", "aload_2"), ("aload_3", "aload_3"), ("iaload", "iaload"), ("laload", "laload"),
    ("faload", "faload"), ("daload", "daload"), ("aaload", "aaload"), ("baload", "baload"),
    ("caload", "caload"), ("saload", "saload"), ("istore", "istore"), ("lstore", "lstore"),
    ("fstore", "fstore"), ("dstore", "dstore"), ("astore", "astore"), ("istore_0", "istore_0"),
    ("istore_1", "istore_1"), ("istore_2", "istore_2"), ("istore_3", "istore_3"),
    ("lstore_0", "lstore_0"), ("lstore_1", "lstore_1"), ("lstore_2", "lstore_2"),
    ("lstore_3", "lstore_3"), ("fstore_0", "fstore_0"), ("fstore_1", "fstore_1"),
    ("fstore_2", "fstore_2"), ("fstore_3", "fstore_3"), ("dstore_0", "dstore_0"),
    ("dstore_1", "dstore_1"), ("dstore_2", "dstore_2"), ("dstore_3", "dstore_3"),
    ("astore_0", "astore_0"), ("astore_1", "astore_1"), ("astore_2", "astore_2"),
    ("astore_3", "astore_3"), ("iastore", "iastore"), ("lastore", "lastore"),
    ("fastore", "fastore"), ("dastore", "dastore"), ("aastore", "aastore"),
    ("bastore", "bastore"), ("castore", "castore"), ("sastore", "sastore"), ("wide", "wide"),
    ("dup", "Dup"), ("pop", "pop"), ("getstatic", "getstatic"), ("putstatic", "putstatic"),
    ("getfield", "getfield"), ("putfield", "putfield"), ("invokevirtual", "invokevirtual"),
    ("invokespecial", "invokespecial"), ("invokestatic", "invokestatic"),
    ("invokeinterface", "invokeinterface"), ("new", "New"), ("anewarray", "anewarray"),
    ("newarray", "newarray"), ("arraylength", "arraylength"),
    ("multianewarray", "multianewarray"), ("ireturn", "ireturn"), ("lreturn", "lreturn"),
    ("freturn", "freturn"), ("dreturn", "dreturn"), ("areturn", "areturn"), ("return", "return_"),
    ("i2l", "i2l"), ("i2f", "i2f"), ("i2d", "i2d"), ("l2i", "l2i"), ("l2f", "l2f"),
    ("l2d", "l2d"), ("f2i", "f2i"), ("f2l", "f2l"), ("f2d", "f2d"), ("d2i", "d2i"),
    ("d2l", "d2l"), ("d2f", "d2f"), ("i2b", "i2b"), ("i2c", "i2c"), ("i2s", "i2s"),
    ("lcmp", "lcmp"), ("fcmpl", "fcmpl"), ("fcmpg", "fcmpg"), ("dcmpl", "dcmpl"),
    ("dcmpg", "dcmpg"), ("ifeq", "ifeq"), ("ifne", "ifne"), ("iflt", "iflt"), ("ifge", "ifge"),
    ("ifgt", "ifgt"), ("ifle", "ifle"), ("if_icmpeq", "if_icmpeq"), ("if_icmpne", "if_icmpne"),
    ("if_icmplt", "if_icmplt"), ("if_icmpge", "if_icmpge"), ("if_icmpgt", "if_icmpgt"),
    ("if_icmple", "if_icmple"), ("if_acmpeq", "if_acmpeq"), ("if_acmpne", "if_acmpne"),
    ("goto", "goto_"), ("jsr", "jsr"), ("ret", "ret"), ("tableswitch", "tableswitch"),
    ("lookupswitch", "lookupswitch"), ("ifnull", "ifnull"), ("ifnonnull", "ifnonnull"),
    ("goto_w", "goto_w"), ("jsr_w", "jsr_w") ]

/-- The function `decode`, with the handler given by its C name; a byte that is no case label
ends the VM through `JVMstopAbrupt`. -/
def decode (OP : OpcodeTable) (bytecode : u1) : Outcome String :=
  match decodeCases.find? (fun c => OP c.1 = bytecode) with
  | some c => Outcome.ok c.2
  | none => Outcome.stopAbrupt

/-! ## Creation of arrays (`javaarray.c`, `executionengine.c`) -/

/-- The function `newJavaArray`.  The address `malloc` returns for the header is the parameter
`address` (0 when `malloc` fails); the `int count` of the caller is converted to the `u2`
parameter `n_count`. -/
def newJavaArray (address : Nat) (n_atype : u4) (n_count : Int) (n_arrayAddress : Nat)
    (env : Environment) : Outcome (Nat × Environment) :=
  if address = 0 then Outcome.undefined
  else
    let array_info : JavaArray := JavaArray.mk n_atype (ofShort n_count) n_arrayAddress
    pure (address, { env with heap := (address, HeapCell.array array_info) :: env.heap })

/-- The size of an element of the block `newarray` allocates for an array type; `none` for an
operand that is none of the eight types, for which the pointer `array` is not assigned. -/
def newarrayElementSize (atype_argument : u1) : Option Nat :=
  if atype_argument = T_BYTE ∨ atype_argument = T_BOOLEAN then some 1
  else if atype_argument = T_CHAR then some 1
  else if atype_argument = T_SHORT then some 2
  else if atype_argument = T_INT then some 4
  else if atype_argument = T_FLOAT then some 4
  else if atype_argument = T_LONG then some 8
  else if atype_argument = T_DOUBLE then some 8
  else none

/-- The handler `newarray`.  The addresses `malloc` returns for the element block and for the
header are the parameters `array` and `arrayref`.  The block holds `count` elements set to 0;
its size in bytes is computed in the 32-bit `size_t` of the address space the 32-bit
references live in, so a block of `2^32` bytes or more is shorter than the loop that fills
it. -/
def newarray (array arrayref : Nat) (env : Environment) : Outcome Environment := do
  let env := addPC env 1
  let atype_argument ← codeByteAtPC env
  let (word, env) ← popFromOperandStack env
  let count := toInt32 word
  if count < 0 then JVMThrow NegativeArraySizeException env
  else
    match newarrayElementSize atype_argument with
    | none => Outcome.undefined
    | some size =>
        if size * count.toNat ≥ 4294967296 then Outcome.undefined
        else if array = 0 ∧ count > 0 then Outcome.undefined
        else
          let block := HeapCell.block (List.replicate count.toNat 0)
          let env : Environment := { env with heap := (array, block) :: env.heap }
          let (arrayref, env) ← newJavaArray arrayref atype_argument count array env
          pushInOperandStack env arrayref

/-- The result of an `int` operation; overflow is undefined. -/
def intResult (value : Int) : Outcome Int :=
  if -2147483648 ≤ value ∧ value ≤ 2147483647 then pure value else Outcome.undefined

/-- The read `count[i]` of the vector of dimensions, which has one `int` per dimension. -/
def readCount (count : List Int) (i : Int) : Outcome Int :=
  if i < 0 then Outcome.undefined else Outcome.ofOption (count.get? i.toNat)

/-- The store `*(array + position) = 0` into the block of a multidimensional array, whose
elements hold nothing until they are written. -/
def writeComponent (array : List (Option Nat)) (position : Int) :
    Outcome (List (Option Nat)) :=
  if 0 ≤ position ∧ position.toNat < array.length then
    pure (array.set position.toNat (some 0))
  else Outcome.undefined

/-- A loop `for (i = 0; i < bound; i++)` whose body can leave the function by `return`:
`remaining` iterations from `i` on.  The body yields whether it returned, and the new
`posicao` and block. -/
def forCount
    (body : Int → Int → List (Option Nat) → Outcome (Bool × Int × List (Option Nat))) :
    Nat → Int → Int → List (Option Nat) → Outcome (List (Option Nat))
  | 0, _, _, array => pure array
  | remaining + 1, i, posicao, array => do
      let (returned, posicao, array) ← body i posicao array
      if returned then pure array else forCount body remaining (i + 1) posicao array

/-- The function `initializeNDArray`; the fuel bounds the nesting of the calls.  `type_array`
is the `char` as a number. -/
def initializeNDArray (type_array : Int) :
    Nat → Int → Int → List Int → Int → List (Option Nat) → Outcome (List (Option Nat))
  | 0, _, _, _, _, _ => Outcome.outOfFuel
  | fuel + 1, total_dimensions, current_dimension, count, posicao, array => do
      let current_dimension := current_dimension + 1
      let bound ← readCount count current_dimension
      forCount (fun i posicao array => do
          let next ← readCount count (current_dimension + 1)
          let posicao ← intResult (posicao + i * next)
          if current_dimension ≠ total_dimensions - 1 then
            let array ← initializeNDArray type_array fuel total_dimensions current_dimension
              count posicao array
            pure (false, posicao, array)
          else if type_array = 66 ∨ type_array = 90 ∨ type_array = 67 ∨ type_array = 83 ∨
              type_array = 73 ∨ type_array = 70 ∨ type_array = 74 ∨ type_array = 68 then
            let array ← writeComponent array (posicao + i)
            pure (true, posicao, array)
          else pure (true, posicao, array))
        bound.toNat 0 posicao array

/-- The loop `for (i = n - 1; i >= 0; i--) count[i] = popFromOperandStack(thread)`: the
vector `count`, last dimension popped first. -/
def popCounts : Nat → Environment → Outcome (List Int × Environment)
  | 0, env => pure ([], env)
  | n + 1, env => do
      let (word, env) ← popFromOperandStack env
      let (count, env) ← popCounts n env
      pure (count ++ [toInt32 word], env)

/-- The loop that multiplies `total` by `count[1]`, `count[2]`, ... up to the first 0. -/
def totalFrom : List Int → Int → Outcome Int
  | [], total => pure total
  | c :: rest, total =>
      if c ≠ 0 then do
        let total ← intResult (total * c)
        totalFrom rest total
      else pure total

/-- The handler `multianewarray`.  The parameter `atype` is the address of the string
`getClassNameFromConstantPool` returns, converted to `u4`; the `char type_components` is the
sum of this address and the number of dimensions.  The block allocated for the components is
filled by `initializeNDArray` and no pointer to it is kept, so the heap of the environment
is as before. -/
def multianewarray (atype : u4) (env : Environment) : Outcome Environment := do
  let top ← getCurrentFrame env
  let javaClass ← derefClass env.methodArea top.javaClass
  let (index_result, env) ← calculatePoolIndexFromCode top.method_info
    javaClass.arqClass.constant_pool env
  let _ ← getClassNameFromConstantPool javaClass.arqClass.constant_pool index_result
  let env := addPC env 1
  let dimensions_argument ← codeByteAtPC env
  let type_components := toChar ((atype + dimensions_argument) % 4294967296)
  let (count, env) ← popCounts dimensions_argument env
  let total ← totalFrom count.tail 1
  if type_components = 66 ∨ type_components = 90 ∨ type_components = 67 ∨
      type_components = 83 ∨ type_components = 73 ∨ type_components = 70 ∨
      type_components = 74 ∨ type_components = 68 then
    let first ← readCount count 0
    let size ← intResult (first * total)
    let _ ← initializeNDArray type_components (dimensions_argument + 1) dimensions_argument
      (-1) count 0 (List.replicate size.toNat none)
    pure env
  else pure env

/-! ## The emulation of `java.io` (`util.c`, `javastring.h`)

What `printf` writes is not part of the environment; the functions are followed for their
effect on the operand stack. -/

/-- What a word popped as `JavaString*` points to: a `JavaString` record, whose tag is
`CONSTANT_StringJava`, or a `String` entry of a constant pool. -/
inductive StringRef where
  | JavaString (size : u2) (stringAddress : String)
  | String (string_index : u2)
  deriving DecidableEq, Repr

/-- The function `printStreamPrintln`.  The parameter `memory` gives what the popped string
pointer points to, `none` for a pointer to neither kind of record. -/
def printStreamPrintln (memory : u4 → Option StringRef) (descriptorName : String)
    (env : Environment) : Outcome Environment :=
  if descriptorName.data.take 21 == "(Ljava/lang/String;)V".data then do
    let (string, env) ← popFromOperandStack env
    match memory string with
    | none => Outcome.undefined
    | some (StringRef.JavaString _ _) => pure env
    | some (StringRef.String string_index) =>
        let top ← getCurrentFrame env
        let javaClass ← derefClass env.methodArea top.javaClass
        let _ ← getUnicodeFromConstantPool javaClass.arqClass.constant_pool string_index
        pure env
  else if descriptorName.data.take 4 == "(I)V".data ||
      descriptorName.data.take 4 == "(S)V".data ||
      descriptorName.data.take 4 == "(B)V".data then do
    let (_, env) ← popFromOperandStack env
    pure env
  else if descriptorName.data.take 4 == "(C)V".data then do
    let (_, env) ← popFromOperandStack env
    pure env
  else if descriptorName.data.take 4 == "(F)V".data then do
    let (_, env) ← popFromOperandStack env
    pure env
  else if descriptorName.data.take 4 == "(J)V".data then do
    let (_, env) ← popFromOperandStack env
    let (_, env) ← popFromOperandStack env
    pure env
  else if descriptorName.data.take 4 == "(D)V".data then do
    let (_, env) ← popFromOperandStack env
    let (_, env) ← popFromOperandStack env
    pure env
  else if descriptorName.data.take 4 == "(Z)V".data then do
    let (_, env) ← popFromOperandStack env
    pure env
  else do
    let (_, env) ← popFromOperandStack env
    pure env

/-- The function `printStreamExecuteMethod`: after `println` one more word is popped for the
`PrintStream`. -/
def printStreamExecuteMethod (memory : u4 → Option StringRef)
    (_className methodName descriptorName : String) (env : Environment) :
    Outcome Environment :=
  if methodName.data.take 7 == "println".data then do
    let env ← printStreamPrintln memory descriptorName env
    let (_, env) ← popFromOperandStack env
    pure env
  else do
    let (_, env) ← popFromOperandStack env
    pure env

/-- The function `javaIOExecuteMethod`; `className` is the class name after `java/io/`. -/
def javaIOExecuteMethod (memory : u4 → Option StringRef)
    (className methodName descriptorName : String) (env : Environment) :
    Outcome Environment :=
  if className.data.take 11 == "PrintStream".data then
    printStreamExecuteMethod memory (String.mk (className.data.drop 11)) methodName
      descriptorName env
  else do
    let (_, env) ← popFromOperandStack env
    pure env

/-! ## Stores into fields (`executionengine.c`) -/

/-- The bytes of a cell after a store of `width` bytes at its address (little-endian host):
the low-order `width` bytes are those of `value`. -/
def mergeBytes (bits width value : Nat) : Nat :=
  bits / 2 ^ (8 * width) * 2 ^ (8 * width) + value % 2 ^ (8 * width)

/-- The store `*value_reference = value` of `width` bytes into a field cell.  A store longer
than the cell is undefined; a store shorter than a cell never written leaves the other bytes
unwritten, and the cell counts as never written. -/
def writeCell (cell : Cell) (width value : Nat) : Outcome Cell :=
  if width ≤ cell.size then
    match cell.bits with
    | some bits => pure { cell with bits := some (mergeBytes bits width value) }
    | none =>
        if width = cell.size then pure { cell with bits := some (value % 2 ^ (8 * width)) }
        else pure cell
  else Outcome.undefined

/-- The store through a pointer to the cell of entry `i` of a field table. -/
def writeField (fields : Fields) (i width value : Nat) : Outcome Fields :=
  match fields.get? i with
  | none => Outcome.undefined
  | some entry => do
      let cell ← writeCell entry.memoryAddress width value
      pure (fields.set i { entry with memoryAddress := cell })

/-- The store into the cell of entry `i` of the field table of an object. -/
def writeObjectField (env : Environment) (objectRef : u4) (i width value : Nat) :
    Outcome Environment := do
  let object ← derefObject env objectRef
  let fields ← writeField object.handler.fields i width value
  let handler : Handler := { object.handler with fields := fields }
  pure { env with heap := heapStore env.heap objectRef (HeapCell.object (Object.mk handler)) }

/-- The handler `putfield`. -/
def putfield (env : Environment) : Outcome Environment := do
  let top ← getCurrentFrame env
  let actual_class ← derefClass env.methodArea top.javaClass
  let (index, env) ← calculatePoolIndexFromCode top.method_info
    actual_class.arqClass.constant_pool env
  let (class_name, attribute_name, attribute_descriptor) ←
    getFieldOrMethodInfoAttributesFromConstantPool index actual_class.arqClass.constant_pool
  if javaLibIsFrom class_name then pure env
  else if attribute_descriptor = "J" ∨ attribute_descriptor = "D" then
    let (value, env) ← popFromOperandStack env
    let (lowBytes, env) ← popFromOperandStack env
    let value := ((value <<< 32) ||| lowBytes) % 18446744073709551616
    let (objectRef, env) ← popFromOperandStack env
    match (← getObjectAttributeReference env objectRef attribute_name) with
    | none => JVMThrow NullPointerException env
    | some value_reference => writeObjectField env objectRef value_reference 8 value
  else
    let (value, env) ← popFromOperandStack env
    let (objectRef, env) ← popFromOperandStack env
    if attribute_descriptor = "B" ∨ attribute_descriptor = "C" ∨ attribute_descriptor = "Z"
    then
      match (← getObjectAttributeReference env objectRef attribute_name) with
      | none => JVMThrow NullPointerException env
      | some value_reference => writeObjectField env objectRef value_reference 1 (value % 256)
    else if attribute_descriptor = "S" then
      match (← getObjectAttributeReference env objectRef attribute_name) with
      | none => JVMThrow NullPointerException env
      | some value_reference =>
          writeObjectField env objectRef value_reference 2 (value % 65536)
    else
      match (← getObjectAttributeReference env objectRef attribute_name) with
      | none => JVMThrow NullPointerException env
      | some value_reference =>
          writeObjectField env objectRef value_reference 4 (value % 4294967296)

/-! ## Reading the constant pool of a file (`classloader.c`, `estruturas.h`) -/

def CONSTANT_Class : u1 := 7
def CONSTANT_Fieldref : u1 := 9
def CONSTANT_Methodref : u1 := 10
def CONSTANT_InterfaceMethodref : u1 := 11
def CONSTANT_String : u1 := 8
def CONSTANT_Integer : u1 := 3
def CONSTANT_Float : u1 := 4
def CONSTANT_Long : u1 := 5
def CONSTANT_Double : u1 := 6
def CONSTANT_NameAndType : u1 := 12
def CONSTANT_Utf8 : u1 := 1

/-- The call `getc(arquivo)` on the bytes left in the file: the next byte, or `EOF = -1` at
the end. -/
def getc (arquivo : List u1) : Int × List u1 :=
  match arquivo with
  | [] => (-1, [])
  | byte :: rest => (((byte % 256 : Nat) : Int), rest)

/-- The function `u1Le`: the result of `getc` converted to `u1`. -/
def u1Le (arquivo : List u1) : u1 × List u1 :=
  let (c, arquivo) := getc arquivo
  ((c % 256).toNat, arquivo)

/-- The function `u2Le`: `resultado = getc(arquivo); resultado = (resultado << 8) |
getc(arquivo)`, each assignment converting to `u2`.  The `int` operand `-1` of `|` at the end
of the file sets every bit. -/
def u2Le (arquivo : List u1) : u2 × List u1 :=
  let (c, arquivo) := getc arquivo
  let resultado : Nat := (c % 65536).toNat
  let (c, arquivo) := getc arquivo
  if c < 0 then (65535, arquivo)
  else ((resultado * 256 + c.toNat) % 65536, arquivo)

/-- The function `u4Le`. -/
def u4Le (arquivo : List u1) : u4 × List u1 :=
  let (resultado, arquivo) := u2Le arquivo
  let (low, arquivo) := u2Le arquivo
  ((resultado * 65536 % 4294967296) ||| low, arquivo)

/-- The loop `for (i = 0; i < lenght; i++) bytes[i] = u1Le(arq)`. -/
def leBytes : Nat → List u1 → List u1 × List u1
  | 0, arq => ([], arq)
  | lenght + 1, arq =>
      let (byte, arq) := u1Le arq
      let (bytes, arq) := leBytes lenght arq
      (byte :: bytes, arq)

/-- An element of the array `leCtePool` allocates: never written, written with a tag and the
member of the union the tag selects, or written with a tag that selects no member. -/
inductive PoolSlot where
  | unwritten
  | entry (e : cp_info)
  | tagOnly (tag : u1)
  deriving DecidableEq, Repr

/-- The body of the loop of `leCtePool`: the element written at `cp`, whether the body ends
with the `cp++` of `Long` and `Double`, and the bytes left in the file. -/
def leCtePoolEntry (arq : List u1) : PoolSlot × Bool × List u1 :=
  let (tag, arq) := u1Le arq
  if tag = CONSTANT_Class then
    let (name_index, arq) := u2Le arq
    (PoolSlot.entry (cp_info.Class name_index), false, arq)
  else if tag = CONSTANT_Fieldref then
    let (class_index, arq) := u2Le arq
    let (name_and_type_index, arq) := u2Le arq
    (PoolSlot.entry (cp_info.Fieldref class_index name_and_type_index), false, arq)
  else if tag = CONSTANT_NameAndType then
    let (name_index, arq) := u2Le arq
    let (descriptor_index, arq) := u2Le arq
    (PoolSlot.entry (cp_info.NameAndType name_index descriptor_index), false, arq)
  else if tag = CONSTANT_Utf8 then
    let (lenght, arq) := u2Le arq
    let (bytes, arq) := leBytes lenght arq
    (PoolSlot.entry (cp_info.Utf8 (String.mk (bytes.map Char.ofNat))), false, arq)
  else if tag = CONSTANT_Methodref then
    let (class_index, arq) := u2Le arq
    let (name_and_type_index, arq) := u2Le arq
    (PoolSlot.entry (cp_info.Methodref class_index name_and_type_index), false, arq)
  else if tag = CONSTANT_InterfaceMethodref then
    let (class_index, arq) := u2Le arq
    let (name_and_type_index, arq) := u2Le arq
    (PoolSlot.entry (cp_info.InterfaceMethodref class_index name_and_type_index), false, arq)
  else if tag = CONSTANT_String then
    let (string_index, arq) := u2Le arq
    (PoolSlot.entry (cp_info.String string_index), false, arq)
  else if tag = CONSTANT_Integer then
    let (bytes, arq) := u4Le arq
    (PoolSlot.entry (cp_info.Integer bytes), false, arq)
  else if tag = CONSTANT_Float then
    let (bytes, arq) := u4Le arq
    (PoolSlot.entry (cp_info.Float bytes), false, arq)
  else if tag = CONSTANT_Long then
    let (high_bytes, arq) := u4Le arq
    let (low_bytes, arq) := u4Le arq
    (PoolSlot.entry (cp_info.Long high_bytes low_bytes), true, arq)
  else if tag = CONSTANT_Double then
    let (high_bytes, arq) := u4Le arq
    let (low_bytes, arq) := u4Le arq
    (PoolSlot.entry (cp_info.Double high_bytes low_bytes), true, arq)
  else (PoolSlot.tagOnly tag, false, arq)

/-- The loop of `leCtePool` with `cp` at the end of the elements `filled` and `remaining`
elements from `cp` up to `constant_pool + constant_pool_count - 1`. -/
def leCtePoolLoop : Nat → List PoolSlot → List u1 → List PoolSlot × List u1
  | 0, filled, arq => (filled, arq)
  | remaining + 1, filled, arq =>
      match leCtePoolEntry arq with
      | (slot, false, arq) => leCtePoolLoop remaining (filled ++ [slot]) arq
      | (slot, true, arq) =>
          match remaining with
          | 0 => (filled ++ [slot, PoolSlot.unwritten], arq)
          | remaining + 1 =>
              leCtePoolLoop remaining (filled ++ [slot, PoolSlot.unwritten]) arq

/-- The function `leCtePool`: the `constant_pool_count` elements of the array and the bytes
left in the file.  With a count of 0 the bound `constant_pool + constant_pool_count - 1` of
the loop lies before the array. -/
def leCtePool (constant_pool_count : u2) (arq : List u1) : Outcome (List PoolSlot × List u1) :=
  if constant_pool_count = 0 then Outcome.undefined
  else
    let (filled, arq) := leCtePoolLoop (constant_pool_count - 1) [] arq
    pure (filled ++ List.replicate (constant_pool_count - filled.length) PoolSlot.unwritten,
      arq)

/-! ## Vocabulary of the statements about branches -/

/-- The thread is at an instruction with two operand bytes: the frame stack is `top :: rest`
and the bytes that follow `PC` in the code of `top` are `byte1` and `byte2`. -/
structure BranchSite (env : Environment) (top : Frame) (rest : List Frame)
    (byte1 byte2 : u1) : Prop where
  frames : env.thread.vmStack = top :: rest
  operand1 : codeByteAtPC (addPC env 1) = Outcome.ok byte1
  operand2 : codeByteAtPC (addPC env 2) = Outcome.ok byte2

/-- The state in which the operand stack of the top frame `top` is `stack` and `PC` has moved
by `n`. -/
def resumed (env : Environment) (top : Frame) (rest : List Frame) (stack : List u4)
    (n : Int) : Environment :=
  { env with thread :=
      { PC := env.thread.PC + n, vmStack := { top with opStk := some stack } :: rest } }

/-! ## Vocabulary of the statements about calls -/
/-- An invoke instruction whose operand bytes `b1 b2` follow `PC` in the method of the top
frame `caller` and name the member `cn.mn:md` of a class that is not a library class. -/
structure CallSite (env : Environment) (caller : Frame) (rest : List Frame) (cc : JavaClass)
    (b1 b2 : u1) (cn mn md : String) : Prop where
  stack : env.thread.vmStack = caller :: rest
  callerClass : derefClass env.methodArea caller.javaClass = Outcome.ok cc
  byte1 : getByteCodeFromMethod caller.method_info cc.arqClass.constant_pool
    (env.thread.PC + 1) = Outcome.ok b1
  byte2 : getByteCodeFromMethod caller.method_info cc.arqClass.constant_pool
    (env.thread.PC + 1 + 1) = Outcome.ok b2
  resolves : getFieldOrMethodInfoAttributesFromConstantPool (((b1 <<< 8) ||| b2) % 65536)
    cc.arqClass.constant_pool = Outcome.ok (cn, mn, md)
  notLibrary : javaLibIsFrom cn = false

/-- The class named `tn` is registered at `ptr` and declares the method `mn:md` as `m`, with the
`Code` attribute `code`. -/
structure Target (methodArea : MethodArea) (tn mn md : String) (ptr : JavaClassPtr)
    (tc : JavaClass) (m : method_info) (code : CodeAttribute) : Prop where
  found : findJavaClassOnMethodArea tn methodArea = some ptr
  deref : derefClass methodArea ptr = Outcome.ok tc
  declares : getMethodInfoFromClass tc mn md = Outcome.ok (some m)
  hasCode : getCodeAttributeFromMethod tc mn md = Outcome.ok (some code)

/-- The state an invoke handler leaves: the frame of the callee on top, its return address
`returnPC`, its locals `locals`, the words `s` left on the stack of the caller, and `PC = pc`. -/
def invoked (env : Environment) (caller : Frame) (rest : List Frame) (s : List u4)
    (ptr : JavaClassPtr) (m : method_info) (returnPC : Int) (locals : List u4) (pc : Int) :
    Environment :=
  { env with thread :=
      { PC := pc,
        vmStack := Frame.mk ptr (some m) returnPC locals (some []) ::
          { caller with opStk := some s } :: rest } }

/-- The search from class `start` up the super-classes ends at the method `m`, declared by the
class named `tn`, in every environment with this method area, which it leaves unchanged. -/
def Selects (fuel : Nat) (methodArea : MethodArea) (start : JavaClassPtr) (mn md : String)
    (m : method_info) (tn : String) : Prop :=
  ∀ env : Environment, env.methodArea = methodArea →
    isMethodInClassOrSuperClass (loadCLass fuel) fuel start mn md env = Outcome.ok (m, tn, env)

/-- The checks of `verifyInvokeSpecial` for a caller of class `callerClass` return, leaving the
environment unchanged (every class on the way is registered). -/
def VerifyReturns (fuel : Nat) (methodArea : MethodArea) (callerClass method_class : JavaClassPtr) :
    Prop :=
  ∀ (env : Environment) (top : Frame) (rest : List Frame), env.methodArea = methodArea →
    env.thread.vmStack = top :: rest → top.javaClass = callerClass →
    verifyInvokeSpecial fuel method_class env = Outcome.ok env

/-- The instruction at `PC` is an `invokestatic` of the static method `m` of a registered class,
with its arguments `args` on top of the words `s` of the caller. -/
def StaticCall (fuel : Nat) (bridge : Bridge) (decode : u1 → Outcome (Option instruction))
    (env : Environment) (caller : Frame) (rest : List Frame) (s : List u4) (ptr : JavaClassPtr)
    (m : method_info) (code : CodeAttribute) : Prop :=
  ∃ (cc : JavaClass) (b1 b2 opcode : u1) (cn mn md : String) (tc : JavaClass) (args : List u4),
    CallSite env caller rest cc b1 b2 cn mn md ∧
    getByteCodeFromMethod caller.method_info cc.arqClass.constant_pool env.thread.PC
      = Outcome.ok opcode ∧
    decode opcode = Outcome.ok (some (invokestatic fuel bridge)) ∧
    Target env.methodArea cn mn md ptr tc m code ∧
    m.access_flags &&& ACC_STATIC ≠ 0 ∧
    getParameterNumberFromMethodDescriptor md = args.length ∧
    caller.opStk = some (args ++ s) ∧
    args.length ≤ code.max_locals

/-- The instruction at `PC` is an `invokevirtual` on a receiver that is not null, whose method
search ends at the concrete method `m` of a registered class, with the receiver and the
arguments `args` on top of the words `s` of the caller. -/
def VirtualCall (fuel : Nat) (bridge : Bridge) (decode : u1 → Outcome (Option instruction))
    (env : Environment) (caller : Frame) (rest : List Frame) (s : List u4) (ptr : JavaClassPtr)
    (m : method_info) (code : CodeAttribute) : Prop :=
  ∃ (cc : JavaClass) (b1 b2 opcode : u1) (cn mn md : String) (tc : JavaClass) (args : List u4)
    (objectRef : u4) (obj : Object) (tn : String) (sel : method_info),
    CallSite env caller rest cc b1 b2 cn mn md ∧
    getByteCodeFromMethod caller.method_info cc.arqClass.constant_pool env.thread.PC
      = Outcome.ok opcode ∧
    decode opcode = Outcome.ok (some (invokevirtual fuel bridge)) ∧
    getParameterNumberFromMethodDescriptor md = args.length ∧
    caller.opStk = some (args ++ objectRef :: s) ∧
    objectRef ≠ 0 ∧
    heapAt env.heap objectRef = some (HeapCell.object obj) ∧
    Selects fuel env.methodArea obj.handler.javaClass mn md sel tn ∧
    sel.access_flags &&& ACC_ABSTRACT = 0 ∧
    Target env.methodArea tn mn md ptr tc m code ∧
    args.length + 1 ≤ code.max_locals

/-- The instruction at `PC` is an `invokespecial` whose Methodref names a registered class, on a
receiver that is not null, whose method search ends at the concrete instance method `m` of a
registered class, with the receiver and the arguments `args` on top of the words `s`. -/
def SpecialCall (fuel : Nat) (bridge : Bridge) (decode : u1 → Outcome (Option instruction))
    (env : Environment) (caller : Frame) (rest : List Frame) (s : List u4) (ptr : JavaClassPtr)
    (m : method_info) (code : CodeAttribute) : Prop :=
  ∃ (cc : JavaClass) (b1 b2 opcode : u1) (cn mn md : String) (tc : JavaClass) (args : List u4)
    (objectRef : u4) (obj : Object) (tn : String) (sel : method_info) (mptr : JavaClassPtr),
    CallSite env caller rest cc b1 b2 cn mn md ∧
    getByteCodeFromMethod caller.method_info cc.arqClass.constant_pool env.thread.PC
      = Outcome.ok opcode ∧
    decode opcode = Outcome.ok (some (invokespecial fuel bridge)) ∧
    findJavaClassOnMethodArea cn env.methodArea = some mptr ∧
    getParameterNumberFromMethodDescriptor md = args.length ∧
    caller.opStk = some (args ++ objectRef :: s) ∧
    objectRef ≠ 0 ∧
    VerifyReturns fuel env.methodArea caller.javaClass mptr ∧
    heapAt env.heap objectRef = some (HeapCell.object obj) ∧
    Selects fuel env.methodArea obj.handler.javaClass mn md sel tn ∧
    sel.access_flags &&& ACC_STATIC = 0 ∧
    sel.access_flags &&& ACC_ABSTRACT = 0 ∧
    Target env.methodArea tn mn md ptr tc m code ∧
    args.length + 1 ≤ code.max_locals

/-! ## Vocabulary of the statements about locals and conversions -/

/-- The state in which the top frame `top` has the locals `locals` and the operand stack
`stack`, and `PC` has moved by `n`. -/
def updated (env : Environment) (top : Frame) (rest : List Frame) (locals stack : List u4)
    (n : Int) : Environment :=
  { env with thread :=
      { PC := env.thread.PC + n,
        vmStack := { top with localVariablesVector := locals, opStk := some stack } :: rest } }

/-- Two consecutive instructions: the handler `first`, the `PC++` of the loop, the handler
`second`. -/
def followedBy (first second : instruction) : instruction :=
  fun env => (first env).bind (fun next => second (addPC next 1))

/-- No two of the twelve constants that `wide` compares its operand with are equal. -/
def WideOpcodes.Distinct (ops : WideOpcodes) : Prop :=
  [ops.OP_iload, ops.OP_fload, ops.OP_aload, ops.OP_istore, ops.OP_fstore, ops.OP_astore,
    ops.OP_lload, ops.OP_dload, ops.OP_lstore, ops.OP_dstore, ops.OP_ret, ops.OP_iinc].Nodup

instance (ops : WideOpcodes) : Decidable ops.Distinct := by
  unfold WideOpcodes.Distinct
  infer_instance

/-- The locals after a two-word store at `i`: the high word at `i`, the low word at `i + 1`. -/
def storedPair (locals : List u4) (i : Nat) (high low : u4) : List u4 :=
  (locals.set i high).set (i + 1) low

/-! ## Vocabulary of the statements about the dispatcher, the pool and fields -/

/-- The C identifier of the handler of a mnemonic: the mnemonic itself, except where that
name is taken in C (`ldiv` and `drem` by the C library, `dup` by `unistd.h`, `new`, `return`
and `goto` by keywords). -/
def handlerIdentifier (mnemonic : String) : String :=
  if mnemonic = "ldiv" then "Ldiv" else if mnemonic = "drem" then "Drem"
  else if mnemonic = "dup" then "Dup" else if mnemonic = "new" then "New"
  else if mnemonic = "return" then "return_" else if mnemonic = "goto" then "goto_"
  else mnemonic

/-- The entries of a file in order: `n` runs of the body of the loop of `leCtePool`, each
with the mark of an entry that takes two indices, and the bytes left after them. -/
def leCtePoolEntries : Nat → List u1 → List (PoolSlot × Bool) × List u1
  | 0, arq => ([], arq)
  | n + 1, arq =>
      match leCtePoolEntry arq with
      | (slot, two, arq) =>
          ((slot, two) :: (leCtePoolEntries n arq).1, (leCtePoolEntries n arq).2)

/-- The index slots of a list of entries as the invariant lays them out: each entry at the
next index, and after an entry that takes two indices one slot that is not written. -/
def indexLayout : List (PoolSlot × Bool) → List PoolSlot
  | [] => []
  | (slot, false) :: rest => slot :: indexLayout rest
  | (slot, true) :: rest => slot :: PoolSlot.unwritten :: indexLayout rest

/-- The `u4` of four bytes, most significant first. -/
def bigEndian (b0 b1 b2 b3 : u1) : u4 := ((b0 * 256 + b1) * 256 + b2) * 256 + b3

/-- The word `getfield` and `getstatic` push for a field of the given descriptor (not `J` or
`D`) that holds the word `v`: the low 8 bits for `B`, `C` and `Z`, the low 16 bits for `S`,
and `v` for any other descriptor. -/
def fieldWord (descriptor : String) (v : u4) : u4 :=
  if descriptor = "B" ∨ descriptor = "C" ∨ descriptor = "Z" then v % 256
  else if descriptor = "S" then v % 65536
  else v

namespace Example

/-- The constant pool shared by the four classes (index 1 is the first entry). -/
def pool : List cp_info :=
  [ cp_info.Utf8 "A", cp_info.Class 1,                    -- 1, 2
    cp_info.Utf8 "B", cp_info.Class 3,                    -- 3, 4
    cp_info.Utf8 "C", cp_info.Class 5,                    -- 5, 6
    cp_info.Utf8 "D", cp_info.Class 7,                    -- 7, 8
    cp_info.Utf8 "java/lang/Object", cp_info.Class 9,     -- 9, 10
    cp_info.Utf8 "Code",                                  -- 11
    cp_info.Utf8 "m", cp_info.Utf8 "()V",                 -- 12, 13
    cp_info.NameAndType 12 13,                            -- 14
    cp_info.Methodref 4 14,                               -- 15: B.m()V
    cp_info.Utf8 "f", cp_info.Utf8 "(II)V",               -- 16, 17
    cp_info.NameAndType 16 17,                            -- 18
    cp_info.Methodref 6 18,                               -- 19: C.f(II)V
    cp_info.Utf8 "F", cp_info.Utf8 "I",                   -- 20, 21
    cp_info.NameAndType 20 21,                            -- 22
    cp_info.Fieldref 2 22,                                -- 23: A.F:I
    cp_info.InterfaceMethodref 2 14,                      -- 24: A.m()V
    cp_info.Utf8 "g", cp_info.Utf8 "h", cp_info.Utf8 "k", -- 25, 26, 27
    cp_info.Utf8 "s", cp_info.Utf8 "t",                   -- 28, 29
    cp_info.Methodref 2 14,                               -- 30: A.m()V
    cp_info.NameAndType 26 17,                            -- 31
    cp_info.Methodref 4 31 ]                              -- 32: B.h(II)V

/-- Body of a `Code` attribute with the given `max_stack`, `max_locals` and code bytes (fewer
than 256 of them), no exception table and no attributes. -/
def codeInfo (max_stack max_locals : u1) (code : List u1) : List u1 :=
  [0, max_stack, 0, max_locals, 0, 0, 0, code.length] ++ code ++ [0, 0, 0, 0]

/-- A method with one `Code` attribute. -/
def method (access_flags name_index descriptor_index : u2) (max_stack max_locals : u1)
    (code : List u1) : method_info :=
  { access_flags := access_flags, name_index := name_index,
    descriptor_index := descriptor_index,
    attributes := [attribute_info.mk 11 (code.length + 12) (codeInfo max_stack max_locals code)] }

/-- The public method `m()V` of `A`: `return`. -/
def A_m : method_info := method ACC_PUBLIC 12 13 1 1 [0xb1]

/-- The public method `m()V` of `B`: `nop; return`. -/
def B_m : method_info := method ACC_PUBLIC 12 13 2 1 [0x00, 0xb1]

/-- The `Code` attribute of `B.m()V`, as `parseCode` decodes it. -/
def B_m_code : CodeAttribute :=
  { max_stack := 2, max_locals := 1, code_length := 2,
    code := BytePtr.mk (codeInfo 2 1 [0x00, 0xb1]) 8,
    exception_table_length := 0, exception_table := [], attributes_count := 0,
    attributes := BytePtr.mk (codeInfo 2 1 [0x00, 0xb1]) 14 }

/-- The `Code` attribute of `D.m()V`, as `parseCode` decodes it. -/
def D_m_code : CodeAttribute :=
  { max_stack := 3, max_locals := 1, code_length := 3,
    code := BytePtr.mk (codeInfo 3 1 [0x00, 0x00, 0xb1]) 8,
    exception_table_length := 0, exception_table := [], attributes_count := 0,
    attributes := BytePtr.mk (codeInfo 3 1 [0x00, 0x00, 0xb1]) 15 }

/-- The `Code` attribute of `C.f(II)V`, as `parseCode` decodes it. -/
def C_f_code : CodeAttribute :=
  { max_stack := 0, max_locals := 2, code_length := 1,
    code := BytePtr.mk (codeInfo 0 2 [0xb1]) 8,
    exception_table_length := 0, exception_table := [], attributes_count := 0,
    attributes := BytePtr.mk (codeInfo 0 2 [0xb1]) 13 }

/-- The public method `h(II)V` of `B`: `return`. -/
def B_h : method_info := method ACC_PUBLIC 26 17 0 3 [0xb1]

/-- The public method `m()V` of `D`: `nop; nop; return`. -/
def D_m : method_info := method ACC_PUBLIC 12 13 3 1 [0x00, 0x00, 0xb1]

/-- The static method `f(II)V` of `C`: `return`. -/
def C_f : method_info := method (ACC_PUBLIC ||| ACC_STATIC) 16 17 0 2 [0xb1]

/-- The static caller `g()V` of `C`: `nop; invokestatic C.f(II)V; return`. -/
def C_g : method_info := method (ACC_PUBLIC ||| ACC_STATIC) 25 13 4 2 [0x00, 0xb8, 0, 19, 0xb1]

/-- The static caller `h()V` of `C`: `nop; invokevirtual B.m()V; return`. -/
def C_h : method_info := method (ACC_PUBLIC ||| ACC_STATIC) 26 13 4 2 [0x00, 0xb6, 0, 15, 0xb1]

/-- The static caller `k()V` of `C`: `invokeinterface A.m()V 1 0; return`. -/
def C_k : method_info :=
  method (ACC_PUBLIC ||| ACC_STATIC) 27 13 4 2 [0xb9, 0, 24, 1, 0, 0xb1]

/-- The static method `s()V` of `C`: `getfield A.F:I; return`. -/
def C_s : method_info := method (ACC_PUBLIC ||| ACC_STATIC) 28 13 4 2 [0xb4, 0, 23, 0xb1]

/-- The static method `t()V` of `C`: `iastore; iaload; arraylength; aaload; return`. -/
def C_t : method_info :=
  method (ACC_PUBLIC ||| ACC_STATIC) 29 13 4 2 [0x4f, 0x2e, 0xbe, 0x32, 0xb1]

/-- The static caller `f()V` of `D`: `invokevirtual B.h(II)V; return`. -/
def D_f : method_info := method (ACC_PUBLIC ||| ACC_STATIC) 16 13 4 2 [0xb6, 0, 32, 0xb1]

/-- The instance method `g()V` of `D`: `nop; invokespecial B.m()V; return` (a `super.m()`). -/
def D_g : method_info := method ACC_PUBLIC 25 13 4 1 [0x00, 0xb7, 0, 15, 0xb1]

def imageA : ArqClass :=
  { magic := 0xCAFEBABE, minor_version := 0, major_version := 46, constant_pool := pool,
    access_flags := ACC_PUBLIC ||| ACC_SUPER, this_class := 2, super_class := 10,
    interfaces := [], fields := [], methods := [A_m], attributes := [] }

def imageB : ArqClass :=
  { imageA with this_class := 4, super_class := 2, methods := [B_m, B_h] }

def imageC : ArqClass :=
  { imageA with this_class := 6, super_class := 4, methods := [C_f, C_g, C_h, C_k, C_s, C_t] }

def imageD : ArqClass :=
  { imageA with this_class := 8, super_class := 4, methods := [D_m, D_g, D_f] }

/-- The method area with `A`, `B`, `C`, `D` registered at positions 0 to 3. -/
def area : MethodArea :=
  MethodArea.mk
    [ ClassTable.mk "A" (JavaClass.mk [] imageA []),
      ClassTable.mk "B" (JavaClass.mk [500] imageB []),
      ClassTable.mk "C" (JavaClass.mk [100] imageC []),
      ClassTable.mk "D" (JavaClass.mk [200] imageD []) ]

/-- The heap: an instance of `C` at 100, an instance of `D` at 200, an `int[3]` whose header
is at 300 and whose elements are at 400, an instance of `B` at 500. -/
def heap : List (Nat × HeapCell) :=
  [ (100, HeapCell.object (Object.mk (Handler.mk (JavaClassPtr.loaded 2) []))),
    (200, HeapCell.object (Object.mk (Handler.mk (JavaClassPtr.loaded 3) []))),
    (300, HeapCell.array (JavaArray.mk T_INT 3 400)),
    (400, HeapCell.block [7, 8, 9]),
    (500, HeapCell.object (Object.mk (Handler.mk (JavaClassPtr.loaded 1) []))) ]

/-- A thread stopped at offset `pc` of method `caller` of the class at position `cls`, with
the given operand stack (top first) and locals. -/
def at_ (cls : Nat) (caller : method_info) (pc : Int) (opStk locals : List u4) : Environment :=
  { thread := { PC := pc, vmStack := [Frame.mk (JavaClassPtr.loaded cls) (some caller) 0
      locals (some opStk)] },
    methodArea := area, debugFlags := 0, heap := heap, classFiles := [] }

/-- The thread inside `C.f`, called from offset 1 of `C.g`: `C.f` holds the words 7, 8, 9
(7 on top), `C.g` holds the word 1. -/
def inCallee : Environment :=
  { thread := { PC := 0, vmStack :=
      [ Frame.mk (JavaClassPtr.loaded 2) (some C_f) 3 [0, 0] (some [7, 8, 9]),
        Frame.mk (JavaClassPtr.loaded 2) (some C_g) 0 [0, 0] (some [1]) ] },
    methodArea := area, debugFlags := 0, heap := heap, classFiles := [] }

/-- The thread back in `C.g` at the saved `PC`, with the given operand stack. -/
def backInCaller (opStk : List u4) : Environment :=
  { thread := { PC := 3, vmStack :=
      [ Frame.mk (JavaClassPtr.loaded 2) (some C_g) 0 [0, 0] (some opStk) ] },
    methodArea := area, debugFlags := 0, heap := heap, classFiles := [] }

/-- A library bridge that does nothing (never reached by the calls of this program). -/
def noBridge : Bridge := fun _ _ _ env => Outcome.ok env

/-- A dispatcher for the opcodes of this program, with the opcode numbers of the JVM; any
other byte stops the VM. -/
def decode (bytecode : u1) : Outcome (Option instruction) :=
  if bytecode = 0xb8 then Outcome.ok (some (invokestatic 3 noBridge))
  else if bytecode = 0xb6 then Outcome.ok (some (invokevirtual 3 noBridge))
  else if bytecode = 0xb7 then Outcome.ok (some (invokespecial 3 noBridge))
  else if bytecode = 0xb1 then Outcome.ok (some return_)
  else Outcome.stopAbrupt

end Example

/-! ## A method over a given code array

One class `T` with one static method `run()V` whose code is a parameter, for the statements
about branches, switches and arithmetic. -/

namespace Control

def pool : List cp_info :=
  [ cp_info.Utf8 "T", cp_info.Class 1, cp_info.Utf8 "java/lang/Object", cp_info.Class 3,
    cp_info.Utf8 "Code", cp_info.Utf8 "run", cp_info.Utf8 "()V" ]

/-- Body of a `Code` attribute with `max_stack = 4`, `max_locals = 4`, the given code bytes, no
exception table and no attributes. -/
def codeInfo (code : List u1) : List u1 :=
  [0, 4, 0, 4, code.length / 16777216 % 256, code.length / 65536 % 256,
    code.length / 256 % 256, code.length % 256] ++ code ++ [0, 0, 0, 0]

/-- The method `run()V` with the given code. -/
def run (code : List u1) : method_info :=
  { access_flags := ACC_PUBLIC ||| ACC_STATIC, name_index := 6, descriptor_index := 7,
    attributes := [attribute_info.mk 5 (code.length + 12) (codeInfo code)] }

def image (code : List u1) : ArqClass :=
  { magic := 0xCAFEBABE, minor_version := 0, major_version := 46, constant_pool := pool,
    access_flags := ACC_PUBLIC ||| ACC_SUPER, this_class := 2, super_class := 4,
    interfaces := [], fields := [], methods := [run code], attributes := [] }

/-- The frame of `run` with the given code, saved return `PC`, operand stack (top first) and
locals. -/
def frame (code : List u1) (returnPC : Int) (opStk locals : List u4) : Frame :=
  Frame.mk (JavaClassPtr.loaded 0) (some (run code)) returnPC locals (some opStk)

/-- A thread stopped at offset `pc` of `run`, in its only frame, whose saved return `PC`
is 0. -/
def at_ (code : List u1) (pc : Int) (opStk locals : List u4) : Environment :=
  { thread := { PC := pc, vmStack := [frame code 0 opStk locals] },
    methodArea := MethodArea.mk [ClassTable.mk "T" (JavaClass.mk [] (image code) [])],
    debugFlags := 0, heap := [], classFiles := [] }

/-- A dispatcher for the opcodes of these programs, with the opcode numbers of the JVM; any
other byte stops the VM. -/
def decode (bytecode : u1) : Outcome (Option instruction) :=
  if bytecode = 0x00 then Outcome.ok (some nop)
  else if bytecode = 0x01 then Outcome.ok (some aconst_null)
  else if bytecode = 0x6c then Outcome.ok (some idiv)
  else if bytecode = 0x70 then Outcome.ok (some irem)
  else if bytecode = 0x99 then Outcome.ok (some ifeq)
  else if bytecode = 0x9a then Outcome.ok (some ifne)
  else if bytecode = 0x9b then Outcome.ok (some iflt)
  else if bytecode = 0x9c then Outcome.ok (some ifge)
  else if bytecode = 0x9d then Outcome.ok (some ifgt)
  else if bytecode = 0x9e then Outcome.ok (some ifle)
  else if bytecode = 0x9f then Outcome.ok (some if_icmpeq)
  else if bytecode = 0xa0 then Outcome.ok (some if_icmpne)
  else if bytecode = 0xa1 then Outcome.ok (some if_icmplt)
  else if bytecode = 0xa2 then Outcome.ok (some if_icmpge)
  else if bytecode = 0xa3 then Outcome.ok (some if_icmpgt)
  else if bytecode = 0xa4 then Outcome.ok (some if_icmple)
  else if bytecode = 0xa9 then Outcome.ok (some ret)
  else if bytecode = 0xaa then Outcome.ok (some tableswitch)
  else if bytecode = 0xab then Outcome.ok (some lookupswitch)
  else if bytecode = 0xb1 then Outcome.ok (some return_)
  else if bytecode = 0xc6 then Outcome.ok (some ifnull)
  else if bytecode = 0xc7 then Outcome.ok (some ifnonnull)
  else Outcome.stopAbrupt

end Control

/-! ## A program that loads classes

The class `Main` is loaded and running; `X` (super-class `Y`) and `Y` (super-class
`java/lang/Object`, one static field `F` of type `I`) are on disk, each with a `<clinit>()V`. -/

namespace Loading

/-- The constant pool shared by the class images of this program. -/
def pool : List cp_info :=
  [ cp_info.Utf8 "Main", cp_info.Class 1,                    -- 1, 2
    cp_info.Utf8 "X", cp_info.Class 3,                       -- 3, 4
    cp_info.Utf8 "Y", cp_info.Class 5,                       -- 5, 6
    cp_info.Utf8 "java/lang/Object", cp_info.Class 7,        -- 7, 8
    cp_info.Utf8 "Code", cp_info.Utf8 "run",                 -- 9, 10
    cp_info.Utf8 "()V", cp_info.Utf8 "<clinit>",             -- 11, 12
    cp_info.Utf8 "F", cp_info.Utf8 "I",                      -- 13, 14
    cp_info.NameAndType 13 14, cp_info.Fieldref 6 15 ]       -- 15, 16

/-- A static method with one `Code` attribute (`max_stack = 2`, `max_locals = 1`, fewer than
256 code bytes, no exception table, no attributes). -/
def method (name_index : u2) (code : List u1) : method_info :=
  { access_flags := ACC_STATIC, name_index := name_index, descriptor_index := 11,
    attributes := [attribute_info.mk 9 (code.length + 12)
      ([0, 2, 0, 1, 0, 0, 0, code.length] ++ code ++ [0, 0, 0, 0])] }

/-- The method `Main.run()V`: `nop; getstatic Y.F; return`. -/
def Main_run : method_info := method 10 [0x00, 0xb2, 0, 16, 0xb1]

/-- The method `X.<clinit>()V`: `nop; nop; return`. -/
def X_clinit : method_info := method 12 [0x00, 0x00, 0xb1]

/-- The method `Y.<clinit>()V`: `nop; return`. -/
def Y_clinit : method_info := method 12 [0x00, 0xb1]

def imageObject : ArqClass :=
  { magic := 0xCAFEBABE, minor_version := 0, major_version := 46, constant_pool := pool,
    access_flags := ACC_PUBLIC ||| ACC_SUPER, this_class := 8, super_class := 0,
    interfaces := [], fields := [], methods := [], attributes := [] }

def imageMain : ArqClass :=
  { imageObject with this_class := 2, super_class := 8, methods := [Main_run] }

def imageX : ArqClass :=
  { imageObject with this_class := 4, super_class := 6, methods := [X_clinit] }

/-- The static field `F` of type `I` of `Y`. -/
def Y_F : field_info :=
  { access_flags := ACC_STATIC, name_index := 13, descriptor_index := 14, attributes := [] }

def imageY : ArqClass :=
  { imageObject with this_class := 6, super_class := 8, fields := [Y_F], methods := [Y_clinit] }

/-- The method area with `java/lang/Object` and `Main` registered at positions 0 and 1. -/
def area : MethodArea :=
  MethodArea.mk
    [ ClassTable.mk "java/lang/Object" (JavaClass.mk [] imageObject []),
      ClassTable.mk "Main" (JavaClass.mk [] imageMain []) ]

/-- The frame of `Main.run` with the given operand stack; its saved return `PC` is 0. -/
def mainFrame (opStk : List u4) : Frame :=
  Frame.mk (JavaClassPtr.loaded 1) (some Main_run) 0 [0] (some opStk)

/-- The thread at offset `pc` of `Main.run` with the given operand stack; the files `X.class`
and `Y.class` are on disk. -/
def at_ (pc : Int) (opStk : List u4) : Environment :=
  { thread := { PC := pc, vmStack := [mainFrame opStk] },
    methodArea := area, debugFlags := 0, heap := [],
    classFiles := [("X.class", imageX), ("Y.class", imageY)] }

/-- A library bridge that does nothing (never reached by this program). -/
def noBridge : Bridge := fun _ _ _ env => Outcome.ok env

/-- A dispatcher for the opcodes of this program, with the opcode numbers of the JVM; any
other byte stops the VM. -/
def decode (bytecode : u1) : Outcome (Option instruction) :=
  if bytecode = 0x00 then Outcome.ok (some nop)
  else if bytecode = 0xb2 then Outcome.ok (some (getstatic 2 noBridge))
  else if bytecode = 0xb1 then Outcome.ok (some return_)
  else Outcome.stopAbrupt

end Loading

namespace Control

/-- The code `if_icmplt +5; nop; nop; nop`. -/
def icmpltCode : List u1 := [0xa1, 0x00, 0x05, 0x00, 0x00, 0x00]

end Control

namespace Control

/-- A code array of 40003 bytes: 40000 times `nop`, then `ifeq` at offset 40000 with the
operand bytes `0x80 0x00`, the offset -32768. -/
def farCode : List u1 := List.replicate 40000 0x00 ++ [0x99, 0x80, 0x00]

end Control

namespace Control

/-- A thread stopped at offset `pc` of `run`, in its only frame, whose saved return `PC` is
`returnPC`. -/
def returning (code : List u1) (pc returnPC : Int) (opStk locals : List u4) : Environment :=
  { thread := { PC := pc, vmStack := [frame code returnPC opStk locals] },
    methodArea := MethodArea.mk [ClassTable.mk "T" (JavaClass.mk [] (image code) [])],
    debugFlags := 0, heap := [], classFiles := [] }

/-- The code `tableswitch` at offset 0 with `default = 26`, `low = 0`, `high = 1` and the jump
table `[24, 25]`, followed at offset 24 by `nop; nop; nop; return`. -/
def tableCode : List u1 :=
  [0xaa, 0, 0, 0,  0, 0, 0, 26,  0, 0, 0, 0,  0, 0, 0, 1,  0, 0, 0, 24,  0, 0, 0, 25,
    0x00, 0x00, 0x00, 0xb1]

/-- The code `tableswitch` at offset 0 with `default = 26`, `low = 1`, `high = 2` and the jump
table `[24, 25]`, followed at offset 24 by `nop; nop; nop; return`. -/
def tableCodeFromOne : List u1 :=
  [0xaa, 0, 0, 0,  0, 0, 0, 26,  0, 0, 0, 1,  0, 0, 0, 2,  0, 0, 0, 24,  0, 0, 0, 25,
    0x00, 0x00, 0x00, 0xb1]

/-- The code `lookupswitch` at offset 0 with `default = 21`, `npairs = 1` and the pair
`(7, 20)`, followed at offset 20 by `nop; nop; nop; return`. -/
def lookupCode : List u1 :=
  [0xab, 0, 0, 0,  0, 0, 0, 21,  0, 0, 0, 1,  0, 0, 0, 7,  0, 0, 0, 20,
    0x00, 0x00, 0x00, 0xb1]

/-- The code `ifnull +5; nop; nop; return`. -/
def ifnullCode : List u1 := [0xc6, 0x00, 0x05, 0x00, 0x00, 0xb1]

/-- The code `ifnonnull +5; nop; nop; return`. -/
def ifnonnullCode : List u1 := [0xc7, 0x00, 0x05, 0x00, 0x00, 0xb1]

/-- The code `ret 1; nop; nop; nop; return`. -/
def retCode : List u1 := [0xa9, 0x01, 0x00, 0x00, 0x00, 0xb1]

/-- The code `idiv; return`. -/
def idivCode : List u1 := [0x6c, 0xb1]

/-- The code `irem; return`. -/
def iremCode : List u1 := [0x70, 0xb1]

end Control

/-! ## A program with fields

The classes `K`, `Base` and `Derived extends Base` are loaded.  `K` declares the instance
fields `int x` (no modifier), `public int y`, `public char c` and the constant
`public static final int X = 7`; `Base` declares `public int f`, `Derived` declares
`public int g`. -/

namespace Instances

/-- The constant pool shared by the class images of this program. -/
def pool : List cp_info :=
  [ cp_info.Utf8 "K", cp_info.Class 1,                         -- 1, 2
    cp_info.Utf8 "Base", cp_info.Class 3,                      -- 3, 4
    cp_info.Utf8 "Derived", cp_info.Class 5,                   -- 5, 6
    cp_info.Utf8 "java/lang/Object", cp_info.Class 7,          -- 7, 8
    cp_info.Utf8 "Code", cp_info.Utf8 "run",                   -- 9, 10
    cp_info.Utf8 "()V", cp_info.Utf8 "x",                      -- 11, 12
    cp_info.Utf8 "I", cp_info.Utf8 "y",                        -- 13, 14
    cp_info.Utf8 "c", cp_info.Utf8 "C",                        -- 15, 16
    cp_info.Utf8 "f", cp_info.Utf8 "g",                        -- 17, 18
    cp_info.Utf8 "X", cp_info.Utf8 "ConstantValue",            -- 19, 20
    cp_info.Integer 7, cp_info.Integer 9,                      -- 21, 22
    cp_info.NameAndType 12 13, cp_info.Fieldref 2 23,          -- 23, 24: K.x
    cp_info.NameAndType 17 13, cp_info.Fieldref 6 25,          -- 25, 26: Derived.f
    cp_info.NameAndType 15 16, cp_info.Fieldref 2 27,          -- 27, 28: K.c
    cp_info.NameAndType 19 13, cp_info.Fieldref 2 29,          -- 29, 30: K.X
    cp_info.NameAndType 14 13, cp_info.Fieldref 2 31,          -- 31, 32: K.y
    cp_info.NameAndType 18 13, cp_info.Fieldref 6 33 ]         -- 33, 34: Derived.g

/-- The field `int x` of `K`, declared with no modifier. -/
def K_x : field_info :=
  { access_flags := 0, name_index := 12, descriptor_index := 13, attributes := [] }

/-- The field `public int y` of `K`. -/
def K_y : field_info :=
  { access_flags := ACC_PUBLIC, name_index := 14, descriptor_index := 13, attributes := [] }

/-- The field `public char c` of `K`. -/
def K_c : field_info :=
  { access_flags := ACC_PUBLIC, name_index := 15, descriptor_index := 16, attributes := [] }

/-- The constant `public static final int X = 7` of `K`: its `ConstantValue` attribute holds
the index 21 of the entry `Integer 7`. -/
def K_X : field_info :=
  { access_flags := ACC_PUBLIC ||| ACC_STATIC ||| ACC_FINAL, name_index := 19,
    descriptor_index := 13, attributes := [attribute_info.mk 20 2 [0, 21]] }

/-- The field `public int f` of `Base`. -/
def Base_f : field_info :=
  { access_flags := ACC_PUBLIC, name_index := 17, descriptor_index := 13, attributes := [] }

/-- The field `public int g` of `Derived`. -/
def Derived_g : field_info :=
  { access_flags := ACC_PUBLIC, name_index := 18, descriptor_index := 13, attributes := [] }

/-- The code of `K.run()V`: `getfield K.x` at offset 0, `getfield K.y` at 3, `getfield K.c` at
6, `getstatic K.X` at 9, `getfield Derived.f` at 12, `getfield Derived.g` at 15, `return`. -/
def runCode : List u1 :=
  [0xb4, 0, 24,  0xb4, 0, 32,  0xb4, 0, 28,  0xb2, 0, 30,  0xb4, 0, 26,  0xb4, 0, 34,  0xb1]

/-- The static method `K.run()V`. -/
def K_run : method_info :=
  { access_flags := ACC_PUBLIC ||| ACC_STATIC, name_index := 10, descriptor_index := 11,
    attributes := [attribute_info.mk 9 (runCode.length + 12)
      ([0, 2, 0, 1, 0, 0, 0, runCode.length] ++ runCode ++ [0, 0, 0, 0])] }

def imageK : ArqClass :=
  { magic := 0xCAFEBABE, minor_version := 0, major_version := 46, constant_pool := pool,
    access_flags := ACC_PUBLIC ||| ACC_SUPER, this_class := 2, super_class := 8,
    interfaces := [], fields := [K_x, K_y, K_c, K_X], methods := [K_run], attributes := [] }

def imageBase : ArqClass :=
  { imageK with this_class := 4, fields := [Base_f], methods := [] }

def imageDerived : ArqClass :=
  { imageK with this_class := 6, super_class := 4, fields := [Derived_g], methods := [] }

/-- The method area with `K`, `Base` and `Derived` registered at positions 0 to 2, as
`classPreparing` leaves them: none has a static field that is not final. -/
def area : MethodArea :=
  MethodArea.mk
    [ ClassTable.mk "K" (JavaClass.mk [] imageK []),
      ClassTable.mk "Base" (JavaClass.mk [] imageBase []),
      ClassTable.mk "Derived" (JavaClass.mk [] imageDerived []) ]

/-- The thread at offset `pc` of `K.run` with the given operand stack and an empty heap. -/
def at_ (pc : Int) (opStk : List u4) : Environment :=
  { thread := { PC := pc, vmStack :=
      [Frame.mk (JavaClassPtr.loaded 0) (some K_run) 0 [0] (some opStk)] },
    methodArea := area, debugFlags := 0, heap := [], classFiles := [] }

/-- A library bridge that does nothing (never reached by this program). -/
def noBridge : Bridge := fun _ _ _ env => Outcome.ok env

end Instances

namespace Control

/-- The constants `wide` compares its operand with, with the opcode numbers of the JVM. -/
def opcodes : WideOpcodes :=
  { OP_iload := 0x15, OP_fload := 0x17, OP_aload := 0x19, OP_istore := 0x36,
    OP_fstore := 0x38, OP_astore := 0x3a, OP_lload := 0x16, OP_dload := 0x18,
    OP_lstore := 0x37, OP_dstore := 0x39, OP_ret := 0xa9, OP_iinc := 0x84 }

/-- The code `ishr; return`. -/
def ishrCode : List u1 := [0x7a, 0xb1]

/-- The code `lshl; return`. -/
def lshlCode : List u1 := [0x79, 0xb1]

/-- The code `wide iinc 1 by 5; return`. -/
def wideIincCode : List u1 := [0xc4, 0x84, 0x00, 0x01, 0x00, 0x05, 0xb1]

/-- The code `iinc 1 by 5; return`. -/
def iincCode : List u1 := [0x84, 0x01, 0x05, 0xb1]

/-- The code `lstore 1; lload 1; return`. -/
def lstoreCode : List u1 := [0x37, 0x01, 0x16, 0x01, 0xb1]

/-- The code `dstore_1; dload_1; return`. -/
def dstore1Code : List u1 := [0x48, 0x27, 0xb1]

/-- The code `wide lstore 1; wide lload 1; return`. -/
def wideLstoreCode : List u1 := [0xc4, 0x37, 0x00, 0x01, 0xc4, 0x16, 0x00, 0x01, 0xb1]

/-- The code `i2l; l2i; return`. -/
def i2lCode : List u1 := [0x85, 0x88, 0xb1]

/-- The code `i2c; return`. -/
def i2cCode : List u1 := [0x92, 0xb1]

end Control

/-! ## A numbering of the opcodes

The numbers the JVM gives the mnemonics, as a numbering for `opcodes.h`. -/

namespace Control

/-- The mnemonics with their opcode numbers. -/
def opcodeNumbers : List (String × u1) :=
  [
    ("nop", 0), ("aconst_null", 1), ("iconst_m1", 2), ("iconst_0", 3), ("iconst_1", 4),
    ("iconst_2", 5), ("iconst_3", 6), ("iconst_4", 7), ("iconst_5", 8), ("lconst_0", 9),
    ("lconst_1", 10), ("fconst_0", 11), ("fconst_1", 12), ("fconst_2", 13), ("dconst_0", 14),
    ("dconst_1", 15), ("bipush", 16), ("sipush", 17), ("ldc", 18), ("ldc_w", 19), ("ldc2_w", 20),
    ("iload", 21), ("lload", 22), ("fload", 23), ("dload", 24), ("aload", 25), ("iload_0", 26),
    ("iload_1", 27), ("iload_2", 28), ("iload_3", 29), ("lload_0", 30), ("lload_1", 31),
    ("lload_2", 32), ("lload_3", 33), ("fload_0", 34), ("fload_1", 35), ("fload_2", 36),
    ("fload_3", 37), ("dload_0", 38), ("dload_1", 39), ("dload_2", 40), ("dload_3", 41),
    ("aload_0", 42), ("aload_1", 43), ("aload_2", 44), ("aload_3", 45), ("iaload", 46),
    ("laload", 47), ("faload", 48), ("daload", 49), ("aaload", 50), ("baload", 51),
    ("caload", 52), ("saload", 53), ("istore", 54), ("lstore", 55), ("fstore", 56),
    ("dstore", 57), ("astore", 58), ("istore_0", 59), ("istore_1", 60), ("istore_2", 61),
    ("istore_3", 62), ("lstore_0", 63), ("lstore_1", 64), ("lstore_2", 65), ("lstore_3", 66),
    ("fstore_0", 67), ("fstore_1", 68), ("fstore_2", 69), ("fstore_3", 70), ("dstore_0", 71),
    ("dstore_1", 72), ("dstore_2", 73), ("dstore_3", 74), ("astore_0", 75), ("astore_1", 76),
    ("astore_2", 77), ("astore_3", 78), ("iastore", 79), ("lastore", 80), ("fastore", 81),
    ("dastore", 82), ("aastore", 83), ("bastore", 84), ("castore", 85), ("sastore", 86),
    ("pop", 87), ("pop2", 88), ("dup", 89), ("dup_x1", 90), ("dup_x2", 91), ("dup2", 92),
    ("dup2_x1", 93), ("dup2_x2", 94), ("swap", 95), ("iadd", 96), ("ladd", 97), ("fadd", 98),
    ("dadd", 99), ("isub", 100), ("lsub", 101), ("fsub", 102), ("dsub", 103), ("imul", 104),
    ("lmul", 105), ("fmul", 106), ("dmul", 107), ("idiv", 108), ("ldiv", 109), ("fdiv", 110),
    ("ddiv", 111), ("irem", 112), ("lrem", 113), ("frem", 114), ("drem", 115), ("ineg", 116),
    ("lneg", 117), ("fneg", 118), ("dneg", 119), ("ishl", 120), ("lshl", 121), ("ishr", 122),
    ("lshr", 123), ("iushr", 124), ("lushr", 125), ("iand", 126), ("land", 127), ("ior", 128),
    ("lor", 129), ("ixor", 130), ("lxor", 131), ("iinc", 132), ("i2l", 133), ("i2f", 134),
    ("i2d", 135), ("l2i", 136), ("l2f", 137), ("l2d", 138), ("f2i", 139), ("f2l", 140),
    ("f2d", 141), ("d2i", 142), ("d2l", 143), ("d2f", 144), ("i2b", 145), ("i2c", 146),
    ("i2s", 147), ("lcmp", 148), ("fcmpl", 149), ("fcmpg", 150), ("dcmpl", 151), ("dcmpg", 152),
    ("ifeq", 153), ("ifne", 154), ("iflt", 155), ("ifge", 156), ("ifgt", 157), ("ifle", 158),
    ("if_icmpeq", 159), ("if_icmpne", 160), ("if_icmplt", 161), ("if_icmpge", 162),
    ("if_icmpgt", 163), ("if_icmple", 164), ("if_acmpeq", 165), ("if_acmpne", 166), ("goto", 167),
    ("jsr", 168), ("ret", 169), ("tableswitch", 170), ("lookupswitch", 171), ("ireturn", 172),
    ("lreturn", 173), ("freturn", 174), ("dreturn", 175), ("areturn", 176), ("return", 177),
    ("getstatic", 178), ("putstatic", 179), ("getfield", 180), ("putfield", 181),
    ("invokevirtual", 182), ("invokespecial", 183), ("invokestatic", 184),
    ("invokeinterface", 185), ("invokedynamic", 186), ("new", 187), ("newarray", 188),
    ("anewarray", 189), ("arraylength", 190), ("athrow", 191), ("checkcast", 192),
    ("instanceof", 193), ("monitorenter", 194), ("monitorexit", 195), ("wide", 196),
    ("multianewarray", 197), ("ifnull", 198), ("ifnonnull", 199), ("goto_w", 200), ("jsr_w", 201),
    ("breakpoint", 202), ("impdep1", 254), ("impdep2", 255) ]

/-- The value of `OP_<mnemonic>` in this numbering. -/
def opcodeValue : OpcodeTable := fun mnemonic => (opcodeNumbers.lookup mnemonic).getD 0

end Control

namespace Control

/-- The code `newarray int; arraylength; return`. -/
def newarrayCode : List u1 := [0xbc, 0x0a, 0xbe, 0xb1]

/-- The code `multianewarray #2, 2; return`; entry 2 of the pool is the class `T`. -/
def multianewarrayCode : List u1 := [0xc5, 0x00, 0x02, 0x02, 0xb1]

end Control

/-! ## A program that stores into fields

The class `P` is loaded.  It declares the instance fields `public byte b`, `public short h`,
`public int i`, the static fields `static byte sb`, `static int si`, and
`static final Object o`, which has no `ConstantValue` attribute. -/

namespace Stores

def pool : List cp_info :=
  [ cp_info.Utf8 "P", cp_info.Class 1,                         -- 1, 2
    cp_info.Utf8 "java/lang/Object", cp_info.Class 3,          -- 3, 4
    cp_info.Utf8 "Code", cp_info.Utf8 "run",                   -- 5, 6
    cp_info.Utf8 "()V", cp_info.Utf8 "b",                      -- 7, 8
    cp_info.Utf8 "B", cp_info.Utf8 "h",                        -- 9, 10
    cp_info.Utf8 "S", cp_info.Utf8 "i",                        -- 11, 12
    cp_info.Utf8 "I", cp_info.Utf8 "o",                        -- 13, 14
    cp_info.Utf8 "Ljava/lang/Object;", cp_info.Utf8 "sb",      -- 15, 16
    cp_info.Utf8 "si",                                         -- 17
    cp_info.NameAndType 8 9, cp_info.Fieldref 2 18,            -- 18, 19: P.b
    cp_info.NameAndType 10 11, cp_info.Fieldref 2 20,          -- 20, 21: P.h
    cp_info.NameAndType 12 13, cp_info.Fieldref 2 22,          -- 22, 23: P.i
    cp_info.NameAndType 14 15, cp_info.Fieldref 2 24,          -- 24, 25: P.o
    cp_info.NameAndType 16 9, cp_info.Fieldref 2 26,           -- 26, 27: P.sb
    cp_info.NameAndType 17 13, cp_info.Fieldref 2 28 ]         -- 28, 29: P.si

/-- The field `public byte b`. -/
def P_b : field_info :=
  { access_flags := ACC_PUBLIC, name_index := 8, descriptor_index := 9, attributes := [] }

/-- The field `public short h`. -/
def P_h : field_info :=
  { access_flags := ACC_PUBLIC, name_index := 10, descriptor_index := 11, attributes := [] }

/-- The field `public int i`. -/
def P_i : field_info :=
  { access_flags := ACC_PUBLIC, name_index := 12, descriptor_index := 13, attributes := [] }

/-- The field `static final Object o`, initialised in `<clinit>`: no `ConstantValue`. -/
def P_o : field_info :=
  { access_flags := ACC_STATIC ||| ACC_FINAL, name_index := 14, descriptor_index := 15,
    attributes := [] }

/-- The field `static byte sb`. -/
def P_sb : field_info :=
  { access_flags := ACC_STATIC, name_index := 16, descriptor_index := 9, attributes := [] }

/-- The field `static int si`. -/
def P_si : field_info :=
  { access_flags := ACC_STATIC, name_index := 17, descriptor_index := 13, attributes := [] }

/-- The code of `P.run()V`: `putfield P.b` at offset 0, `getfield P.b` at 3, `putfield P.h`
at 6, `getfield P.h` at 9, `putfield P.i` at 12, `getfield P.i` at 15, `putstatic P.o` at 18,
`putstatic P.si` at 21, `getstatic P.sb` at 24, `return`. -/
def runCode : List u1 :=
  [0xb5, 0, 19,  0xb4, 0, 19,  0xb5, 0, 21,  0xb4, 0, 21,  0xb5, 0, 23,  0xb4, 0, 23,
   0xb3, 0, 25,  0xb3, 0, 29,  0xb2, 0, 27,  0xb1]

/-- The static method `P.run()V`. -/
def P_run : method_info :=
  { access_flags := ACC_PUBLIC ||| ACC_STATIC, name_index := 6, descriptor_index := 7,
    attributes := [attribute_info.mk 5 (runCode.length + 12)
      ([0, 4, 0, 1, 0, 0, 0, runCode.length] ++ runCode ++ [0, 0, 0, 0])] }

def imageP : ArqClass :=
  { magic := 0xCAFEBABE, minor_version := 0, major_version := 46, constant_pool := pool,
    access_flags := ACC_PUBLIC ||| ACC_SUPER, this_class := 2, super_class := 4,
    interfaces := [], fields := [P_b, P_h, P_i, P_o, P_sb, P_si], methods := [P_run],
    attributes := [] }

/-- The static fields of `P` as `classPreparing` builds them, with the byte `sb` in the cell
of `sb`. -/
def statics (sb : Nat) : Fields :=
  [ FieldsTable.mk "sb" "B" (Cell.mk 1 (some sb)) P_sb,
    FieldsTable.mk "si" "I" (Cell.mk 4 (some 0)) P_si ]

/-- The record of `P` in the method area. -/
def classP (sb : Nat) : JavaClass := JavaClass.mk [1000] imageP (statics sb)

/-- The instance of `P` at address 1000, with the byte `b` in the cell of `b`. -/
def instanceP (b : Nat) : Object :=
  Object.mk (Handler.mk (JavaClassPtr.loaded 0)
    [ FieldsTable.mk "b" "B" (Cell.mk 1 (some b)) P_b,
      FieldsTable.mk "h" "S" (Cell.mk 2 (some 0)) P_h,
      FieldsTable.mk "i" "I" (Cell.mk 4 (some 0)) P_i ])

/-- The frame of `P.run` with the given operand stack. -/
def frame (opStk : List u4) : Frame :=
  Frame.mk (JavaClassPtr.loaded 0) (some P_run) 0 [0] (some opStk)

/-- The thread at offset `pc` of `P.run` with the given operand stack; the cells of `b` and
`sb` hold `0x80`. -/
def at_ (pc : Int) (opStk : List u4) : Environment :=
  { thread := { PC := pc, vmStack := [frame opStk] },
    methodArea := MethodArea.mk [ClassTable.mk "P" (classP 0x80)], debugFlags := 0,
    heap := [(1000, HeapCell.object (instanceP 0x80))], classFiles := [] }

/-- A library bridge that does nothing (never reached by this program). -/
def noBridge : Bridge := fun _ _ _ env => Outcome.ok env

end Stores

end JVM

/-! ## Lemmas -/

namespace JVM

@[simp]
theorem Outcome.pure_eq_ok {α : Type} (a : α) : (pure a : Outcome α) = Outcome.ok a := rfl

@[simp]
theorem Outcome.ok_bind {α β : Type} (a : α) (f : α → Outcome β) :
    (Outcome.ok a >>= f) = f a := rfl

@[simp]
theorem Outcome.undefined_bind {α β : Type} (f : α → Outcome β) :
    (Outcome.undefined >>= f) = Outcome.undefined := rfl

@[simp]
theorem Outcome.thrown_bind {α β : Type} (e : Nat) (f : α → Outcome β) :
    (Outcome.thrown e >>= f) = Outcome.thrown e := rfl

@[simp]
theorem Outcome.stopAbrupt_bind {α β : Type} (f : α → Outcome β) :
    (Outcome.stopAbrupt >>= f) = Outcome.stopAbrupt := rfl

@[simp]
theorem Outcome.outOfFuel_bind {α β : Type} (f : α → Outcome β) :
    (Outcome.outOfFuel >>= f) = Outcome.outOfFuel := rfl

/-- Overwriting position `i` and then the positions after it, in list form. -/
theorem set_take_drop {α : Type} (l : List α) :
    ∀ (i : Nat) (v : α) (vs : List α), i + (vs.length + 1) ≤ l.length →
      (l.set i v).take (i + 1) ++ vs ++ (l.set i v).drop (i + 1 + vs.length)
        = l.take i ++ (v :: vs) ++ l.drop (i + (vs.length + 1)) := by
  induction l with
  | nil => intro i v vs h; simp at h
  | cons x l ih =>
      intro i v vs h
      cases i with
      | zero => simp [Nat.add_comm]
      | succ i =>
          have h2 : i + (vs.length + 1) ≤ l.length := by
            simp only [List.length_cons] at h; omega
          have := ih i v vs h2
          simp only [List.set_cons_succ, List.take_succ_cons, List.cons_append]
          have e1 : i + 1 + 1 + vs.length = (i + 1 + vs.length) + 1 := by omega
          have e2 : i + 1 + (vs.length + 1) = (i + (vs.length + 1)) + 1 := by omega
          rw [e1, e2, List.drop_succ_cons, List.drop_succ_cons]
          simpa using this

/-- Popping `args.length` parameters off a stack that starts with `args` yields `args`, in the
order they are popped, and leaves the rest. -/
theorem popParams_stack (args s : List u4) (pc : Int) (jc : JavaClassPtr)
    (mi : Option method_info) (rpc : Int) (lv : List u4) (rest : List Frame) (ma : MethodArea)
    (dbg : u1) (hp : List (Nat × HeapCell)) (cf : List (String × ArqClass)) :
    popParams args.length
        (Environment.mk (Thread.mk pc (Frame.mk jc mi rpc lv (some (args ++ s)) :: rest))
          ma dbg hp cf)
      = Outcome.ok (args,
          Environment.mk (Thread.mk pc (Frame.mk jc mi rpc lv (some s) :: rest)) ma dbg hp cf) := by
  induction args with
  | nil => rfl
  | cons a args ih =>
      simp only [List.length_cons, popParams, popFromOperandStack, getCurrentFrame,
        setCurrentFrame, List.cons_append, Outcome.ok_bind, Outcome.pure_eq_ok, List.tail_cons]
      rw [ih]
      rfl

/-- Storing `vs` from local `i` on into the top frame overwrites exactly those locals. -/
theorem storeParams_top (vs : List u4) :
    ∀ (i : Nat) (lv : List u4) (pc : Int) (jc : JavaClassPtr) (mi : Option method_info)
      (rpc : Int) (os : Option (List u4)) (rest : List Frame) (ma : MethodArea) (dbg : u1)
      (hp : List (Nat × HeapCell)) (cf : List (String × ArqClass)),
      i + vs.length ≤ lv.length →
      storeParams rest.length i vs
          (Environment.mk (Thread.mk pc (Frame.mk jc mi rpc lv os :: rest)) ma dbg hp cf)
        = Outcome.ok (Environment.mk (Thread.mk pc
            (Frame.mk jc mi rpc (lv.take i ++ vs ++ lv.drop (i + vs.length)) os :: rest))
            ma dbg hp cf) := by
  induction vs with
  | nil =>
      intro i lv pc jc mi rpc os rest ma dbg hp cf _
      simp [storeParams]
  | cons v vs ih =>
      intro i lv pc jc mi rpc os rest ma dbg hp cf hb
      simp only [List.length_cons] at hb
      have hi : i < lv.length := by omega
      have hw : writeLocal rest.length i v
          (Environment.mk (Thread.mk pc (Frame.mk jc mi rpc lv os :: rest)) ma dbg hp cf)
          = Outcome.ok (Environment.mk (Thread.mk pc
              (Frame.mk jc mi rpc (lv.set i v) os :: rest)) ma dbg hp cf) := by
        simp [writeLocal, frameAt, setFrameAt, hi, Outcome.ofOption]
      simp only [storeParams, hw, Outcome.ok_bind]
      rw [ih (i + 1) (lv.set i v) pc jc mi rpc os rest ma dbg hp cf (by simp; omega)]
      simp only [List.length_cons]
      rw [set_take_drop lv i v vs hb]

/-- For `invokestatic` on a loaded class the parameters land in the locals in the order they are
popped. -/
theorem invokestatic_loaded (fuel : Nat) (bridge : Bridge) (env : Environment)
    (caller : Frame) (rest : List Frame) (cc : JavaClass) (b1 b2 : u1) (cn mn md : String)
    (ptr : JavaClassPtr) (tc : JavaClass) (m : method_info) (code : CodeAttribute)
    (args s : List u4)
    (hs : CallSite env caller rest cc b1 b2 cn mn md)
    (ht : Target env.methodArea cn mn md ptr tc m code)
    (hstatic : m.access_flags &&& ACC_STATIC ≠ 0)
    (hn : getParameterNumberFromMethodDescriptor md = args.length)
    (hargs : caller.opStk = some (args ++ s))
    (hlocals : args.length ≤ code.max_locals) :
    invokestatic fuel bridge env = Outcome.ok (invoked env caller rest s ptr m
      (env.thread.PC + 1 + 1) (args ++ List.replicate (code.max_locals - args.length) 0) (-1)) := by
  obtain ⟨⟨pc, stack⟩, ma, dbg, hp, cf⟩ := env
  obtain ⟨jc, mi, rpc, lv, os⟩ := caller
  obtain ⟨h1, h2, h3, h4, h5, h6⟩ := hs
  obtain ⟨t1, t2, t3, t4⟩ := ht
  dsimp only at h1 h2 h3 h4 h5 h6 t1 t2 t3 t4 hargs
  subst h1
  subst hargs
  have hstore := storeParams_top args 0 (List.replicate code.max_locals 0) (-1) ptr (some m)
    (pc + 1 + 1) (some []) (Frame.mk jc mi rpc lv (some s) :: rest) ma dbg hp cf
    (by simpa using hlocals)
  simp only [List.length_cons, List.take_zero, List.nil_append, Nat.zero_add,
    List.drop_replicate] at hstore
  simp [invokestatic, getCurrentFrame, h2, calculatePoolIndexFromCode, h3, h4, h5, h6, getClass,
    getClassWith, t1, t2, t3, t4, hn, popParams_stack, hstatic, pushFrame, pushFrameWith,
    frameAt, setFrameAt, Outcome.ofOption, hstore, invoked]

/-- One step of the search: the class declares the method. -/
theorem walk_here (load : Loader) (n : Nat) (env : Environment) (ptr : JavaClassPtr)
    (jc : JavaClass) (mn md : String) (m : method_info) (name : String)
    (hd : derefClass env.methodArea ptr = Outcome.ok jc)
    (hm : getMethodInfoFromClass jc mn md = Outcome.ok (some m))
    (hname : getClassNameFromConstantPool jc.arqClass.constant_pool jc.arqClass.this_class
      = Outcome.ok name) :
    isMethodInClassOrSuperClass load (n + 1) ptr mn md env = Outcome.ok (m, name, env) := by
  simp [isMethodInClassOrSuperClass, hd, hm, hname]

/-- One step of the search: the class does not declare the method and its super-class is a
registered class, where the search goes on. -/
theorem walk_super (load : Loader) (n : Nat) (env : Environment) (ptr sup : JavaClassPtr)
    (jc : JavaClass) (mn md : String) (superName : String)
    (hd : derefClass env.methodArea ptr = Outcome.ok jc)
    (hm : getMethodInfoFromClass jc mn md = Outcome.ok none)
    (hname : getClassNameFromConstantPool jc.arqClass.constant_pool jc.arqClass.super_class
      = Outcome.ok superName)
    (hlib : javaLibIsFrom superName = false)
    (hfind : findJavaClassOnMethodArea superName env.methodArea = some sup) :
    isMethodInClassOrSuperClass load (n + 1) ptr mn md env
      = isMethodInClassOrSuperClass load n sup mn md env := by
  simp [isMethodInClassOrSuperClass, hd, hm, hname, hlib, getClassWith, hfind]

/-- The effect of `invokevirtual` on a receiver whose method search ends in a registered
class. -/
theorem invokevirtual_loaded (fuel : Nat) (bridge : Bridge) (env : Environment)
    (caller : Frame) (rest : List Frame) (cc : JavaClass) (b1 b2 : u1) (cn mn md : String)
    (objectRef : u4) (obj : Object) (tn : String) (sel : method_info)
    (ptr : JavaClassPtr) (tc : JavaClass) (m : method_info) (code : CodeAttribute)
    (args s : List u4)
    (hs : CallSite env caller rest cc b1 b2 cn mn md)
    (hn : getParameterNumberFromMethodDescriptor md = args.length)
    (hargs : caller.opStk = some (args ++ objectRef :: s))
    (hnonnull : objectRef ≠ 0)
    (hobj : heapAt env.heap objectRef = some (HeapCell.object obj))
    (hsel : Selects fuel env.methodArea obj.handler.javaClass mn md sel tn)
    (hconcrete : sel.access_flags &&& ACC_ABSTRACT = 0)
    (ht : Target env.methodArea tn mn md ptr tc m code)
    (hlocals : args.length + 1 ≤ code.max_locals) :
    invokevirtual fuel bridge env = Outcome.ok (invoked env caller rest s ptr m
      (env.thread.PC + 1 + 1)
      (objectRef :: args ++ List.replicate (code.max_locals - (args.length + 1)) 0) (-1)) := by
  obtain ⟨⟨pc, stack⟩, ma, dbg, hp, cf⟩ := env
  obtain ⟨jc, mi, rpc, lv, os⟩ := caller
  obtain ⟨h1, h2, h3, h4, h5, h6⟩ := hs
  obtain ⟨t1, t2, t3, t4⟩ := ht
  dsimp only at h1 h2 h3 h4 h5 h6 t1 t2 t3 t4 hargs hobj hsel
  subst h1
  subst hargs
  have hwalk := hsel (Environment.mk (Thread.mk (pc + 1 + 1)
    (Frame.mk jc mi rpc lv (some s) :: rest)) ma dbg hp cf) rfl
  have hstore := storeParams_top (objectRef :: args) 0 (List.replicate code.max_locals 0) (-1)
    ptr (some m) (pc + 1 + 1) (some []) (Frame.mk jc mi rpc lv (some s) :: rest) ma dbg hp cf
    (by simpa using hlocals)
  simp only [List.length_cons, List.take_zero, List.nil_append, Nat.zero_add,
    List.drop_replicate, storeParams] at hstore
  have hpos : 0 < code.max_locals := Nat.lt_of_lt_of_le (Nat.succ_pos _) hlocals
  simp [invokevirtual, getCurrentFrame, h2, calculatePoolIndexFromCode, h3, h4, h5, h6, hn,
    popParams_stack, popFromOperandStack, setCurrentFrame, hnonnull, derefObject, hobj, hwalk,
    hconcrete, pushFrame, pushFrameWith, getClassWith, t1, t2, t3, t4, frameAt, setFrameAt,
    Outcome.ofOption, invoked]
  simpa [writeLocal, frameAt, setFrameAt, Outcome.ofOption, hpos] using hstore

/-- The effect of `invokespecial` on a receiver whose method search ends in a registered
class. -/
theorem invokespecial_loaded (fuel : Nat) (bridge : Bridge) (env : Environment)
    (caller : Frame) (rest : List Frame) (cc : JavaClass) (b1 b2 : u1) (cn mn md : String)
    (mptr : JavaClassPtr) (objectRef : u4) (obj : Object) (tn : String) (sel : method_info)
    (ptr : JavaClassPtr) (tc : JavaClass) (m : method_info) (code : CodeAttribute)
    (args s : List u4)
    (hs : CallSite env caller rest cc b1 b2 cn mn md)
    (hfound : findJavaClassOnMethodArea cn env.methodArea = some mptr)
    (hn : getParameterNumberFromMethodDescriptor md = args.length)
    (hargs : caller.opStk = some (args ++ objectRef :: s))
    (hnonnull : objectRef ≠ 0)
    (hverify : VerifyReturns fuel env.methodArea caller.javaClass mptr)
    (hobj : heapAt env.heap objectRef = some (HeapCell.object obj))
    (hsel : Selects fuel env.methodArea obj.handler.javaClass mn md sel tn)
    (hinstance : sel.access_flags &&& ACC_STATIC = 0)
    (hconcrete : sel.access_flags &&& ACC_ABSTRACT = 0)
    (ht : Target env.methodArea tn mn md ptr tc m code)
    (hlocals : args.length + 1 ≤ code.max_locals) :
    invokespecial fuel bridge env = Outcome.ok (invoked env caller rest s ptr m
      (env.thread.PC + 1 + 1)
      (objectRef :: args ++ List.replicate (code.max_locals - (args.length + 1)) 0) (-1)) := by
  obtain ⟨⟨pc, stack⟩, ma, dbg, hp, cf⟩ := env
  obtain ⟨jc, mi, rpc, lv, os⟩ := caller
  obtain ⟨h1, h2, h3, h4, h5, h6⟩ := hs
  obtain ⟨t1, t2, t3, t4⟩ := ht
  dsimp only at h1 h2 h3 h4 h5 h6 t1 t2 t3 t4 hargs hobj hsel hfound hverify
  subst h1
  subst hargs
  have hwalk := hsel (Environment.mk (Thread.mk (pc + 1 + 1)
    (Frame.mk jc mi rpc lv (some s) :: rest)) ma dbg hp cf) rfl
  have hver := hverify (Environment.mk (Thread.mk (pc + 1 + 1)
    (Frame.mk jc mi rpc lv (some s) :: rest)) ma dbg hp cf) _ _ rfl rfl rfl
  have hstore := storeParams_top (objectRef :: args) 0 (List.replicate code.max_locals 0) (-1)
    ptr (some m) (pc + 1 + 1) (some []) (Frame.mk jc mi rpc lv (some s) :: rest) ma dbg hp cf
    (by simpa using hlocals)
  simp only [List.length_cons, List.take_zero, List.nil_append, Nat.zero_add,
    List.drop_replicate, storeParams] at hstore
  have hpos : 0 < code.max_locals := Nat.lt_of_lt_of_le (Nat.succ_pos _) hlocals
  simp [invokespecial, getCurrentFrame, h2, calculatePoolIndexFromCode, h3, h4, h5, h6, hn,
    getClass, hfound, hver,
    popParams_stack, popFromOperandStack, setCurrentFrame, hnonnull, derefObject, hobj, hwalk,
    hconcrete, hinstance, pushFrame, pushFrameWith, getClassWith, t1, t2, t3, t4, frameAt,
    setFrameAt, Outcome.ofOption, invoked]
  simpa [writeLocal, frameAt, setFrameAt, Outcome.ofOption, hpos] using hstore

/-- A sequence signals an exception only if one of its two parts does. -/
theorem Outcome.bind_eq_thrown {α β : Type} (x : Outcome α) (f : α → Outcome β) (e : Nat) :
    (x >>= f) = Outcome.thrown e ↔
      x = Outcome.thrown e ∨ ∃ a, x = Outcome.ok a ∧ f a = Outcome.thrown e := by
  cases x <;> simp [bind, Outcome.bind]

theorem ofOption_ne_thrown {α : Type} (o : Option α) (e : Nat) :
    Outcome.ofOption o ≠ Outcome.thrown e := by
  cases o <;> simp [Outcome.ofOption]

theorem popFromOperandStack_ne_thrown (env : Environment) (e : Nat) :
    popFromOperandStack env ≠ Outcome.thrown e := by
  unfold popFromOperandStack getCurrentFrame
  cases env.thread.vmStack with
  | nil => simp
  | cons top rest =>
      simp only [Outcome.ok_bind]
      cases top.opStk with
      | none => simp
      | some stk => cases stk <;> simp

theorem pushInOperandStack_ne_thrown (env : Environment) (v : u4) (e : Nat) :
    pushInOperandStack env v ≠ Outcome.thrown e := by
  unfold pushInOperandStack getCurrentFrame
  cases env.thread.vmStack with
  | nil => simp
  | cons top rest =>
      simp only [Outcome.ok_bind]
      cases top.opStk <;> simp

theorem getCurrentFrame_ne_thrown (env : Environment) (e : Nat) :
    getCurrentFrame env ≠ Outcome.thrown e := by
  unfold getCurrentFrame
  split <;> simp

theorem derefArray_ne_thrown (env : Environment) (r : u4) (e : Nat) :
    derefArray env r ≠ Outcome.thrown e := by
  unfold derefArray
  split <;> simp

theorem derefBlock_ne_thrown (env : Environment) (r : u4) (e : Nat) :
    derefBlock env r ≠ Outcome.thrown e := by
  unfold derefBlock
  split <;> simp

theorem derefObject_ne_thrown (env : Environment) (r : u4) (e : Nat) :
    derefObject env r ≠ Outcome.thrown e := by
  unfold derefObject
  split <;> simp

theorem derefClass_ne_thrown (ma : MethodArea) (p : JavaClassPtr) (e : Nat) :
    derefClass ma p ≠ Outcome.thrown e := by
  cases p <;> simp [derefClass, ofOption_ne_thrown]

theorem cpEntry_ne_thrown (cp : List cp_info) (i : u2) (e : Nat) :
    cpEntry cp i ≠ Outcome.thrown e := by
  unfold cpEntry
  split <;> simp [ofOption_ne_thrown]

theorem getUnicodeFromConstantPool_ne_thrown (cp : List cp_info) (i : u2) (e : Nat) :
    getUnicodeFromConstantPool cp i ≠ Outcome.thrown e := by
  intro h
  simp only [getUnicodeFromConstantPool, Outcome.bind_eq_thrown, cpEntry_ne_thrown,
    false_or] at h
  obtain ⟨a, _, h⟩ := h
  split at h <;> simp at h

theorem getUTF8FromConstantPool_ne_thrown (cp : List cp_info) (i : u2) (e : Nat) :
    getUTF8FromConstantPool cp i ≠ Outcome.thrown e := by
  intro h
  simp only [getUTF8FromConstantPool, Outcome.bind_eq_thrown,
    getUnicodeFromConstantPool_ne_thrown, false_or] at h
  obtain ⟨a, _, h⟩ := h
  split at h <;> simp at h

theorem getClassNameFromConstantPool_ne_thrown (cp : List cp_info) (i : u2) (e : Nat) :
    getClassNameFromConstantPool cp i ≠ Outcome.thrown e := by
  intro h
  simp only [getClassNameFromConstantPool, Outcome.bind_eq_thrown, cpEntry_ne_thrown,
    false_or] at h
  obtain ⟨a, _, h⟩ := h
  split at h
  · exact getUTF8FromConstantPool_ne_thrown _ _ _ h
  · simp at h

theorem getFieldOrMethodInfoAttributesFromConstantPool_ne_thrown (i : u2) (cp : List cp_info)
    (e : Nat) : getFieldOrMethodInfoAttributesFromConstantPool i cp ≠ Outcome.thrown e := by
  intro h
  simp only [getFieldOrMethodInfoAttributesFromConstantPool, Outcome.bind_eq_thrown,
    cpEntry_ne_thrown, false_or] at h
  obtain ⟨a, _, h⟩ := h
  rcases h with h | ⟨b, _, c, _, h⟩
  · split at h <;> simp at h
  · split at h
    · simp only [Outcome.bind_eq_thrown, getClassNameFromConstantPool_ne_thrown,
        getUTF8FromConstantPool_ne_thrown, false_or] at h
      obtain ⟨_, _, _, _, _, _, h⟩ := h
      simp at h
    · simp at h

theorem readU2_ne_thrown (info : List u1) (i : Nat) (e : Nat) :
    readU2 info i ≠ Outcome.thrown e := by
  intro h
  simp only [readU2, Outcome.bind_eq_thrown, ofOption_ne_thrown, false_or] at h
  obtain ⟨_, _, _, _, h⟩ := h
  simp at h

theorem readU4_ne_thrown (info : List u1) (i : Nat) (e : Nat) :
    readU4 info i ≠ Outcome.thrown e := by
  intro h
  simp only [readU4, Outcome.bind_eq_thrown, readU2_ne_thrown, false_or] at h
  obtain ⟨_, _, _, _, h⟩ := h
  simp at h

theorem parseExceptionTables_ne_thrown (info : List u1) (n : Nat) :
    ∀ (i : Nat) (e : Nat), parseExceptionTables info i n ≠ Outcome.thrown e := by
  induction n with
  | zero => intro i e; simp [parseExceptionTables]
  | succ n ih =>
      intro i e h
      simp only [parseExceptionTables, Outcome.bind_eq_thrown, readU2_ne_thrown, ih,
        false_or] at h
      obtain ⟨_, _, _, _, _, _, _, _, _, _, h⟩ := h
      simp at h

theorem parseCode_ne_thrown (info : List u1) (e : Nat) : parseCode info ≠ Outcome.thrown e := by
  intro h
  simp only [parseCode, Outcome.bind_eq_thrown, readU2_ne_thrown, readU4_ne_thrown,
    parseExceptionTables_ne_thrown, false_or] at h
  obtain ⟨_, _, _, _, _, _, _, _, _, _, _, _, h⟩ := h
  simp at h

theorem findCode_ne_thrown (cp : List cp_info) (l : List attribute_info) (e : Nat) :
    findCode cp l ≠ Outcome.thrown e := by
  induction l with
  | nil => simp [findCode]
  | cons a l ih =>
      intro h
      simp only [findCode, Outcome.bind_eq_thrown, getUTF8FromConstantPool_ne_thrown,
        false_or] at h
      obtain ⟨_, _, h⟩ := h
      split at h
      · have h2 := (Outcome.bind_eq_thrown _ _ _).1 h
        simp only [parseCode_ne_thrown, false_or] at h2
        obtain ⟨_, _, h2⟩ := h2
        simp at h2
      · exact ih h

theorem getByteCodeFromMethod_ne_thrown (m : Option method_info) (cp : List cp_info) (pc : Int)
    (e : Nat) : getByteCodeFromMethod m cp pc ≠ Outcome.thrown e := by
  intro h
  have hc : getCodeFromMethodInfo m cp ≠ Outcome.thrown e := by
    cases m <;> simp [getCodeFromMethodInfo, findCode_ne_thrown]
  simp only [getByteCodeFromMethod, Outcome.bind_eq_thrown, hc, false_or] at h
  obtain ⟨_, _, h⟩ := h
  split at h
  · simp at h
  · unfold BytePtr.read at h
    split at h
    · simp at h
    · exact ofOption_ne_thrown _ _ h

theorem calculatePoolIndexFromCode_ne_thrown (m : Option method_info) (cp : List cp_info)
    (env : Environment) (e : Nat) : calculatePoolIndexFromCode m cp env ≠ Outcome.thrown e := by
  intro h
  simp only [calculatePoolIndexFromCode, Outcome.bind_eq_thrown, getByteCodeFromMethod_ne_thrown,
    false_or] at h
  obtain ⟨_, _, _, _, h⟩ := h
  simp at h

theorem readObjectField_ne_thrown (env : Environment) (r : u4) (name : String) (w : Nat)
    (e : Nat) : readObjectField env r name w ≠ Outcome.thrown e := by
  intro h
  have hg : getObjectAttributeReference env r name ≠ Outcome.thrown e := by
    intro h
    simp only [getObjectAttributeReference, Outcome.bind_eq_thrown, derefObject_ne_thrown,
      false_or] at h
    obtain ⟨_, _, h⟩ := h
    simp at h
  simp only [readObjectField, Outcome.bind_eq_thrown, hg, derefObject_ne_thrown, false_or] at h
  obtain ⟨_, _, _, _, h⟩ := h
  unfold readCell at h
  repeat' split at h
  all_goals simp at h

/-- The handler `getfield` contains no path that signals an exception. -/
theorem getfield_ne_thrown (env : Environment) (e : Nat) : getfield env ≠ Outcome.thrown e := by
  intro h
  simp only [getfield, Outcome.bind_eq_thrown, getCurrentFrame_ne_thrown,
    popFromOperandStack_ne_thrown, derefClass_ne_thrown, calculatePoolIndexFromCode_ne_thrown,
    getFieldOrMethodInfoAttributesFromConstantPool_ne_thrown, false_or] at h
  obtain ⟨_, _, _, _, _, _, _, _, _, _, h⟩ := h
  repeat' split at h
  all_goals
    simp only [Outcome.bind_eq_thrown, readObjectField_ne_thrown, pushInOperandStack_ne_thrown,
      false_or, and_false, exists_false, Outcome.pure_eq_ok, reduceCtorEq] at h

/-- The handler `iastore` contains no path that signals an exception. -/
theorem iastore_ne_thrown (env : Environment) (e : Nat) : iastore env ≠ Outcome.thrown e := by
  intro h
  simp only [iastore, Outcome.bind_eq_thrown, popFromOperandStack_ne_thrown,
    derefArray_ne_thrown, derefBlock_ne_thrown, false_or] at h
  obtain ⟨_, _, _, _, _, _, _, _, _, _, h⟩ := h
  split at h <;> simp at h

/-- The handler `iaload` contains no path that signals an exception. -/
theorem iaload_ne_thrown (env : Environment) (e : Nat) : iaload env ≠ Outcome.thrown e := by
  intro h
  simp only [iaload, Outcome.bind_eq_thrown, popFromOperandStack_ne_thrown,
    derefArray_ne_thrown, derefBlock_ne_thrown, ofOption_ne_thrown,
    pushInOperandStack_ne_thrown, false_or, and_false, exists_false] at h

/-- The opcode fetched in the frame of a freshly invoked method is byte 0 of its code. -/
theorem fetchOpcode_invoked (env : Environment) (caller : Frame) (rest : List Frame)
    (s : List u4) (tn mn md : String) (ptr : JavaClassPtr) (tc : JavaClass) (m : method_info)
    (code : CodeAttribute) (returnPC : Int) (locals : List u4)
    (ht : Target env.methodArea tn mn md ptr tc m code) :
    fetchOpcode (invoked env caller rest s ptr m returnPC locals 0) = code.code.read 0 := by
  have hc := ht.hasCode
  simp only [getCodeAttributeFromMethod, ht.declares] at hc
  have hc2 : getCodeFromMethodInfo (some m) tc.arqClass.constant_pool
      = Outcome.ok (some code) := hc
  simp [fetchOpcode, invoked, getCurrentFrame, ht.deref, getByteCodeFromMethod, hc2]

/-- The loop iteration that runs `return_` in a frame above another one. -/
theorem executeStep_return (decode : u1 → Outcome (Option instruction)) (env : Environment)
    (callee caller : Frame) (rest : List Frame) (c : List u4) (op : u1)
    (hstack : env.thread.vmStack = callee :: caller :: rest)
    (hcallee : callee.opStk = some c)
    (hfetch : fetchOpcode env = Outcome.ok op)
    (hdecode : decode op = Outcome.ok (some return_)) :
    executeStep decode env = Outcome.ok
      { env with thread := { PC := callee.returnPC + 1, vmStack := caller :: rest } } := by
  simp [executeStep, hfetch, hdecode, return_, getCurrentFrame, popFrame, freeFrame, hstack,
    hcallee]

/-! ### The code array of the `Control` programs -/

theorem Control.codeInfo_header (code : List u1) :
    (Control.codeInfo code).get? 0 = some 0 ∧ (Control.codeInfo code).get? 1 = some 4 ∧
    (Control.codeInfo code).get? 2 = some 0 ∧ (Control.codeInfo code).get? 3 = some 4 ∧
    (Control.codeInfo code).get? 4 = some (code.length / 16777216 % 256) ∧
    (Control.codeInfo code).get? 5 = some (code.length / 65536 % 256) ∧
    (Control.codeInfo code).get? 6 = some (code.length / 256 % 256) ∧
    (Control.codeInfo code).get? 7 = some (code.length % 256) := by
  simp [Control.codeInfo]

theorem Control.codeInfo_code (code : List u1) (i : Nat) (h : i < code.length) :
    (Control.codeInfo code).get? (8 + i) = code.get? i := by
  have e : Control.codeInfo code =
      [0, 4, 0, 4, code.length / 16777216 % 256, code.length / 65536 % 256,
        code.length / 256 % 256, code.length % 256] ++ (code ++ [0, 0, 0, 0]) := by
    simp [Control.codeInfo]
  rw [e, List.get?_eq_getElem?, List.get?_eq_getElem?,
    List.getElem?_append_right (by simp), List.getElem?_append_left (by simpa using h)]
  simp

theorem Control.codeInfo_trailer (code : List u1) (j : Nat) (h : j < 4) :
    (Control.codeInfo code).get? (8 + code.length + j) = some 0 := by
  have e : Control.codeInfo code =
      [0, 4, 0, 4, code.length / 16777216 % 256, code.length / 65536 % 256,
        code.length / 256 % 256, code.length % 256] ++ (code ++ [0, 0, 0, 0]) := by
    simp [Control.codeInfo]
  rw [e, List.get?_eq_getElem?, List.getElem?_append_right (by simp; omega),
    List.getElem?_append_right (by simp; omega)]
  have : 8 + code.length + j - [0, 4, 0, 4, code.length / 16777216 % 256,
      code.length / 65536 % 256, code.length / 256 % 256, code.length % 256].length
      - code.length = j := by simp; omega
  rw [this]
  interval_cases j <;> rfl

theorem Control.parseCode_codeInfo (code : List u1) (h : code.length < 4294967296) :
    parseCode (Control.codeInfo code) = Outcome.ok
      (CodeAttribute.mk 4 4 code.length (BytePtr.mk (Control.codeInfo code) 8) 0 [] 0
        (BytePtr.mk (Control.codeInfo code) (8 + code.length + 2 + 0 * 8 + 2))) := by
  obtain ⟨h0, h1, h2, h3, h4, h5, h6, h7⟩ := Control.codeInfo_header code
  have t0 := Control.codeInfo_trailer code 0 (by decide)
  have t1 := Control.codeInfo_trailer code 1 (by decide)
  have t2 := Control.codeInfo_trailer code 2 (by decide)
  have t3 := Control.codeInfo_trailer code 3 (by decide)
  have len : ((code.length / 16777216 % 256 * 256 + code.length / 65536 % 256) % 65536 * 65536 +
      (code.length / 256 % 256 * 256 + code.length % 256) % 65536) % 4294967296 =
      code.length := by omega
  simp only [Nat.add_zero] at t0
  simp only [parseCode, readU2, readU4, h0, h1, h2, h3, h4, h5, h6, h7, Outcome.ofOption,
    Outcome.pure_eq_ok, Outcome.ok_bind, len, t0, t1]
  simp only [Nat.reduceMul, Nat.reduceAdd, Nat.reduceMod, Nat.add_zero, parseExceptionTables,
    Outcome.pure_eq_ok, Outcome.ok_bind]
  have t2' : (Control.codeInfo code).get? (8 + code.length + 2 + 0) = some 0 := t2
  have t3' : (Control.codeInfo code).get? (8 + code.length + 2 + 0 + 1) = some 0 := t3
  simp only [Nat.add_zero] at t2' t3'
  simp only [t2', t3', Outcome.ok_bind, Nat.reduceMul, Nat.reduceAdd, Nat.reduceMod,
    Nat.add_zero]

/-- Reading the code of `Control.run code` at an offset inside the array returns the byte of
the array. -/
theorem Control.getByteCode (code : List u1) (h : code.length < 4294967296) (i : Nat) (b : u1)
    (hb : code.get? i = some b) :
    getByteCodeFromMethod (some (Control.run code)) Control.pool (i : Int) = Outcome.ok b := by
  have hi : i < code.length := by
    rcases Nat.lt_or_ge i code.length with hlt | hge
    · exact hlt
    · rw [List.get?_eq_none.mpr hge] at hb; cases hb
  have hn : getUTF8FromConstantPool Control.pool 5 = Outcome.ok "Code" := rfl
  simp only [getByteCodeFromMethod, getCodeFromMethodInfo, Control.run, findCode, hn,
    Outcome.ok_bind, Control.parseCode_codeInfo code h, if_true, Outcome.bind,
    Outcome.pure_eq_ok, BytePtr.read]
  have : ¬ ((8 : Nat) : Int) + (i : Int) < 0 := by omega
  simp only [this, if_false]
  have e : (((8 : Nat) : Int) + (i : Int)).toNat = 8 + i := by omega
  rw [e, Control.codeInfo_code code i hi, hb]
  rfl

/-! ### Conditional branches -/

theorem addPC_addPC (env : Environment) (a b : Int) :
    addPC (addPC env a) b = addPC env (a + b) := by
  simp [addPC, Int.add_assoc]

theorem popFromOperandStack_addPC (env : Environment) (top : Frame) (rest : List Frame)
    (v : u4) (s : List u4) (n : Int) (hframes : env.thread.vmStack = top :: rest)
    (hstack : top.opStk = some (v :: s)) :
    popFromOperandStack (addPC env n) = Outcome.ok (v, resumed env top rest s n) := by
  obtain ⟨⟨pc, stack⟩, ma, dbg, hp, cf⟩ := env
  obtain ⟨jc, mi, rpc, lv, os⟩ := top
  dsimp only at hframes hstack
  subst hframes hstack
  rfl

theorem ifBranch_site (test : u4 → Bool) (env : Environment) (top : Frame) (rest : List Frame)
    (b1 b2 : u1) (v : u4) (s : List u4) (site : BranchSite env top rest b1 b2)
    (hstack : top.opStk = some (v :: s)) :
    ifBranch test env = Outcome.ok
      (resumed env top rest s (2 + if test v then branchOffset b1 b2 else 0)) := by
  have hpop := popFromOperandStack_addPC env top rest v s 2 site.frames hstack
  have e : addPC (addPC env 1) 1 = addPC env 2 := addPC_addPC env 1 1
  simp only [ifBranch, e, site.operand1, site.operand2, Outcome.ok_bind, hpop]
  cases test v
  · simp [resumed]
  · simp [resumed, addPC, Int.add_assoc]

theorem ifIcmpBranch_site (test : Int → Int → Bool) (env : Environment) (top : Frame)
    (rest : List Frame) (b1 b2 : u1) (v2 v1 : u4) (s : List u4)
    (site : BranchSite env top rest b1 b2) (hstack : top.opStk = some (v2 :: v1 :: s)) :
    ifIcmpBranch test env = Outcome.ok
      (resumed env top rest s
        (2 + if test (toInt32 v1) (toInt32 v2) then branchOffset b1 b2 else 0)) := by
  have hpop := popFromOperandStack_addPC env top rest v2 (v1 :: s) 2 site.frames hstack
  have e : addPC (addPC env 1) 1 = addPC env 2 := addPC_addPC env 1 1
  have hpop2 : popFromOperandStack (resumed env top rest (v1 :: s) 2) =
      Outcome.ok (v1, resumed env top rest s 2) := rfl
  simp only [ifIcmpBranch, e, site.operand1, site.operand2, Outcome.ok_bind, hpop, hpop2]
  cases test (toInt32 v1) (toInt32 v2)
  · simp [resumed]
  · simp [resumed, addPC, Int.add_assoc]

theorem Control.addPC_at (code : List u1) (pc n : Int) (opStk locals : List u4) :
    addPC (Control.at_ code pc opStk locals) n = Control.at_ code (pc + n) opStk locals := rfl

theorem Control.fetchOpcode_at (code : List u1) (h : code.length < 4294967296) (i : Nat)
    (b : u1) (hb : code.get? i = some b) (opStk locals : List u4) :
    fetchOpcode (Control.at_ code (i : Int) opStk locals) = Outcome.ok b := by
  have hbyte := Control.getByteCode code h i b hb
  simp only [fetchOpcode, Control.at_, Control.frame, getCurrentFrame, derefClass,
    List.get?_cons_zero, Option.map_some', Outcome.ofOption, Outcome.ok_bind, Control.image,
    hbyte]

theorem Control.codeByteAtPC_at (code : List u1) (h : code.length < 4294967296) (i : Nat)
    (b : u1) (hb : code.get? i = some b) (hlt : b < 256) (opStk locals : List u4) :
    codeByteAtPC (Control.at_ code (i : Int) opStk locals) = Outcome.ok b := by
  have hbyte := Control.getByteCode code h i b hb
  simp only [codeByteAtPC, Control.at_, Control.frame, getCurrentFrame, derefClass,
    List.get?_cons_zero, Option.map_some', Outcome.ofOption, Outcome.ok_bind, Control.image,
    hbyte, Outcome.pure_eq_ok, Nat.mod_eq_of_lt hlt]

theorem Control.farCode_bytes :
    Control.farCode.length < 4294967296 ∧ Control.farCode.get? 40000 = some 0x99 ∧
    Control.farCode.get? 40001 = some 0x80 ∧ Control.farCode.get? 40002 = some 0x00 := by
  have hle : ∀ n : Nat, 40000 ≤ n → (List.replicate 40000 (0x00 : u1)).length ≤ n := by
    intro n hn
    rw [List.length_replicate]
    exact hn
  refine ⟨?_, ?_, ?_, ?_⟩
  · have hlen : Control.farCode.length = 40003 := by
      rw [Control.farCode, List.length_append, List.length_replicate]
      rfl
    rw [hlen]
    decide
  · rw [List.get?_eq_getElem?, Control.farCode,
      List.getElem?_append_right (hle 40000 (by decide)), List.length_replicate]
    rfl
  · rw [List.get?_eq_getElem?, Control.farCode,
      List.getElem?_append_right (hle 40001 (by decide)), List.length_replicate]
    rfl
  · rw [List.get?_eq_getElem?, Control.farCode,
      List.getElem?_append_right (hle 40002 (by decide)), List.length_replicate]
    rfl

/-- One iteration of the loop when the opcode at `PC` decodes to `handler`: the handler runs
and `PC` is incremented. -/
theorem executeStep_handler (decode : u1 → Outcome (Option instruction))
    (env next : Environment) (opcode : u1) (handler : instruction)
    (hop : fetchOpcode env = Outcome.ok opcode)
    (hdec : decode opcode = Outcome.ok (some handler))
    (hrun : handler env = Outcome.ok next) :
    executeStep decode env = Outcome.ok (addPC next 1) := by
  simp only [executeStep, hop, hdec, Outcome.ok_bind, hrun, Outcome.pure_eq_ok, addPC]

/-! ### Locals and the operand stack -/

theorem addPC_updated (env : Environment) (top : Frame) (rest : List Frame)
    (locals stack : List u4) (n m : Int) :
    addPC (updated env top rest locals stack n) m = updated env top rest locals stack (n + m) := by
  simp [addPC, updated, Int.add_assoc]

theorem codeByteAtPC_updated (env : Environment) (top : Frame) (rest : List Frame)
    (locals stack : List u4) (n : Int) (hframes : env.thread.vmStack = top :: rest) :
    codeByteAtPC (updated env top rest locals stack n) = codeByteAtPC (addPC env n) := by
  obtain ⟨⟨pc, frames⟩, ma, dbg, hp, cf⟩ := env
  obtain ⟨jc, mi, rpc, lv, os⟩ := top
  dsimp only at hframes
  subst hframes
  rfl

theorem storeTwoWords_addPC (env : Environment) (top : Frame) (rest : List Frame)
    (high low : u4) (s : List u4) (i : Nat) (n : Int)
    (hframes : env.thread.vmStack = top :: rest)
    (hstack : top.opStk = some (high :: low :: s))
    (hi : i + 1 < top.localVariablesVector.length) :
    storeTwoWords i (addPC env n) = Outcome.ok
      (updated env top rest ((top.localVariablesVector.set i high).set (i + 1) low) s n) := by
  obtain ⟨⟨pc, frames⟩, ma, dbg, hp, cf⟩ := env
  obtain ⟨jc, mi, rpc, lv, os⟩ := top
  dsimp only at hframes hstack hi
  subst hframes hstack
  have h1 : i < lv.length := by omega
  have h2 : i + 1 < (lv.set i high).length := by rw [List.length_set]; exact hi
  simp [storeTwoWords, addPC, popFromOperandStack, getCurrentFrame, setCurrentFrame, storeLocal,
    updated, h1, h2, hi, Outcome.bind]

theorem loadTwoWords_updated (env : Environment) (top : Frame) (rest : List Frame)
    (high low : u4) (s locals : List u4) (i : Nat) (n : Int)
    (hhigh : locals.get? i = some high) (hlow : locals.get? (i + 1) = some low) :
    loadTwoWords i (updated env top rest locals s n) = Outcome.ok
      (updated env top rest locals (high :: low :: s) n) := by
  rw [List.get?_eq_getElem?] at hhigh hlow
  simp [loadTwoWords, loadLocal, updated, getCurrentFrame, pushInOperandStack, setCurrentFrame,
    Outcome.ofOption, hhigh, hlow, Outcome.bind]

theorem storedPair_get (locals : List u4) (high low : u4) (i : Nat)
    (hi : i + 1 < locals.length) :
    ((locals.set i high).set (i + 1) low).get? i = some high ∧
    ((locals.set i high).set (i + 1) low).get? (i + 1) = some low := by
  constructor
  · rw [List.get?_eq_getElem?, List.getElem?_set_ne (by omega), List.getElem?_set_self (by omega)]
  · rw [List.get?_eq_getElem?, List.getElem?_set_self (by rw [List.length_set]; exact hi)]

/-- A two-word store at `i` followed, `n` bytes of operands and one `PC++` later, by the
two-word load at `i`. -/
theorem storeTwoWords_loadTwoWords (env : Environment) (top : Frame) (rest : List Frame)
    (high low : u4) (s : List u4) (i : Nat) (n m : Int)
    (hframes : env.thread.vmStack = top :: rest)
    (hstack : top.opStk = some (high :: low :: s))
    (hi : i + 1 < top.localVariablesVector.length) :
    (storeTwoWords i (addPC env n)).bind (fun next => loadTwoWords i (addPC next m))
      = Outcome.ok (updated env top rest (storedPair top.localVariablesVector i high low)
          (high :: low :: s) (n + m)) := by
  obtain ⟨hhigh, hlow⟩ := storedPair_get top.localVariablesVector high low i hi
  rw [storeTwoWords_addPC env top rest high low s i n hframes hstack hi]
  simp only [Outcome.bind, addPC_updated]
  exact loadTwoWords_updated env top rest high low s _ i (n + m) hhigh hlow

theorem addPC_zero (env : Environment) : addPC env 0 = env := by
  simp [addPC]

theorem numbered_store_load (env : Environment) (top : Frame) (rest : List Frame)
    (high low : u4) (s : List u4) (i : Nat)
    (hframes : env.thread.vmStack = top :: rest)
    (hstack : top.opStk = some (high :: low :: s))
    (hi : i + 1 < top.localVariablesVector.length) :
    followedBy (storeTwoWords i) (loadTwoWords i) env = Outcome.ok
      (updated env top rest (storedPair top.localVariablesVector i high low)
        (high :: low :: s) 1) := by
  have h := storeTwoWords_loadTwoWords env top rest high low s i 0 1 hframes hstack hi
  rw [addPC_zero] at h
  exact h

theorem indexed_store_load (env : Environment) (top : Frame) (rest : List Frame)
    (high low : u4) (s : List u4) (i : Nat)
    (hframes : env.thread.vmStack = top :: rest)
    (hstack : top.opStk = some (high :: low :: s))
    (hi : i + 1 < top.localVariablesVector.length)
    (hstore : codeByteAtPC (addPC env 1) = Outcome.ok i)
    (hload : codeByteAtPC (addPC env 3) = Outcome.ok i) :
    followedBy lstore lload env = Outcome.ok
      (updated env top rest (storedPair top.localVariablesVector i high low)
        (high :: low :: s) 3) ∧
    followedBy dstore dload env = Outcome.ok
      (updated env top rest (storedPair top.localVariablesVector i high low)
        (high :: low :: s) 3) := by
  have hs := storeTwoWords_addPC env top rest high low s i 1 hframes hstack hi
  obtain ⟨hhigh, hlow⟩ := storedPair_get top.localVariablesVector high low i hi
  have hl := loadTwoWords_updated env top rest high low s
    ((top.localVariablesVector.set i high).set (i + 1) low) i 3 hhigh hlow
  constructor <;>
  simp only [followedBy, lstore, lload, dstore, dload, hstore, Outcome.ok_bind, hs, Outcome.bind,
    addPC_updated, codeByteAtPC_updated _ _ _ _ _ _ hframes, Int.reduceAdd, hload, hl,
    storedPair]

theorem wide_store (ops : WideOpcodes) (env : Environment) (top : Frame) (rest : List Frame)
    (high low : u4) (s : List u4) (i : Nat) (opStore i1 i2 : u1) (n : Int)
    (hd : ops.Distinct) (hop : opStore = ops.OP_lstore ∨ opStore = ops.OP_dstore)
    (hindex : ((i1 <<< 8) ||| i2) % 65536 = i)
    (hframes : env.thread.vmStack = top :: rest)
    (hstack : top.opStk = some (high :: low :: s))
    (hi : i + 1 < top.localVariablesVector.length)
    (h1 : codeByteAtPC (addPC env (n + 1)) = Outcome.ok opStore)
    (h2 : codeByteAtPC (addPC env (n + 2)) = Outcome.ok i1)
    (h3 : codeByteAtPC (addPC env (n + 3)) = Outcome.ok i2) :
    wide ops (addPC env n) = Outcome.ok
      (updated env top rest (storedPair top.localVariablesVector i high low) s (n + 3)) := by
  have hs := storeTwoWords_addPC env top rest high low s i (n + 3) hframes hstack hi
  have e2 : n + 1 + 1 = n + 2 := by omega
  have e3 : n + 2 + 1 = n + 3 := by omega
  simp only [WideOpcodes.Distinct, List.nodup_cons, List.mem_cons, List.mem_singleton,
    not_or, List.not_mem_nil, not_false_eq_true, List.nodup_nil, and_true] at hd
  simp only [wide, addPC_addPC, e2, e3, h1, h2, h3, Outcome.ok_bind, hindex, hs, storedPair]
  rcases hop with h | h <;> subst h <;> simp [hd, Ne.symm, eq_comm]


theorem wide_load (ops : WideOpcodes) (env : Environment) (top : Frame) (rest : List Frame)
    (high low : u4) (s locals : List u4) (i : Nat) (opLoad i1 i2 : u1) (n : Int)
    (hd : ops.Distinct) (hop : opLoad = ops.OP_lload ∨ opLoad = ops.OP_dload)
    (hindex : ((i1 <<< 8) ||| i2) % 65536 = i)
    (hframes : env.thread.vmStack = top :: rest)
    (hhigh : locals.get? i = some high) (hlow : locals.get? (i + 1) = some low)
    (h1 : codeByteAtPC (addPC env (n + 1)) = Outcome.ok opLoad)
    (h2 : codeByteAtPC (addPC env (n + 2)) = Outcome.ok i1)
    (h3 : codeByteAtPC (addPC env (n + 3)) = Outcome.ok i2) :
    wide ops (updated env top rest locals s n) = Outcome.ok
      (updated env top rest locals (high :: low :: s) (n + 3)) := by
  have hl := loadTwoWords_updated env top rest high low s locals i (n + 3) hhigh hlow
  have e2 : n + 1 + 1 = n + 2 := by omega
  have e3 : n + 2 + 1 = n + 3 := by omega
  simp only [WideOpcodes.Distinct, List.nodup_cons, List.mem_cons, List.mem_singleton,
    not_or, List.not_mem_nil, not_false_eq_true, List.nodup_nil, and_true] at hd
  simp only [wide, addPC_updated, codeByteAtPC_updated _ _ _ _ _ _ hframes, e2, e3, h1, h2, h3,
    Outcome.ok_bind, hindex, hl]
  rcases hop with h | h <;> subst h <;> simp [hd, Ne.symm, eq_comm]

theorem wide_store_load (ops : WideOpcodes) (env : Environment) (top : Frame)
    (rest : List Frame) (high low : u4) (s : List u4) (i : Nat) (opStore opLoad i1 i2 : u1)
    (hd : ops.Distinct) (hstore : opStore = ops.OP_lstore ∨ opStore = ops.OP_dstore)
    (hload : opLoad = ops.OP_lload ∨ opLoad = ops.OP_dload)
    (hindex : ((i1 <<< 8) ||| i2) % 65536 = i)
    (hframes : env.thread.vmStack = top :: rest)
    (hstack : top.opStk = some (high :: low :: s))
    (hi : i + 1 < top.localVariablesVector.length)
    (h1 : codeByteAtPC (addPC env 1) = Outcome.ok opStore)
    (h2 : codeByteAtPC (addPC env 2) = Outcome.ok i1)
    (h3 : codeByteAtPC (addPC env 3) = Outcome.ok i2)
    (h5 : codeByteAtPC (addPC env 5) = Outcome.ok opLoad)
    (h6 : codeByteAtPC (addPC env 6) = Outcome.ok i1)
    (h7 : codeByteAtPC (addPC env 7) = Outcome.ok i2) :
    followedBy (wide ops) (wide ops) env = Outcome.ok
      (updated env top rest (storedPair top.localVariablesVector i high low)
        (high :: low :: s) 7) := by
  obtain ⟨hhigh, hlow⟩ := storedPair_get top.localVariablesVector high low i hi
  have hs := wide_store ops env top rest high low s i opStore i1 i2 0 hd hstore hindex hframes
    hstack hi h1 h2 h3
  have hl := wide_load ops env top rest high low s
    (storedPair top.localVariablesVector i high low) i opLoad i1 i2 4 hd hload hindex hframes
    hhigh hlow h5 h6 h7
  rw [addPC_zero] at hs
  simp only [followedBy, hs, Outcome.bind, addPC_updated]
  exact hl

/-! ### Conversions between `int` and `long` -/

theorem ofInt32_toInt32 (v : Nat) (hv : v < 4294967296) : ofInt32 (toInt32 v) = v := by
  unfold ofInt32 toInt32
  rw [Nat.mod_eq_of_lt hv]
  split <;> omega

theorem ofInt32_high (v : Nat) (hv : v < 4294967296) :
    ofInt32 (toInt32 v / 4294967296) = if toInt32 v < 0 then 0xFFFFFFFF else 0 := by
  unfold ofInt32 toInt32
  rw [Nat.mod_eq_of_lt hv]
  split <;> split <;> omega

theorem and_mask_unsi (v : Nat) (hv : v < 4294967296) : v &&& SHIFT_MASK_UNSI = v := by
  have h := Nat.and_pow_two_sub_one_eq_mod v 32
  have e : (2 ^ 32 - 1 : Nat) = SHIFT_MASK_UNSI := by decide
  rw [e] at h
  rw [h]
  exact Nat.mod_eq_of_lt hv

theorem i2l_frames (env : Environment) (top : Frame) (rest : List Frame) (v : u4)
    (s : List u4) (hframes : env.thread.vmStack = top :: rest)
    (hstack : top.opStk = some (v :: s)) (hv : v < 4294967296) :
    i2l env = Outcome.ok (resumed env top rest
      ((if toInt32 v < 0 then 0xFFFFFFFF else 0) :: v :: s) 0) := by
  obtain ⟨⟨pc, frames⟩, ma, dbg, hp, cf⟩ := env
  obtain ⟨jc, mi, rpc, lv, os⟩ := top
  dsimp only at hframes hstack
  subst hframes hstack
  simp only [i2l, popFromOperandStack, getCurrentFrame, setCurrentFrame, pushInOperandStack,
    Outcome.ok_bind, Outcome.pure_eq_ok, List.tail_cons, ofInt32_toInt32 v hv,
    and_mask_unsi v hv, ofInt32_high v hv, resumed, Int.add_zero]

theorem l2i_resumed (env : Environment) (top : Frame) (rest : List Frame) (high low : u4)
    (s : List u4) (n : Int) (hlow : low < 4294967296) :
    l2i (resumed env top rest (high :: low :: s) n) = Outcome.ok
      (resumed env top rest (low :: s) n) := by
  simp only [l2i, resumed, popFromOperandStack, getCurrentFrame, setCurrentFrame,
    pushInOperandStack, Outcome.ok_bind, Outcome.pure_eq_ok, List.tail_cons,
    Nat.mod_eq_of_lt hlow]

theorem addPC_resumed (env : Environment) (top : Frame) (rest : List Frame)
    (stack : List u4) (n m : Int) :
    addPC (resumed env top rest stack n) m = resumed env top rest stack (n + m) := by
  simp [addPC, resumed, Int.add_assoc]

/-! ### The class table -/

theorem findClassFrom_eq_none (table : List ClassTable) (i : Nat) (name : String) :
    findClassFrom table i name = none ↔ ∀ entry ∈ table, entry.name ≠ name := by
  induction table generalizing i with
  | nil => simp [findClassFrom]
  | cons entry rest ih =>
    simp only [findClassFrom, List.mem_cons, forall_eq_or_imp]
    by_cases h : name = entry.name
    · simp [h]
    · simp only [h, if_false, ih]
      constructor
      · intro hr
        exact ⟨fun e => h e.symm, hr⟩
      · intro hr
        exact hr.2

theorem findClassFrom_eq_some (table : List ClassTable) (i : Nat) (name : String)
    (ptr : JavaClassPtr) (h : findClassFrom table i name = some ptr) :
    ∃ (k : Nat) (entry : ClassTable), ptr = JavaClassPtr.loaded (i + k) ∧
      table.get? k = some entry ∧ entry.name = name ∧
      ∀ (j : Nat) (e : ClassTable), j < k → table.get? j = some e → e.name ≠ name := by
  induction table generalizing i with
  | nil => simp [findClassFrom] at h
  | cons entry rest ih =>
    simp only [findClassFrom] at h
    by_cases hn : name = entry.name
    · simp only [hn, if_true, Option.some.injEq] at h
      refine ⟨0, entry, ?_, rfl, hn.symm, ?_⟩
      · rw [← h]; rfl
      · intro j e hj
        omega
    · simp only [hn, if_false] at h
      obtain ⟨k, e, hp, hget, hname, hbefore⟩ := ih (i + 1) h
      refine ⟨k + 1, e, ?_, hget, hname, ?_⟩
      · rw [hp]
        congr 1
        omega
      · intro j e' hj hget'
        cases j with
        | zero =>
          simp only [List.get?_cons_zero, Option.some.injEq] at hget'
          rw [← hget']
          exact fun e => hn e.symm
        | succ j =>
          exact hbefore j e' (by omega) hget'

theorem findClassFrom_append (table : List ClassTable) (i : Nat) (name : String)
    (javaClass : JavaClass) (h : ∀ entry ∈ table, entry.name ≠ name) :
    findClassFrom (table ++ [ClassTable.mk name javaClass]) i name
      = some (JavaClassPtr.loaded (i + table.length)) := by
  induction table generalizing i with
  | nil => simp [findClassFrom]
  | cons entry rest ih =>
    have hne : ¬ name = entry.name := fun e => h entry (List.mem_cons_self _ _) e.symm
    have hrest := ih (i + 1) (fun e he => h e (List.mem_cons_of_mem _ he))
    have e : i + 1 + rest.length = i + (rest.length + 1) := by omega
    simp only [List.cons_append, findClassFrom, hne, if_false, List.length_cons]
    rw [← e]
    exact hrest

/-! ### The dispatcher -/

theorem decode_of_case (OP : OpcodeTable) (bytecode : u1) :
    (decode OP bytecode = Outcome.stopAbrupt ∧ ∀ c ∈ decodeCases, OP c.1 ≠ bytecode) ∨
    (∃ c ∈ decodeCases, OP c.1 = bytecode ∧ decode OP bytecode = Outcome.ok c.2) := by
  unfold decode
  cases h : decodeCases.find? (fun c => OP c.1 = bytecode) with
  | none =>
    left
    refine ⟨rfl, ?_⟩
    intro c hc
    have := List.find?_eq_none.mp h c hc
    simpa using this
  | some c =>
    right
    refine ⟨c, List.mem_of_find?_eq_some h, ?_, rfl⟩
    have := List.find?_some h
    simpa using this

set_option maxRecDepth 1000000 in
theorem decodeCases_handlers : ∀ c ∈ decodeCases, c.2 = handlerIdentifier c.1 := by
  decide

set_option maxRecDepth 1000000 in
theorem decodeCases_mnemonics : ∀ c ∈ decodeCases, c.1 ∈ opcodeMnemonics := by
  decide

theorem decode_case (OP : OpcodeTable) (hOP : (opcodeMnemonics.map OP).Nodup) :
    ∀ c ∈ decodeCases, decode OP (OP c.1) = Outcome.ok (handlerIdentifier c.1) := by
  intro c hc
  rcases decode_of_case OP (OP c.1) with ⟨_, hne⟩ | ⟨d, hd, hOPd, hdec⟩
  · exact absurd rfl (hne c hc)
  · have e : d.1 = c.1 :=
      List.inj_on_of_nodup_map hOP (decodeCases_mnemonics d hd) (decodeCases_mnemonics c hc)
        hOPd
    rw [hdec, decodeCases_handlers d hd, e]

theorem decode_not_dispatched (OP : OpcodeTable) (hOP : (opcodeMnemonics.map OP).Nodup)
    (m : String) (hm : m ∈ opcodeMnemonics) (hnot : m ∉ decodeCases.map Prod.fst) :
    decode OP (OP m) = Outcome.stopAbrupt := by
  rcases decode_of_case OP (OP m) with ⟨h, _⟩ | ⟨d, hd, hOPd, _⟩
  · exact h
  · have e : d.1 = m :=
      List.inj_on_of_nodup_map hOP (decodeCases_mnemonics d hd) hm hOPd
    exact absurd (e ▸ List.mem_map_of_mem Prod.fst hd) hnot

set_option maxRecDepth 1000000 in
theorem listed_not_dispatched :
    ∀ m ∈ ["dup_x1", "dup_x2", "dup2", "dup2_x1", "dup2_x2", "swap", "pop2", "athrow",
      "checkcast", "instanceof", "monitorenter", "monitorexit"],
      m ∈ opcodeMnemonics ∧ m ∉ decodeCases.map Prod.fst := by
  decide

set_option maxRecDepth 1000000 in
theorem Control.opcodeValue_nodup : (opcodeMnemonics.map Control.opcodeValue).Nodup := by
  decide

/-! ### The constant pool of a file -/

theorem leCtePoolLoop_layout (n : Nat) :
    ∀ (remaining : Nat) (filled : List PoolSlot) (arq : List u1),
      (indexLayout (leCtePoolEntries n arq).1).length = remaining →
      leCtePoolLoop remaining filled arq
        = (filled ++ indexLayout (leCtePoolEntries n arq).1, (leCtePoolEntries n arq).2) := by
  induction n with
  | zero =>
    intro remaining filled arq h
    simp only [leCtePoolEntries, indexLayout, List.length_nil] at h
    subst h
    simp [leCtePoolLoop, leCtePoolEntries, indexLayout]
  | succ n ih =>
    intro remaining filled arq h
    rcases he : leCtePoolEntry arq with ⟨slot, two, arq'⟩
    cases two with
    | false =>
      simp only [leCtePoolEntries, he, indexLayout, List.length_cons] at h ⊢
      subst h
      rw [leCtePoolLoop, he]
      simp only
      rw [ih _ (filled ++ [slot]) arq' rfl]
      simp
    | true =>
      simp only [leCtePoolEntries, he, indexLayout, List.length_cons] at h ⊢
      subst h
      rw [leCtePoolLoop, he]
      simp only
      rw [ih _ (filled ++ [slot, PoolSlot.unwritten]) arq' rfl]
      simp

theorem u2Le_bytes (b0 b1 : Nat) (h0 : b0 < 256) (h1 : b1 < 256) (rest : List u1) :
    u2Le (b0 :: b1 :: rest) = (b0 * 256 + b1, rest) := by
  have e0 : b0 % 256 = b0 := Nat.mod_eq_of_lt h0
  have e1 : b1 % 256 = b1 := Nat.mod_eq_of_lt h1
  have e2 : ((b0 : Int) % 65536).toNat = b0 := by omega
  have e3 : ¬ ((b1 : Int) < 0) := by omega
  have e4 : (b0 * 256 + b1) % 65536 = b0 * 256 + b1 := by omega
  simp only [u2Le, getc, e0, e1, e2, e3, if_false, Int.toNat_ofNat, e4]

theorem u4Le_bytes (b0 b1 b2 b3 : Nat) (h0 : b0 < 256) (h1 : b1 < 256) (h2 : b2 < 256)
    (h3 : b3 < 256) (rest : List u1) :
    u4Le (b0 :: b1 :: b2 :: b3 :: rest) = (bigEndian b0 b1 b2 b3, rest) := by
  have e : (b0 * 256 + b1) * 65536 % 4294967296 = (b0 * 256 + b1) * 65536 := by omega
  have hlow : b2 * 256 + b3 < 2 ^ 16 := by omega
  have hor : (b0 * 256 + b1) * 65536 ||| (b2 * 256 + b3)
      = (b0 * 256 + b1) * 65536 + (b2 * 256 + b3) := by
    have := Nat.mul_add_lt_is_or hlow (b0 * 256 + b1)
    rw [show (2 : Nat) ^ 16 = 65536 by norm_num, Nat.mul_comm 65536] at this
    exact this.symm
  have hsum : (b0 * 256 + b1) * 65536 + (b2 * 256 + b3) = bigEndian b0 b1 b2 b3 := by
    unfold bigEndian
    omega
  simp only [u4Le, u2Le_bytes b0 b1 h0 h1, u2Le_bytes b2 b3 h2 h3, e, hor, hsum]

theorem leCtePoolEntry_two (arq : List u1) :
    (leCtePoolEntry arq).2.1 = true ↔
      (u1Le arq).1 = CONSTANT_Long ∨ (u1Le arq).1 = CONSTANT_Double := by
  unfold leCtePoolEntry
  rcases h : u1Le arq with ⟨tag, arq'⟩
  simp only
  by_cases h1 : tag = CONSTANT_Class
  · subst h1; simp [CONSTANT_Class, CONSTANT_Long, CONSTANT_Double]
  by_cases h2 : tag = CONSTANT_Fieldref
  · subst h2; simp [CONSTANT_Class, CONSTANT_Fieldref, CONSTANT_Long, CONSTANT_Double]
  by_cases h3 : tag = CONSTANT_NameAndType
  · subst h3
    simp [CONSTANT_Class, CONSTANT_Fieldref, CONSTANT_NameAndType, CONSTANT_Long,
      CONSTANT_Double]
  by_cases h4 : tag = CONSTANT_Utf8
  · subst h4
    simp [CONSTANT_Class, CONSTANT_Fieldref, CONSTANT_NameAndType, CONSTANT_Utf8,
      CONSTANT_Long, CONSTANT_Double]
  by_cases h5 : tag = CONSTANT_Methodref
  · subst h5
    simp [CONSTANT_Class, CONSTANT_Fieldref, CONSTANT_NameAndType, CONSTANT_Utf8,
      CONSTANT_Methodref, CONSTANT_Long, CONSTANT_Double]
  by_cases h6 : tag = CONSTANT_InterfaceMethodref
  · subst h6
    simp [CONSTANT_Class, CONSTANT_Fieldref, CONSTANT_NameAndType, CONSTANT_Utf8,
      CONSTANT_Methodref, CONSTANT_InterfaceMethodref, CONSTANT_Long, CONSTANT_Double]
  by_cases h7 : tag = CONSTANT_String
  · subst h7
    simp [CONSTANT_Class, CONSTANT_Fieldref, CONSTANT_NameAndType, CONSTANT_Utf8,
      CONSTANT_Methodref, CONSTANT_InterfaceMethodref, CONSTANT_String, CONSTANT_Long,
      CONSTANT_Double]
  by_cases h8 : tag = CONSTANT_Integer
  · subst h8
    simp [CONSTANT_Class, CONSTANT_Fieldref, CONSTANT_NameAndType, CONSTANT_Utf8,
      CONSTANT_Methodref, CONSTANT_InterfaceMethodref, CONSTANT_String, CONSTANT_Integer,
      CONSTANT_Long, CONSTANT_Double]
  by_cases h9 : tag = CONSTANT_Float
  · subst h9
    simp [CONSTANT_Class, CONSTANT_Fieldref, CONSTANT_NameAndType, CONSTANT_Utf8,
      CONSTANT_Methodref, CONSTANT_InterfaceMethodref, CONSTANT_String, CONSTANT_Integer,
      CONSTANT_Float, CONSTANT_Long, CONSTANT_Double]
  by_cases h10 : tag = CONSTANT_Long
  · subst h10
    simp [CONSTANT_Class, CONSTANT_Fieldref, CONSTANT_NameAndType, CONSTANT_Utf8,
      CONSTANT_Methodref, CONSTANT_InterfaceMethodref, CONSTANT_String, CONSTANT_Integer,
      CONSTANT_Float, CONSTANT_Long]
  by_cases h11 : tag = CONSTANT_Double
  · subst h11
    simp [CONSTANT_Class, CONSTANT_Fieldref, CONSTANT_NameAndType, CONSTANT_Utf8,
      CONSTANT_Methodref, CONSTANT_InterfaceMethodref, CONSTANT_String, CONSTANT_Integer,
      CONSTANT_Float, CONSTANT_Long, CONSTANT_Double]
  simp [h1, h2, h3, h4, h5, h6, h7, h8, h9, h10, h11]

theorem leCtePoolLoop_slots (remaining : Nat) :
    ∀ (filled : List PoolSlot) (arq : List u1),
      ∃ n, leCtePoolLoop remaining filled arq
          = (filled ++ indexLayout (leCtePoolEntries n arq).1, (leCtePoolEntries n arq).2) ∧
        ((indexLayout (leCtePoolEntries n arq).1).length = remaining ∨
          ((indexLayout (leCtePoolEntries n arq).1).length = remaining + 1 ∧
            ∃ (before : List (PoolSlot × Bool)) (slot : PoolSlot),
              (leCtePoolEntries n arq).1 = before ++ [(slot, true)] ∧
              (indexLayout before).length + 1 = remaining)) := by
  induction remaining using Nat.strong_induction_on with
  | _ remaining ih =>
    intro filled arq
    cases remaining with
    | zero => exact ⟨0, by simp [leCtePoolEntries, indexLayout, leCtePoolLoop]⟩
    | succ r =>
      rcases he : leCtePoolEntry arq with ⟨slot, two, arq'⟩
      cases two with
      | false =>
        obtain ⟨n, h3, h⟩ := ih r (Nat.lt_succ_self r) (filled ++ [slot]) arq'
        refine ⟨n + 1, ?_, ?_⟩
        · rw [leCtePoolLoop, he]
          simp only [leCtePoolEntries, he, indexLayout]
          rw [h3]
          simp
        · simp only [leCtePoolEntries, he, indexLayout, List.length_cons]
          rcases h with h | ⟨h, before, last, hb, hl⟩
          · exact Or.inl (by omega)
          · refine Or.inr ⟨by omega, (slot, false) :: before, last, ?_, ?_⟩
            · rw [hb]
              rfl
            · simp only [indexLayout, List.length_cons]
              omega
      | true =>
        cases r with
        | zero =>
          refine ⟨1, ?_, ?_⟩
          · rw [leCtePoolLoop, he]
            simp [leCtePoolEntries, he, indexLayout]
          · refine Or.inr ⟨by simp [leCtePoolEntries, he, indexLayout], [], slot, ?_, ?_⟩
            · simp [leCtePoolEntries, he]
            · simp [indexLayout]
        | succ r' =>
          obtain ⟨n, h3, h⟩ := ih r' (by omega) (filled ++ [slot, PoolSlot.unwritten]) arq'
          refine ⟨n + 1, ?_, ?_⟩
          · rw [leCtePoolLoop, he]
            simp only [leCtePoolEntries, he, indexLayout]
            rw [h3]
            simp
          · simp only [leCtePoolEntries, he, indexLayout, List.length_cons]
            rcases h with h | ⟨h, before, last, hb, hl⟩
            · exact Or.inl (by omega)
            · refine Or.inr ⟨by omega, (slot, true) :: before, last, ?_, ?_⟩
              · rw [hb]
                rfl
              · simp only [indexLayout, List.length_cons]
                omega

theorem leCtePool_slots (constant_pool_count : Nat) (arq : List u1)
    (hcount : 0 < constant_pool_count) :
    ∃ n, leCtePoolLoop (constant_pool_count - 1) [] arq
          = (indexLayout (leCtePoolEntries n arq).1, (leCtePoolEntries n arq).2) ∧
      leCtePool constant_pool_count arq
        = Outcome.ok ((indexLayout (leCtePoolEntries n arq).1 ++ [PoolSlot.unwritten]).take
            constant_pool_count, (leCtePoolEntries n arq).2) ∧
      ((indexLayout (leCtePoolEntries n arq).1).length = constant_pool_count - 1 ∨
        ((indexLayout (leCtePoolEntries n arq).1).length = constant_pool_count ∧
          ∃ (before : List (PoolSlot × Bool)) (slot : PoolSlot),
            (leCtePoolEntries n arq).1 = before ++ [(slot, true)] ∧
            (indexLayout before).length + 1 = constant_pool_count - 1)) := by
  obtain ⟨n, h3, h⟩ := leCtePoolLoop_slots (constant_pool_count - 1) [] arq
  have hne : constant_pool_count ≠ 0 := Nat.pos_iff_ne_zero.mp hcount
  rw [List.nil_append] at h3
  have hsub : constant_pool_count - 1 + 1 = constant_pool_count := Nat.sub_add_cancel hcount
  refine ⟨n, h3, ?_, ?_⟩
  · simp only [leCtePool, hne, if_false, h3, Outcome.pure_eq_ok]
    congr 2
    rcases h with hlen | ⟨hlen, _⟩
    · have h1 : constant_pool_count - (indexLayout (leCtePoolEntries n arq).1).length = 1 := by
        omega
      rw [h1, List.replicate_one, List.take_of_length_le]
      simp only [List.length_append, List.length_singleton]
      omega
    · have hfull : (indexLayout (leCtePoolEntries n arq).1).length = constant_pool_count := by
        omega
      have h0 : constant_pool_count - (indexLayout (leCtePoolEntries n arq).1).length = 0 := by
        omega
      rw [h0, List.replicate_zero, List.append_nil]
      conv_rhs => rw [← hfull]
      rw [List.take_left']
      rfl
  · rcases h with hlen | ⟨hlen, before, slot, hb, hl⟩
    · exact Or.inl hlen
    · exact Or.inr ⟨by omega, before, slot, hb, hl⟩

/-! ### Stores into fields and reads of fields -/

theorem findField_set (name : String) (fields : Fields) (k : Nat) (entry : FieldsTable)
    (cell : Cell) (he : fields.get? k = some entry) (i : Nat) :
    findField name (fields.set k { entry with memoryAddress := cell }) i
      = findField name fields i := by
  induction fields generalizing k i with
  | nil => rfl
  | cons head tail ih =>
    cases k with
    | zero =>
      simp only [List.get?_cons_zero, Option.some.injEq] at he
      subst he
      simp only [List.set_cons_zero, findField]
    | succ k =>
      simp only [List.get?_cons_succ] at he
      simp only [List.set_cons_succ, findField, ih k he]

theorem heapAt_heapStore (heap : List (Nat × HeapCell)) (address : Nat) (c d : HeapCell)
    (h : heapAt heap address = some c) :
    heapAt (heapStore heap address d) address = some d := by
  unfold heapAt at h ⊢
  by_cases h0 : address = 0
  · simp [h0] at h
  · simp only [h0, if_false] at h ⊢
    induction heap with
    | nil => simp [List.lookup] at h
    | cons head tail ih =>
      obtain ⟨a, x⟩ := head
      by_cases ha : a = address
      · subst ha
        have e : heapStore ((a, x) :: tail) a d = (a, d) :: heapStore tail a d := by
          simp [heapStore]
        rw [e]
        simp [List.lookup]
      · have hne : (address == a) = false := by
          simp only [beq_eq_false_iff_ne, ne_eq]
          exact fun e => ha e.symm
        have e : heapStore ((a, x) :: tail) address d = (a, x) :: heapStore tail address d := by
          simp [heapStore, ha]
        simp only [List.lookup, hne] at h
        rw [e]
        simp only [List.lookup, hne]
        exact ih h

theorem mergeBytes_mod (bits width value : Nat) :
    mergeBytes bits width value % 2 ^ (8 * width) = value % 2 ^ (8 * width) := by
  unfold mergeBytes
  rw [Nat.add_comm, Nat.add_mul_mod_self_right, Nat.mod_mod]

theorem fieldWord_eq (descriptor : String) (v : u4) (hv : v < 4294967296)
    (hd : descriptor ≠ "J" ∧ descriptor ≠ "D") :
    v % 2 ^ (8 * classGetFieldDescriptorSize descriptor) = fieldWord descriptor v := by
  obtain ⟨hJ, hD⟩ := hd
  unfold fieldWord classGetFieldDescriptorSize
  by_cases hB : descriptor = "B"
  · simp [hB]
  by_cases hC : descriptor = "C"
  · simp [hC]
  by_cases hZ : descriptor = "Z"
  · simp [hZ]
  by_cases hS : descriptor = "S"
  · simp [hS]
  by_cases hF : descriptor = "F"
  · simp [hF]
    exact hv
  by_cases hI : descriptor = "I"
  · simp [hI]
    exact hv
  simp [hB, hC, hZ, hS, hF, hI, hJ, hD]
  exact hv

/-- At a site that names a field the object holds, `getfield` pushes the low-order bytes of
the cell, as many as the descriptor has. -/
theorem getfield_site (env : Environment) (top : Frame) (rest : List Frame) (cc : JavaClass)
    (b1 b2 : u1) (cn name descriptor : String) (ref : u4) (s : List u4) (o : Object) (k : Nat)
    (entry : FieldsTable) (bits : Nat)
    (hs : CallSite env top rest cc b1 b2 cn name descriptor)
    (hstack : top.opStk = some (ref :: s))
    (hobj : heapAt env.heap ref = some (HeapCell.object o))
    (hk : findField name o.handler.fields 0 = some k)
    (he : o.handler.fields.get? k = some entry)
    (hsize : entry.memoryAddress.size = classGetFieldDescriptorSize descriptor)
    (hbits : entry.memoryAddress.bits = some bits)
    (hd : descriptor ≠ "J" ∧ descriptor ≠ "D") :
    getfield env = Outcome.ok (resumed env top rest
      (bits % 2 ^ (8 * classGetFieldDescriptorSize descriptor) :: s) 2) := by
  obtain ⟨⟨pc, stack⟩, ma, dbg, hp, cf⟩ := env
  obtain ⟨jc, mi, rpc, lv, os⟩ := top
  obtain ⟨h1, h2, h3, h4, h5, h6⟩ := hs
  obtain ⟨hJ, hD⟩ := hd
  dsimp only at h1 h2 h3 h4 h5 h6 hstack hobj
  subst h1
  subst hstack
  have hpc : pc + 1 + 1 = pc + 2 := by ring
  rw [hpc] at h4
  have hread : ∀ w, w = classGetFieldDescriptorSize descriptor →
      readObjectField (Environment.mk (Thread.mk (pc + 2)
        (Frame.mk jc mi rpc lv (some s) :: rest)) ma dbg hp cf) ref name w
        = Outcome.ok (bits % 2 ^ (8 * w)) := by
    intro w hw
    rw [List.get?_eq_getElem?] at he
    simp [readObjectField, getObjectAttributeReference, derefObject, hobj, hk, readCell, he,
      hsize, hbits, hw]
  by_cases hB : descriptor = "B" ∨ descriptor = "C" ∨ descriptor = "Z"
  · have hw : (1 : Nat) = classGetFieldDescriptorSize descriptor := by
      rcases hB with h | h | h <;> simp [h, classGetFieldDescriptorSize]
    simp [getfield, getCurrentFrame, popFromOperandStack, setCurrentFrame, h2,
      calculatePoolIndexFromCode, h3, h4, h5, h6, hJ, hD, hB, hread 1 hw, pushInOperandStack,
      resumed, ← hw, hpc]
  · by_cases hS : descriptor = "S"
    · have hw : (2 : Nat) = classGetFieldDescriptorSize descriptor := by
        simp [hS, classGetFieldDescriptorSize]
      simp [getfield, getCurrentFrame, popFromOperandStack, setCurrentFrame, h2,
        calculatePoolIndexFromCode, h3, h4, h5, h6, hJ, hD, hB, hread 2 hw,
        pushInOperandStack, resumed, ← hw, hpc]
      simp [hS]
    · have hw : (4 : Nat) = classGetFieldDescriptorSize descriptor := by
        simp only [not_or] at hB
        simp [hS, hB.1, hB.2.1, hB.2.2, hJ, hD, classGetFieldDescriptorSize]
      simp only [not_or] at hB
      simp [getfield, getCurrentFrame, popFromOperandStack, setCurrentFrame, h2,
        calculatePoolIndexFromCode, h3, h4, h5, h6, hJ, hD, hB, hS, hread 4 hw,
        pushInOperandStack, resumed, ← hw, hpc]

theorem writeCell_fit (cell : Cell) (w x : Nat) (hsize : cell.size = w) :
    ∃ b, writeCell cell w x = Outcome.ok (Cell.mk cell.size (some b)) ∧
      b % 2 ^ (8 * w) = x % 2 ^ (8 * w) := by
  obtain ⟨size, bits⟩ := cell
  dsimp only at hsize
  subst hsize
  cases bits with
  | none => exact ⟨x % 2 ^ (8 * size), by simp [writeCell], Nat.mod_mod _ _⟩
  | some old => exact ⟨mergeBytes old size x, by simp [writeCell], mergeBytes_mod old size x⟩

/-- At a site that names a field the object holds, `putfield` replaces the cell of the field
by one whose low-order bytes, as many as the descriptor has, are those of the value. -/
theorem putfield_site (env : Environment) (top : Frame) (rest : List Frame) (cc : JavaClass)
    (b1 b2 : u1) (cn name descriptor : String) (v ref : u4) (s : List u4) (o : Object)
    (k : Nat) (entry : FieldsTable)
    (hs : CallSite env top rest cc b1 b2 cn name descriptor)
    (hstack : top.opStk = some (v :: ref :: s))
    (hobj : heapAt env.heap ref = some (HeapCell.object o))
    (hk : findField name o.handler.fields 0 = some k)
    (he : o.handler.fields.get? k = some entry)
    (hsize : entry.memoryAddress.size = classGetFieldDescriptorSize descriptor)
    (hd : descriptor ≠ "J" ∧ descriptor ≠ "D") :
    ∃ b, b % 2 ^ (8 * classGetFieldDescriptorSize descriptor)
        = v % 2 ^ (8 * classGetFieldDescriptorSize descriptor) ∧
      putfield env = Outcome.ok { resumed env top rest s 2 with
        heap := heapStore env.heap ref (HeapCell.object (Object.mk (Handler.mk
          o.handler.javaClass (o.handler.fields.set k { entry with
            memoryAddress := Cell.mk entry.memoryAddress.size (some b) })))) } := by
  obtain ⟨⟨pc, stack⟩, ma, dbg, hp, cf⟩ := env
  obtain ⟨jc, mi, rpc, lv, os⟩ := top
  obtain ⟨h1, h2, h3, h4, h5, h6⟩ := hs
  obtain ⟨hJ, hD⟩ := hd
  dsimp only at h1 h2 h3 h4 h5 h6 hstack hobj
  subst h1
  subst hstack
  have hpc : pc + 1 + 1 = pc + 2 := by ring
  rw [hpc] at h4
  have hwrite : ∀ w x, w = classGetFieldDescriptorSize descriptor →
      ∃ b, b % 2 ^ (8 * w) = x % 2 ^ (8 * w) ∧
      writeObjectField (Environment.mk (Thread.mk (pc + 2)
        (Frame.mk jc mi rpc lv (some s) :: rest)) ma dbg hp cf) ref k w x
        = Outcome.ok (Environment.mk (Thread.mk (pc + 2)
            (Frame.mk jc mi rpc lv (some s) :: rest)) ma dbg
            (heapStore hp ref (HeapCell.object (Object.mk (Handler.mk
              o.handler.javaClass (o.handler.fields.set k { entry with
                memoryAddress := Cell.mk entry.memoryAddress.size (some b) })))))
            cf) := by
    intro w x hw
    obtain ⟨b, hb, hmod⟩ := writeCell_fit entry.memoryAddress w x (hsize.trans hw.symm)
    refine ⟨b, hmod, ?_⟩
    have he' := he
    rw [List.get?_eq_getElem?] at he'
    simp [writeObjectField, derefObject, hobj, writeField, he', hb]
  have hattr : getObjectAttributeReference (Environment.mk (Thread.mk (pc + 2)
        (Frame.mk jc mi rpc lv (some s) :: rest)) ma dbg hp cf) ref name
        = Outcome.ok (some k) := by
    simp [getObjectAttributeReference, derefObject, hobj, hk]
  by_cases hB : descriptor = "B" ∨ descriptor = "C" ∨ descriptor = "Z"
  · have hw : (1 : Nat) = classGetFieldDescriptorSize descriptor := by
      rcases hB with h | h | h <;> simp [h, classGetFieldDescriptorSize]
    obtain ⟨b, hmod, hstore⟩ := hwrite 1 (v % 256) hw
    refine ⟨b, ?_, ?_⟩
    · rw [← hw, hmod]
      exact Nat.mod_mod _ _
    · simp [putfield, getCurrentFrame, popFromOperandStack, setCurrentFrame, h2,
        calculatePoolIndexFromCode, h3, h4, h5, h6, hJ, hD, hB, hattr, hstore, resumed, hpc]
  · by_cases hS : descriptor = "S"
    · have hw : (2 : Nat) = classGetFieldDescriptorSize descriptor := by
        simp [hS, classGetFieldDescriptorSize]
      obtain ⟨b, hmod, hstore⟩ := hwrite 2 (v % 65536) hw
      refine ⟨b, ?_, ?_⟩
      · rw [← hw, hmod]
        exact Nat.mod_mod _ _
      · simp only [hS] at h5 hB
        simp [putfield, getCurrentFrame, popFromOperandStack, setCurrentFrame, h2,
          calculatePoolIndexFromCode, h3, h4, h5, h6, hattr, hstore, resumed, hpc]
    · have hw : (4 : Nat) = classGetFieldDescriptorSize descriptor := by
        simp only [not_or] at hB
        simp [hS, hB.1, hB.2.1, hB.2.2, hJ, hD, classGetFieldDescriptorSize]
      obtain ⟨b, hmod, hstore⟩ := hwrite 4 (v % 4294967296) hw
      refine ⟨b, ?_, ?_⟩
      · rw [← hw, hmod]
        exact Nat.mod_mod _ _
      · simp only [not_or] at hB
        simp [putfield, getCurrentFrame, popFromOperandStack, setCurrentFrame, h2,
          calculatePoolIndexFromCode, h3, h4, h5, h6, hJ, hD, hB, hS, hattr, hstore, resumed,
          hpc]

/-- At a site that names a static field of a registered class, `getstatic` pushes the
low-order bytes of the cell, as many as the descriptor has. -/
theorem getstatic_site (fuel : Nat) (bridge : Bridge) (env : Environment) (top : Frame)
    (rest : List Frame) (cc : JavaClass) (b1 b2 : u1) (cn name descriptor : String)
    (s : List u4) (ptr : JavaClassPtr) (javaClass : JavaClass) (k : Nat) (entry : FieldsTable)
    (bits : Nat)
    (hs : CallSite env top rest cc b1 b2 cn name descriptor)
    (hstack : top.opStk = some s)
    (hfound : findJavaClassOnMethodArea cn env.methodArea = some ptr)
    (hclass : derefClass env.methodArea ptr = Outcome.ok javaClass)
    (hk : findField name javaClass.staticFields 0 = some k)
    (he : javaClass.staticFields.get? k = some entry)
    (hsize : entry.memoryAddress.size = classGetFieldDescriptorSize descriptor)
    (hbits : entry.memoryAddress.bits = some bits)
    (hd : descriptor ≠ "J" ∧ descriptor ≠ "D") :
    getstatic fuel bridge env = Outcome.ok (resumed env top rest
      (bits % 2 ^ (8 * classGetFieldDescriptorSize descriptor) :: s) 2) := by
  obtain ⟨⟨pc, stack⟩, ma, dbg, hp, cf⟩ := env
  obtain ⟨jc, mi, rpc, lv, os⟩ := top
  obtain ⟨h1, h2, h3, h4, h5, h6⟩ := hs
  obtain ⟨hJ, hD⟩ := hd
  dsimp only at h1 h2 h3 h4 h5 h6 hstack hfound hclass
  subst h1
  subst hstack
  have hpc : pc + 1 + 1 = pc + 2 := by ring
  rw [hpc] at h4
  rw [List.get?_eq_getElem?] at he
  have href : getClassAttributeReference fuel cn name (Environment.mk (Thread.mk (pc + 2)
        (Frame.mk jc mi rpc lv (some s) :: rest)) ma dbg hp cf)
      = Outcome.ok (ValueRef.staticCell ptr k, Environment.mk (Thread.mk (pc + 2)
        (Frame.mk jc mi rpc lv (some s) :: rest)) ma dbg hp cf) := by
    simp [getClassAttributeReference, getClass, getClassWith, hfound, hclass, hk]
  have hread : ∀ w, w = classGetFieldDescriptorSize descriptor →
      readReference (Environment.mk (Thread.mk (pc + 2)
        (Frame.mk jc mi rpc lv (some s) :: rest)) ma dbg hp cf) (ValueRef.staticCell ptr k) w
        = Outcome.ok (bits % 2 ^ (8 * w)) := by
    intro w hw
    simp [readReference, hclass, readCell, he, hsize, hbits, hw]
  by_cases hB : descriptor = "B" ∨ descriptor = "C" ∨ descriptor = "Z"
  · have hw : (1 : Nat) = classGetFieldDescriptorSize descriptor := by
      rcases hB with h | h | h <;> simp [h, classGetFieldDescriptorSize]
    simp [getstatic, getCurrentFrame, setCurrentFrame, h2, calculatePoolIndexFromCode, h3, h4,
      h5, h6, hJ, hD, hB, href, hread 1 hw, pushInOperandStack, resumed, ← hw, hpc]
  · by_cases hS : descriptor = "S"
    · have hw : (2 : Nat) = classGetFieldDescriptorSize descriptor := by
        simp [hS, classGetFieldDescriptorSize]
      simp only [hS] at h5 hB
      simp [getstatic, getCurrentFrame, setCurrentFrame, h2, calculatePoolIndexFromCode, h3,
        h4, h5, h6, href, hread 2 hw, pushInOperandStack, resumed, ← hw, hpc]
    · have hw : (4 : Nat) = classGetFieldDescriptorSize descriptor := by
        simp only [not_or] at hB
        simp [hS, hB.1, hB.2.1, hB.2.2, hJ, hD, classGetFieldDescriptorSize]
      simp only [not_or] at hB
      simp [getstatic, getCurrentFrame, setCurrentFrame, h2, calculatePoolIndexFromCode, h3,
        h4, h5, h6, hJ, hD, hB, hS, href, hread 4 hw, pushInOperandStack, resumed, ← hw, hpc]

/-- The round trip: `putfield` of `v`, then `getfield` of the same field of the same
object. -/
theorem putfield_getfield (env : Environment) (top : Frame) (rest : List Frame)
    (cc : JavaClass) (b1 b2 : u1) (cn name descriptor : String) (v ref : u4) (s : List u4)
    (o : Object) (k : Nat) (entry : FieldsTable)
    (hs : CallSite env top rest cc b1 b2 cn name descriptor)
    (hget1 : getByteCodeFromMethod top.method_info cc.arqClass.constant_pool
      (env.thread.PC + 4) = Outcome.ok b1)
    (hget2 : getByteCodeFromMethod top.method_info cc.arqClass.constant_pool
      (env.thread.PC + 5) = Outcome.ok b2)
    (hstack : top.opStk = some (v :: ref :: ref :: s))
    (hobj : heapAt env.heap ref = some (HeapCell.object o))
    (hk : findField name o.handler.fields 0 = some k)
    (he : o.handler.fields.get? k = some entry)
    (hsize : entry.memoryAddress.size = classGetFieldDescriptorSize descriptor)
    (hd : descriptor ≠ "J" ∧ descriptor ≠ "D") :
    ∃ heap, followedBy putfield getfield env = Outcome.ok { resumed env top rest
      (v % 2 ^ (8 * classGetFieldDescriptorSize descriptor) :: s) 5 with heap := heap } := by
  obtain ⟨b, hmod, hput⟩ := putfield_site env top rest cc b1 b2 cn name descriptor v ref
    (ref :: s) o k entry hs hstack hobj hk he hsize hd
  obtain ⟨⟨pc, stack⟩, ma, dbg, hp, cf⟩ := env
  obtain ⟨jc, mi, rpc, lv, os⟩ := top
  obtain ⟨h1, h2, h3, h4, h5, h6⟩ := hs
  dsimp only at h1 h2 h3 h4 h5 h6 hstack hobj hget1 hget2
  subst h1
  subst hstack
  have e1 : pc + 2 + 1 + 1 = pc + 4 := by ring
  have e2 : pc + 2 + 1 + 1 + 1 = pc + 5 := by ring
  have e3 : pc + 2 + 1 + 2 = pc + 5 := by ring
  have hlen : k < o.handler.fields.length := by
    rw [List.get?_eq_getElem?] at he
    exact (List.getElem?_eq_some_iff.mp he).1
  have hgetf := getfield_site
    (Environment.mk (Thread.mk (pc + 2 + 1)
      (Frame.mk jc mi rpc lv (some (ref :: s)) :: rest)) ma dbg
      (heapStore hp ref (HeapCell.object (Object.mk (Handler.mk
        o.handler.javaClass (o.handler.fields.set k { entry with
          memoryAddress := Cell.mk entry.memoryAddress.size (some b) }))))) cf)
    (Frame.mk jc mi rpc lv (some (ref :: s))) rest cc b1 b2 cn name descriptor ref s
    (Object.mk (Handler.mk o.handler.javaClass (o.handler.fields.set k { entry with
      memoryAddress := Cell.mk entry.memoryAddress.size (some b) })))
    k { entry with memoryAddress := Cell.mk entry.memoryAddress.size (some b) } b
    ⟨rfl, h2, by rw [e1]; exact hget1, by rw [e2]; exact hget2, h5, h6⟩ rfl
    (heapAt_heapStore hp ref _ _ hobj)
    (by rw [findField_set name o.handler.fields k entry _ he 0]; exact hk)
    (by simp [List.get?_eq_getElem?, hlen])
    hsize rfl hd
  refine ⟨heapStore hp ref (HeapCell.object (Object.mk (Handler.mk
    o.handler.javaClass (o.handler.fields.set k { entry with
      memoryAddress := Cell.mk entry.memoryAddress.size (some b) })))), ?_⟩
  simp only [followedBy, hput, Outcome.bind, resumed, addPC]
  rw [hgetf]
  simp only [resumed, hmod, e3]

/-! ### Static fields -/

theorem popFromOperandStack_methodArea (env env' : Environment) (v : u4)
    (h : popFromOperandStack env = Outcome.ok (v, env')) :
    env'.methodArea = env.methodArea := by
  unfold popFromOperandStack getCurrentFrame at h
  cases hst : env.thread.vmStack with
  | nil => simp [hst, bind, Outcome.bind] at h
  | cons top rest =>
    simp only [hst, Outcome.ok_bind] at h
    cases hos : top.opStk with
    | none => simp [hos] at h
    | some stk =>
      cases stk with
      | nil =>
        simp only [hos, Outcome.pure_eq_ok, Outcome.ok.injEq, Prod.mk.injEq] at h
        rw [← h.2]
        rfl
      | cons a s =>
        simp only [hos, Outcome.pure_eq_ok, Outcome.ok.injEq, Prod.mk.injEq] at h
        rw [← h.2]
        rfl

/-- C1 (fails on the code): `invokestatic` of `C.f(II)V`, after the caller pushed `a1` and then
`a2`, leaves the arguments in the locals of the new frame in the order they are popped,
`locals[0] = a2` and `locals[1] = a1`; `invokevirtual` of `B.h(II)V` on the receiver at 500 does
the same after the receiver, `locals[1] = a2` and `locals[2] = a1`. -/
theorem C1_invoke_stores_arguments_in_pop_order (a1 a2 : u4) :
    (invokestatic 0 Example.noBridge (Example.at_ 2 Example.C_g 1 [a2, a1] [0, 0])).map
        (fun env => env.thread.vmStack.head?.map Frame.localVariablesVector)
      = Outcome.ok (some [a2, a1]) ∧
    (invokevirtual 1 Example.noBridge (Example.at_ 3 Example.D_f 0 [a2, a1, 500] [0, 0])).map
        (fun env => env.thread.vmStack.head?.map Frame.localVariablesVector)
      = Outcome.ok (some [500, a2, a1]) :=
  ⟨rfl, rfl⟩

/-- C2: when the class of the receiver does not declare the method and its super-class `B`, a
registered class, does, the search started at the class of the receiver returns the
`method_info` of `B` and the name of `B`, whatever the super-classes of `B` declare, and
`invokevirtual` on a receiver that is not null pushes a frame whose class is `B` and whose
method is the declaration of `B`. -/
theorem C2_virtual_call_resolves_to_closest_ancestor (fuel : Nat) (bridge : Bridge)
    (env : Environment) (caller : Frame) (rest : List Frame) (cc : JavaClass) (b1 b2 : u1)
    (cn mn md : String) (objectRef : u4) (obj : Object) (jcC : JavaClass) (nameB : String)
    (ptrB : JavaClassPtr) (jcB : JavaClass) (mB : method_info) (codeB : CodeAttribute)
    (args s : List u4)
    (hs : CallSite env caller rest cc b1 b2 cn mn md)
    (hn : getParameterNumberFromMethodDescriptor md = args.length)
    (hargs : caller.opStk = some (args ++ objectRef :: s))
    (hnonnull : objectRef ≠ 0)
    (hobj : heapAt env.heap objectRef = some (HeapCell.object obj))
    (hC : derefClass env.methodArea obj.handler.javaClass = Outcome.ok jcC)
    (hnotC : getMethodInfoFromClass jcC mn md = Outcome.ok none)
    (hsuper : getClassNameFromConstantPool jcC.arqClass.constant_pool jcC.arqClass.super_class
      = Outcome.ok nameB)
    (hlib : javaLibIsFrom nameB = false)
    (hB : Target env.methodArea nameB mn md ptrB jcB mB codeB)
    (hBname : getClassNameFromConstantPool jcB.arqClass.constant_pool jcB.arqClass.this_class
      = Outcome.ok nameB)
    (hconcrete : mB.access_flags &&& ACC_ABSTRACT = 0)
    (hlocals : args.length + 1 ≤ codeB.max_locals) :
    isMethodInClassOrSuperClass (loadCLass (fuel + 2)) (fuel + 2) obj.handler.javaClass mn md env
      = Outcome.ok (mB, nameB, env) ∧
    invokevirtual (fuel + 2) bridge env = Outcome.ok (invoked env caller rest s ptrB mB
      (env.thread.PC + 1 + 1)
      (objectRef :: args ++ List.replicate (codeB.max_locals - (args.length + 1)) 0) (-1)) := by
  have hsel : Selects (fuel + 2) env.methodArea obj.handler.javaClass mn md mB nameB := by
    intro e he
    rw [walk_super (loadCLass (fuel + 2)) (fuel + 1) e obj.handler.javaClass ptrB jcC mn md nameB
      (by rw [he]; exact hC) hnotC hsuper hlib (by rw [he]; exact hB.found)]
    exact walk_here (loadCLass (fuel + 2)) fuel e ptrB jcB mn md mB nameB
      (by rw [he]; exact hB.deref) hB.declares hBname
  exact ⟨hsel env rfl, invokevirtual_loaded (fuel + 2) bridge env caller rest cc b1 b2 cn mn md
    objectRef obj nameB mB ptrB jcB mB codeB args s hs hn hargs hnonnull hobj hsel hconcrete hB
    hlocals⟩

set_option maxRecDepth 100000 in
/-- Witness of C2 on the example program: the receiver at 100 is an instance of `C`, which
inherits `m()V` from `B`. -/
theorem C2_witness :
    isMethodInClassOrSuperClass (loadCLass 2) 2 (JavaClassPtr.loaded 2) "m" "()V"
        (Example.at_ 2 Example.C_h 1 [100, 5] [0, 0])
      = Outcome.ok (Example.B_m, "B", Example.at_ 2 Example.C_h 1 [100, 5] [0, 0]) ∧
    invokevirtual 2 Example.noBridge (Example.at_ 2 Example.C_h 1 [100, 5] [0, 0])
      = Outcome.ok (invoked (Example.at_ 2 Example.C_h 1 [100, 5] [0, 0])
          (Frame.mk (JavaClassPtr.loaded 2) (some Example.C_h) 0 [0, 0] (some [100, 5])) [] [5]
          (JavaClassPtr.loaded 1) Example.B_m (1 + 1 + 1) [100] (-1)) :=
  C2_virtual_call_resolves_to_closest_ancestor 0 Example.noBridge
    (Example.at_ 2 Example.C_h 1 [100, 5] [0, 0])
    (Frame.mk (JavaClassPtr.loaded 2) (some Example.C_h) 0 [0, 0] (some [100, 5])) []
    (JavaClass.mk [100] Example.imageC []) 0 15 "B" "m" "()V" 100
    (Object.mk (Handler.mk (JavaClassPtr.loaded 2) [])) (JavaClass.mk [100] Example.imageC [])
    "B" (JavaClassPtr.loaded 1) (JavaClass.mk [500] Example.imageB []) Example.B_m
    Example.B_m_code [] [5]
    ⟨rfl, by decide, by decide, by decide, by decide, by decide⟩
    (by decide) rfl (by decide) (by decide) (by decide) (by decide) (by decide) (by decide)
    ⟨by decide, by decide, by decide, by decide⟩ (by decide) (by decide) (by decide)

set_option maxRecDepth 100000 in
/-- C3 (fails on the code): an array parameter is counted once for its `[` and once more for
its element type, so `([I)V` gives 2 and `(J[Ljava/lang/String;I)V` gives 5. -/
theorem C3_array_parameter_is_counted_twice :
    getParameterNumberFromMethodDescriptor "([I)V" = 2 ∧
    getParameterNumberFromMethodDescriptor "(J[Ljava/lang/String;I)V" = 5 := by
  decide

set_option maxRecDepth 100000 in
/-- C4 (fails on the code): `iastore` at index 5 into the `int[3]` at 300 performs the store
outside the element block and signals nothing; `iastore` and `iaload` signal no exception on
any input, while the sibling `aaload` does signal `ArrayIndexOutOfBoundsException` for the same
index. -/
theorem C4_iastore_out_of_bounds_is_not_signalled :
    iastore (Example.at_ 2 Example.C_t 0 [42, 5, 300] [0, 0]) = Outcome.undefined ∧
    (∀ (env : Environment) (e : Nat), iastore env ≠ Outcome.thrown e) ∧
    (∀ (env : Environment) (e : Nat), iaload env ≠ Outcome.thrown e) ∧
    aaload (Example.at_ 2 Example.C_t 3 [5, 300] [0, 0])
      = Outcome.thrown ArrayIndexOutOfBoundsException :=
  ⟨by decide, iastore_ne_thrown, iaload_ne_thrown, by decide⟩

set_option maxRecDepth 100000 in
/-- C5 (fails on the code): `getfield A.F:I` on the null reference dereferences it in
`getObjectAttributeReference` and signals nothing; `getfield` signals no exception on any
input. -/
theorem C5_getfield_on_null_is_not_signalled :
    getfield (Example.at_ 2 Example.C_s 0 [0, 5] [0, 0]) = Outcome.undefined ∧
    ∀ (env : Environment) (e : Nat), getfield env ≠ Outcome.thrown e :=
  ⟨by decide, getfield_ne_thrown⟩

/-- C6 (fails on the code): with the null reference as array reference, `iaload`, `iastore`,
`aaload` and `arraylength` read the array header through it and signal nothing, in every
environment. -/
theorem C6_null_array_reference_is_not_signalled (pc : Int) (jc : JavaClassPtr)
    (mi : Option method_info) (rpc : Int) (lv s : List u4) (rest : List Frame)
    (ma : MethodArea) (dbg : u1) (hp : List (Nat × HeapCell)) (cf : List (String × ArqClass))
    (index value : u4) :
    iaload (Environment.mk (Thread.mk pc (Frame.mk jc mi rpc lv (some (index :: 0 :: s)) :: rest))
      ma dbg hp cf) = Outcome.undefined ∧
    iastore (Environment.mk (Thread.mk pc
      (Frame.mk jc mi rpc lv (some (value :: index :: 0 :: s)) :: rest)) ma dbg hp cf)
      = Outcome.undefined ∧
    aaload (Environment.mk (Thread.mk pc (Frame.mk jc mi rpc lv (some (index :: 0 :: s)) :: rest))
      ma dbg hp cf) = Outcome.undefined ∧
    arraylength (Environment.mk (Thread.mk pc (Frame.mk jc mi rpc lv (some (0 :: s)) :: rest))
      ma dbg hp cf) = Outcome.undefined := by
  refine ⟨?_, ?_, ?_, ?_⟩ <;>
    simp [iaload, iastore, aaload, arraylength, popFromOperandStack, getCurrentFrame,
      setCurrentFrame, derefArray, heapAt]

set_option maxRecDepth 100000 in
/-- C7 (fails on the code): `invokespecial B.m()V`, executed by code of `D` on a receiver of
class `D`, where `D extends B` and both declare `m()V`, pushes a frame for the `m` of `D`
(class at position 3), not for the `m` of `B`. -/
theorem C7_invokespecial_selects_from_the_receiver_class :
    (invokespecial 3 Example.noBridge (Example.at_ 3 Example.D_g 1 [200] [200])).map
        (fun env => env.thread.vmStack.head?.map (fun f => (f.javaClass, f.method_info)))
      = Outcome.ok (some (JavaClassPtr.loaded 3, some Example.D_m)) ∧
    Example.D_m ≠ Example.B_m := by
  decide

set_option maxRecDepth 100000 in
/-- C8 (fails on the code): `invokeinterface A.m()V` on the instance of `C` at 100, where `C`
does not declare `m()V` and its super-class `B` declares it public and not abstract, stops the
VM in `pushFrame` instead of pushing a frame for the method of `B`, although the search does
find that method. -/
theorem C8_invokeinterface_on_inherited_method_stops_the_vm :
    invokeinterface 3 Example.noBridge (Example.at_ 2 Example.C_k 0 [100, 5] [0, 0])
      = Outcome.stopAbrupt ∧
    isMethodInClassOrSuperClass (loadCLass 3) 3 (JavaClassPtr.loaded 2) "m" "()V"
        (Example.at_ 2 Example.C_k 0 [100, 5] [0, 0])
      = Outcome.ok (Example.B_m, "B", Example.at_ 2 Example.C_k 0 [100, 5] [0, 0]) ∧
    Example.B_m.access_flags &&& ACC_PUBLIC ≠ 0 ∧ Example.B_m.access_flags &&& ACC_ABSTRACT = 0 := by
  decide

/-- C9: an `invokestatic`, `invokevirtual` or `invokespecial` at offset `p` that targets a
method of an already loaded class leaves, after the loop iteration, the frame of the callee on top
with `PC = 0`, so that the next opcode fetched is byte 0 of the code of the callee; the frame
saves `p + 2`, and the loop iteration that runs `return_` in a frame that saves `p + 2` leaves
the frame below on top with `PC = p + 3`. -/
theorem C9_invoke_enters_at_zero_and_returns_after_the_call (fuel : Nat) (bridge : Bridge)
    (decode : u1 → Outcome (Option instruction)) (env : Environment) (caller : Frame)
    (rest : List Frame) (s : List u4) (ptr : JavaClassPtr) (m : method_info)
    (code : CodeAttribute) (p : Int)
    (hp : env.thread.PC = p)
    (hcall : StaticCall fuel bridge decode env caller rest s ptr m code ∨
      VirtualCall fuel bridge decode env caller rest s ptr m code ∨
      SpecialCall fuel bridge decode env caller rest s ptr m code) :
    ∃ locals : List u4,
      executeStep decode env = Outcome.ok (invoked env caller rest s ptr m (p + 2) locals 0) ∧
      fetchOpcode (invoked env caller rest s ptr m (p + 2) locals 0) = code.code.read 0 ∧
      ∀ (env2 : Environment) (callee caller2 : Frame) (rest2 : List Frame) (c : List u4)
        (op : u1),
        env2.thread.vmStack = callee :: caller2 :: rest2 → callee.returnPC = p + 2 →
        callee.opStk = some c → fetchOpcode env2 = Outcome.ok op →
        decode op = Outcome.ok (some return_) →
        executeStep decode env2 = Outcome.ok
          { env2 with thread := { PC := p + 3, vmStack := caller2 :: rest2 } } := by
  have hret : ∀ (env2 : Environment) (callee caller2 : Frame) (rest2 : List Frame)
      (c : List u4) (op : u1),
      env2.thread.vmStack = callee :: caller2 :: rest2 → callee.returnPC = p + 2 →
      callee.opStk = some c → fetchOpcode env2 = Outcome.ok op →
      decode op = Outcome.ok (some return_) →
      executeStep decode env2 = Outcome.ok
        { env2 with thread := { PC := p + 3, vmStack := caller2 :: rest2 } } := by
    intro env2 callee caller2 rest2 c op h1 h2 h3 h4 h5
    rw [executeStep_return decode env2 callee caller2 rest2 c op h1 h3 h4 h5, h2]
    have : p + 2 + 1 = p + 3 := by omega
    rw [this]
  have hpc : env.thread.PC + 1 + 1 = p + 2 := by omega
  rcases hcall with h | h | h
  · obtain ⟨cc, b1, b2, opcode, cn, mn, md, tc, args, hs, hop, hdec, ht, hst, hn, hargs, hl⟩ := h
    refine ⟨args ++ List.replicate (code.max_locals - args.length) 0, ?_,
      fetchOpcode_invoked env caller rest s cn mn md ptr tc m code _ _ ht, hret⟩
    have hf : fetchOpcode env = Outcome.ok opcode := by
      simp [fetchOpcode, getCurrentFrame, hs.stack, hs.callerClass, hop]
    have hi := invokestatic_loaded fuel bridge env caller rest cc b1 b2 cn mn md ptr tc m code
      args s hs ht hst hn hargs hl
    rw [hpc] at hi
    simp [executeStep, hf, hdec, hi, invoked]
  · obtain ⟨cc, b1, b2, opcode, cn, mn, md, tc, args, objectRef, obj, tn, sel, hs, hop, hdec,
      hn, hargs, hnn, hobj, hsel, hco, ht, hl⟩ := h
    refine ⟨objectRef :: args ++ List.replicate (code.max_locals - (args.length + 1)) 0, ?_,
      fetchOpcode_invoked env caller rest s tn mn md ptr tc m code _ _ ht, hret⟩
    have hf : fetchOpcode env = Outcome.ok opcode := by
      simp [fetchOpcode, getCurrentFrame, hs.stack, hs.callerClass, hop]
    have hi := invokevirtual_loaded fuel bridge env caller rest cc b1 b2 cn mn md objectRef obj
      tn sel ptr tc m code args s hs hn hargs hnn hobj hsel hco ht hl
    rw [hpc] at hi
    simp [executeStep, hf, hdec, hi, invoked]
  · obtain ⟨cc, b1, b2, opcode, cn, mn, md, tc, args, objectRef, obj, tn, sel, mptr, hs, hop,
      hdec, hfound, hn, hargs, hnn, hver, hobj, hsel, hin, hco, ht, hl⟩ := h
    refine ⟨objectRef :: args ++ List.replicate (code.max_locals - (args.length + 1)) 0, ?_,
      fetchOpcode_invoked env caller rest s tn mn md ptr tc m code _ _ ht, hret⟩
    have hf : fetchOpcode env = Outcome.ok opcode := by
      simp [fetchOpcode, getCurrentFrame, hs.stack, hs.callerClass, hop]
    have hi := invokespecial_loaded fuel bridge env caller rest cc b1 b2 cn mn md mptr objectRef
      obj tn sel ptr tc m code args s hs hfound hn hargs hnn hver hobj hsel hin hco ht hl
    rw [hpc] at hi
    simp [executeStep, hf, hdec, hi, invoked]

/-- On the example program the method search from `C` for `m()V` ends at the method of `B`. -/
theorem example_selects_B_m :
    Selects 3 Example.area (JavaClassPtr.loaded 2) "m" "()V" Example.B_m "B" := by
  intro env he
  rw [walk_super (loadCLass 3) 2 env (JavaClassPtr.loaded 2) (JavaClassPtr.loaded 1)
    (JavaClass.mk [100] Example.imageC []) "m" "()V" "B" (by rw [he]; decide) (by decide)
    (by decide) (by decide) (by rw [he]; decide)]
  exact walk_here (loadCLass 3) 1 env (JavaClassPtr.loaded 1)
    (JavaClass.mk [500] Example.imageB []) "m" "()V" Example.B_m "B" (by rw [he]; decide)
    (by decide) (by decide)

/-- On the example program the method search from `D` for `m()V` ends in `D` itself. -/
theorem example_selects_D_m :
    Selects 3 Example.area (JavaClassPtr.loaded 3) "m" "()V" Example.D_m "D" := by
  intro env he
  exact walk_here (loadCLass 3) 2 env (JavaClassPtr.loaded 3)
    (JavaClass.mk [200] Example.imageD []) "m" "()V" Example.D_m "D" (by rw [he]; decide)
    (by decide) (by decide)

/-- On the example program the checks of `verifyInvokeSpecial` return for a caller of class `D`
and a Methodref to `B`. -/
theorem example_verify_returns :
    VerifyReturns 3 Example.area (JavaClassPtr.loaded 3) (JavaClassPtr.loaded 1) := by
  intro env top rest he hs ht
  obtain ⟨⟨pc, stack⟩, ma, dbg, hp, cf⟩ := env
  obtain ⟨jc, mi, rpc, lv, os⟩ := top
  dsimp only at he hs ht
  subst he
  subst hs
  subst ht
  rfl

set_option maxRecDepth 100000 in
/-- Witness of C9 on the example program: `invokestatic C.f(II)V` at offset 1 of `C.g`,
`invokevirtual B.m()V` at offset 1 of `C.h` on the instance of `C`, and `invokespecial B.m()V`
at offset 1 of `D.g` on the instance of `D`. -/
theorem C9_witness :
    (∃ locals : List u4,
      executeStep Example.decode (Example.at_ 2 Example.C_g 1 [20, 10, 5] [0, 0])
        = Outcome.ok (invoked (Example.at_ 2 Example.C_g 1 [20, 10, 5] [0, 0])
            (Frame.mk (JavaClassPtr.loaded 2) (some Example.C_g) 0 [0, 0] (some [20, 10, 5]))
            [] [5] (JavaClassPtr.loaded 2) Example.C_f (1 + 2) locals 0) ∧
      fetchOpcode (invoked (Example.at_ 2 Example.C_g 1 [20, 10, 5] [0, 0])
            (Frame.mk (JavaClassPtr.loaded 2) (some Example.C_g) 0 [0, 0] (some [20, 10, 5]))
            [] [5] (JavaClassPtr.loaded 2) Example.C_f (1 + 2) locals 0)
        = Example.C_f_code.code.read 0 ∧
      ∀ (env2 : Environment) (callee caller2 : Frame) (rest2 : List Frame) (c : List u4)
        (op : u1),
        env2.thread.vmStack = callee :: caller2 :: rest2 → callee.returnPC = 1 + 2 →
        callee.opStk = some c → fetchOpcode env2 = Outcome.ok op →
        Example.decode op = Outcome.ok (some return_) →
        executeStep Example.decode env2 = Outcome.ok
          { env2 with thread := { PC := 1 + 3, vmStack := caller2 :: rest2 } }) ∧
    (∃ locals : List u4,
      executeStep Example.decode (Example.at_ 2 Example.C_h 1 [100, 5] [0, 0])
        = Outcome.ok (invoked (Example.at_ 2 Example.C_h 1 [100, 5] [0, 0])
            (Frame.mk (JavaClassPtr.loaded 2) (some Example.C_h) 0 [0, 0] (some [100, 5]))
            [] [5] (JavaClassPtr.loaded 1) Example.B_m (1 + 2) locals 0)) ∧
    (∃ locals : List u4,
      executeStep Example.decode (Example.at_ 3 Example.D_g 1 [200, 5] [200])
        = Outcome.ok (invoked (Example.at_ 3 Example.D_g 1 [200, 5] [200])
            (Frame.mk (JavaClassPtr.loaded 3) (some Example.D_g) 0 [200] (some [200, 5]))
            [] [5] (JavaClassPtr.loaded 3) Example.D_m (1 + 2) locals 0)) :=
  ⟨C9_invoke_enters_at_zero_and_returns_after_the_call 3 Example.noBridge Example.decode
    (Example.at_ 2 Example.C_g 1 [20, 10, 5] [0, 0])
    (Frame.mk (JavaClassPtr.loaded 2) (some Example.C_g) 0 [0, 0] (some [20, 10, 5]))
    [] [5] (JavaClassPtr.loaded 2) Example.C_f Example.C_f_code 1 rfl
    (Or.inl ⟨JavaClass.mk [100] Example.imageC [], 0, 19, 0xb8, "C", "f", "(II)V",
      JavaClass.mk [100] Example.imageC [], [20, 10],
      ⟨rfl, by decide, by decide, by decide, by decide, by decide⟩,
      by decide, rfl, ⟨by decide, by decide, by decide, by decide⟩, by decide, by decide,
      rfl, by decide⟩),
   (C9_invoke_enters_at_zero_and_returns_after_the_call 3 Example.noBridge Example.decode
    (Example.at_ 2 Example.C_h 1 [100, 5] [0, 0])
    (Frame.mk (JavaClassPtr.loaded 2) (some Example.C_h) 0 [0, 0] (some [100, 5]))
    [] [5] (JavaClassPtr.loaded 1) Example.B_m Example.B_m_code 1 rfl
    (Or.inr (Or.inl ⟨JavaClass.mk [100] Example.imageC [], 0, 15, 0xb6, "B", "m", "()V",
      JavaClass.mk [500] Example.imageB [], [], 100,
      Object.mk (Handler.mk (JavaClassPtr.loaded 2) []), "B", Example.B_m,
      ⟨rfl, by decide, by decide, by decide, by decide, by decide⟩,
      by decide, rfl, by decide, rfl, by decide, by decide, example_selects_B_m, by decide,
      ⟨by decide, by decide, by decide, by decide⟩, by decide⟩))).imp (fun _ h => h.1),
   (C9_invoke_enters_at_zero_and_returns_after_the_call 3 Example.noBridge Example.decode
    (Example.at_ 3 Example.D_g 1 [200, 5] [200])
    (Frame.mk (JavaClassPtr.loaded 3) (some Example.D_g) 0 [200] (some [200, 5]))
    [] [5] (JavaClassPtr.loaded 3) Example.D_m Example.D_m_code 1 rfl
    (Or.inr (Or.inr ⟨JavaClass.mk [200] Example.imageD [], 0, 15, 0xb7, "B", "m", "()V",
      JavaClass.mk [200] Example.imageD [], [], 200,
      Object.mk (Handler.mk (JavaClassPtr.loaded 3) []), "D", Example.D_m,
      JavaClassPtr.loaded 1,
      ⟨rfl, by decide, by decide, by decide, by decide, by decide⟩,
      by decide, rfl, by decide, by decide, rfl, by decide, example_verify_returns, by decide,
      example_selects_D_m, by decide, by decide,
      ⟨by decide, by decide, by decide, by decide⟩, by decide⟩))).imp (fun _ h => h.1)⟩

/-- C10: with a frame `callee` on top of a frame `caller`, `ireturn`, `freturn` and `areturn`
remove the top frame, restore `PC` from its `returnPC` and push its top word on the operand
stack of the caller; `lreturn` and `dreturn` do so with its top two words, the top one staying
on top; `return_` removes the top frame and leaves the operand stack of the caller as it is. -/
theorem C10_return_hands_the_result_to_the_caller (env : Environment) (callee caller : Frame)
    (rest : List Frame) (c s : List u4)
    (hstack : env.thread.vmStack = callee :: caller :: rest)
    (hcallee : callee.opStk = some c) (hcaller : caller.opStk = some s) :
    (∀ (v : u4) (c1 : List u4), c = v :: c1 →
      ireturn env = Outcome.ok { env with thread :=
        { PC := callee.returnPC, vmStack := { caller with opStk := some (v :: s) } :: rest } } ∧
      freturn env = Outcome.ok { env with thread :=
        { PC := callee.returnPC, vmStack := { caller with opStk := some (v :: s) } :: rest } } ∧
      areturn env = Outcome.ok { env with thread :=
        { PC := callee.returnPC, vmStack := { caller with opStk := some (v :: s) } :: rest } }) ∧
    (∀ (v1 v2 : u4) (c2 : List u4), c = v1 :: v2 :: c2 →
      lreturn env = Outcome.ok { env with thread :=
        { PC := callee.returnPC,
          vmStack := { caller with opStk := some (v1 :: v2 :: s) } :: rest } } ∧
      dreturn env = Outcome.ok { env with thread :=
        { PC := callee.returnPC,
          vmStack := { caller with opStk := some (v1 :: v2 :: s) } :: rest } }) ∧
    return_ env = Outcome.ok { env with thread :=
      { PC := callee.returnPC, vmStack := caller :: rest } } := by
  refine ⟨?_, ?_, ?_⟩
  · intro v c1 hc
    subst hc
    refine ⟨?_, ?_, ?_⟩ <;>
      simp [ireturn, freturn, areturn, getCurrentFrame, popFromOperandStack, popFrame, freeFrame,
        pushInOperandStack, setCurrentFrame, hstack, hcallee, hcaller]
  · intro v1 v2 c2 hc
    subst hc
    refine ⟨?_, ?_⟩ <;>
      simp [lreturn, dreturn, getCurrentFrame, popFromOperandStack, popFrame, freeFrame,
        pushInOperandStack, setCurrentFrame, hstack, hcallee, hcaller]
  · simp [return_, getCurrentFrame, popFrame, freeFrame, hstack, hcallee]

set_option maxRecDepth 100000 in
/-- Witness of C10 on the example program: `C.f` holds the words 7, 8, 9 (7 on top) above
`C.g`, which holds the word 1. -/
theorem C10_witness :
    ireturn Example.inCallee = Outcome.ok (Example.backInCaller [7, 1]) ∧
    lreturn Example.inCallee = Outcome.ok (Example.backInCaller [7, 8, 1]) ∧
    return_ Example.inCallee = Outcome.ok (Example.backInCaller [1]) :=
  have h := C10_return_hands_the_result_to_the_caller Example.inCallee
    (Frame.mk (JavaClassPtr.loaded 2) (some Example.C_f) 3 [0, 0] (some [7, 8, 9]))
    (Frame.mk (JavaClassPtr.loaded 2) (some Example.C_g) 0 [0, 0] (some [1])) [] [7, 8, 9] [1]
    rfl rfl rfl
  ⟨(h.1 7 [8, 9] rfl).1, (h.2.1 7 8 [9] rfl).1, h.2.2⟩

set_option maxRecDepth 100000 in
/-- C11 (fails on the code): `loadCLass` of `X`, whose super-class `Y` is not loaded, with a
`<clinit>()V` in both, returns with the frame of `X.<clinit>` on top of the frame stack and the
frame of `Y.<clinit>` beneath it, so `X.<clinit>` is the one that runs first. -/
theorem C11_subclass_initializer_is_queued_above_the_superclass_one :
    (loadCLass 2 "X" (Loading.at_ 3 [])).map
        (fun r => (r.1, r.2.thread.PC, r.2.thread.vmStack))
      = Outcome.ok (JavaClassPtr.loaded 2, 0,
          [ Frame.mk (JavaClassPtr.loaded 2) (some Loading.X_clinit) (-1) [0] (some []),
            Frame.mk (JavaClassPtr.loaded 3) (some Loading.Y_clinit) 2 [0] (some []),
            Loading.mainFrame [] ]) := by
  decide

set_option maxRecDepth 100000 in
/-- C12 (fails on the code): `getstatic Y.F` at offset 1 of `Main.run`, with `Y` not loaded and
declaring `<clinit>()V`. After the step the `<clinit>` frame is on top with `PC = 1` (its byte 0 is
skipped), the saved return `PC` is 2, and the value read was pushed on the `<clinit>` frame; after
the `return` at byte 1 of `<clinit>` the thread is back in `Main.run` with `PC = 3`, the second
operand byte of the `getstatic`, not 1. -/
theorem C12_instruction_is_not_executed_again_after_clinit :
    (executeStep Loading.decode (Loading.at_ 1 [42])).map
        (fun env => (env.thread.PC, env.thread.vmStack))
      = Outcome.ok (1,
          [ Frame.mk (JavaClassPtr.loaded 2) (some Loading.Y_clinit) 2 [0] (some [0]),
            Loading.mainFrame [42] ]) ∧
    ((executeStep Loading.decode (Loading.at_ 1 [42])).bind
        (executeStep Loading.decode)).map (fun env => (env.thread.PC, env.thread.vmStack))
      = Outcome.ok (3, [Loading.mainFrame [42]]) := by
  decide

/-- C13 (fails on the code): `ifeq` at offset 40000 with the operand bytes `0x80 0x00` (the offset
-32768) and the popped value 0 leaves `PC = 72768 = 40000 - 32768 + 65536` after the step, not
`40000 - 32768 = 7232`: the subtraction `offset -= 3` is done in `short int`. -/
theorem C13_ifeq_offset_wraps_in_short :
    executeStep Control.decode (Control.at_ Control.farCode 40000 [0] [])
      = Outcome.ok (Control.at_ Control.farCode 72768 [] []) :=
  executeStep_handler Control.decode (Control.at_ Control.farCode 40000 [0] [])
    (resumed (Control.at_ Control.farCode 40000 [0] [])
      (Control.frame Control.farCode 0 [0] []) [] [] (2 + 32765)) 0x99 ifeq
    (Control.fetchOpcode_at Control.farCode Control.farCode_bytes.1 40000 0x99
      Control.farCode_bytes.2.1 [0] [])
    rfl
    (ifBranch_site (fun operando => operando = 0) (Control.at_ Control.farCode 40000 [0] [])
      (Control.frame Control.farCode 0 [0] []) [] 0x80 0x00 0 []
      ⟨rfl,
        Control.codeByteAtPC_at Control.farCode Control.farCode_bytes.1 40001 0x80
          Control.farCode_bytes.2.2.1 (by decide) [0] [],
        Control.codeByteAtPC_at Control.farCode Control.farCode_bytes.1 40002 0x00
          Control.farCode_bytes.2.2.2 (by decide) [0] []⟩
      rfl)

/-- C14: for each of the six `if_icmp` handlers, with `value2` on top of the operand stack and
`value1` beneath it, the handler pops both words and adds the branch offset to `PC` exactly when
`value1 <op> value2` holds for the two words read as signed 32-bit integers; in both cases `PC`
has first moved over the two operand bytes. -/
theorem C14_if_icmp_compares_value1_with_value2 (env : Environment) (top : Frame)
    (rest : List Frame) (b1 b2 : u1) (value1 value2 : u4) (s : List u4)
    (site : BranchSite env top rest b1 b2)
    (hstack : top.opStk = some (value2 :: value1 :: s)) :
    if_icmpeq env = Outcome.ok (resumed env top rest s
      (2 + if toInt32 value1 = toInt32 value2 then branchOffset b1 b2 else 0)) ∧
    if_icmpne env = Outcome.ok (resumed env top rest s
      (2 + if toInt32 value1 ≠ toInt32 value2 then branchOffset b1 b2 else 0)) ∧
    if_icmplt env = Outcome.ok (resumed env top rest s
      (2 + if toInt32 value1 < toInt32 value2 then branchOffset b1 b2 else 0)) ∧
    if_icmpge env = Outcome.ok (resumed env top rest s
      (2 + if toInt32 value1 ≥ toInt32 value2 then branchOffset b1 b2 else 0)) ∧
    if_icmpgt env = Outcome.ok (resumed env top rest s
      (2 + if toInt32 value1 > toInt32 value2 then branchOffset b1 b2 else 0)) ∧
    if_icmple env = Outcome.ok (resumed env top rest s
      (2 + if toInt32 value1 ≤ toInt32 value2 then branchOffset b1 b2 else 0)) := by
  refine ⟨?_, ?_, ?_, ?_, ?_, ?_⟩
  · simpa only [decide_eq_true_eq] using
      ifIcmpBranch_site (fun operando2 operando1 => operando2 = operando1)
        env top rest b1 b2 value2 value1 s site hstack
  · simpa only [decide_eq_true_eq] using
      ifIcmpBranch_site (fun operando2 operando1 => operando2 ≠ operando1)
        env top rest b1 b2 value2 value1 s site hstack
  · simpa only [decide_eq_true_eq] using
      ifIcmpBranch_site (fun operando2 operando1 => operando2 < operando1)
        env top rest b1 b2 value2 value1 s site hstack
  · simpa only [decide_eq_true_eq] using
      ifIcmpBranch_site (fun operando2 operando1 => operando2 ≥ operando1)
        env top rest b1 b2 value2 value1 s site hstack
  · simpa only [decide_eq_true_eq] using
      ifIcmpBranch_site (fun operando2 operando1 => operando2 > operando1)
        env top rest b1 b2 value2 value1 s site hstack
  · simpa only [decide_eq_true_eq] using
      ifIcmpBranch_site (fun operando2 operando1 => operando2 ≤ operando1)
        env top rest b1 b2 value2 value1 s site hstack

set_option maxRecDepth 100000 in
/-- Witness of C14 on `if_icmplt +5` at offset 0: with `value1 = -1` beneath `value2 = 1` the
handler leaves `PC` at `2 + 2`, so that the next instruction is the one at offset 5; with
`value1 = 1` beneath `value2 = -1` it leaves `PC` at 2, so that the next one is at offset 3. -/
theorem C14_witness :
    if_icmplt (Control.at_ Control.icmpltCode 0 [1, 4294967295] [])
      = Outcome.ok (Control.at_ Control.icmpltCode 4 [] []) ∧
    if_icmplt (Control.at_ Control.icmpltCode 0 [4294967295, 1] [])
      = Outcome.ok (Control.at_ Control.icmpltCode 2 [] []) :=
  ⟨(C14_if_icmp_compares_value1_with_value2 (Control.at_ Control.icmpltCode 0 [1, 4294967295] [])
      (Control.frame Control.icmpltCode 0 [1, 4294967295] []) [] 0 5 4294967295 1 []
      ⟨rfl, by decide, by decide⟩ rfl).2.2.1,
   (C14_if_icmp_compares_value1_with_value2 (Control.at_ Control.icmpltCode 0 [4294967295, 1] [])
      (Control.frame Control.icmpltCode 0 [4294967295, 1] []) [] 0 5 1 4294967295 []
      ⟨rfl, by decide, by decide⟩ rfl).2.2.1⟩

set_option maxRecDepth 100000 in
/-- C15 (fails on the code): `tableswitch` at offset 0 with `default = 26` and the jump table `[24,
25]`. With `low = 0`, `high = 1`: the index 5 leaves `PC = 27` after the step, not 26, and the
index 1 leaves `PC = 26`, not 25. With `low = 1`, `high = 2` the index 1 leaves `PC = 26`, not `24
= offsets[1 - low]`: the table is read at `index * 4`. -/
theorem C15_tableswitch_target_is_one_past_and_ignores_low :
    executeStep Control.decode (Control.at_ Control.tableCode 0 [5] [])
      = Outcome.ok (Control.at_ Control.tableCode 27 [] []) ∧
    executeStep Control.decode (Control.at_ Control.tableCode 0 [1] [])
      = Outcome.ok (Control.at_ Control.tableCode 26 [] []) ∧
    executeStep Control.decode (Control.at_ Control.tableCodeFromOne 0 [1] [])
      = Outcome.ok (Control.at_ Control.tableCodeFromOne 26 [] []) := by
  decide

set_option maxRecDepth 100000 in
/-- C16 (fails on the code): `lookupswitch` at offset 0 with `default = 21` and the pair `(7, 20)`:
the key 7 leaves `PC = 21` after the step, not 20, and the key 8 leaves `PC = 22`, not 21. -/
theorem C16_lookupswitch_target_is_one_past :
    executeStep Control.decode (Control.at_ Control.lookupCode 0 [7] [])
      = Outcome.ok (Control.at_ Control.lookupCode 21 [] []) ∧
    executeStep Control.decode (Control.at_ Control.lookupCode 0 [8] [])
      = Outcome.ok (Control.at_ Control.lookupCode 22 [] []) := by
  decide

set_option maxRecDepth 100000 in
/-- C17 (fails on the code): `ifnull +5` at offset 0 on the null reference 0 leaves `PC = 3` after
the step, not 5, and adds 1 to the saved return `PC` of the frame; `ifnonnull +5` at offset 0 on
the non-null reference 77 leaves `PC = 1`, not 5, and changes the saved return `PC` from 0 to
-14393. -/
theorem C17_ifnull_and_ifnonnull_move_the_return_pc :
    executeStep Control.decode (Control.at_ Control.ifnullCode 0 [0, 9] [])
      = Outcome.ok (Control.returning Control.ifnullCode 3 1 [9] []) ∧
    executeStep Control.decode (Control.at_ Control.ifnonnullCode 0 [77, 9] [])
      = Outcome.ok (Control.returning Control.ifnonnullCode 1 (-14393) [9] []) := by
  decide

set_option maxRecDepth 100000 in
/-- C18 (fails on the code): `ret 1` at offset 0 with `locals[1] = 4` leaves `PC = 5` after the
step, not 4. -/
theorem C18_ret_continues_one_past_the_local :
    executeStep Control.decode (Control.at_ Control.retCode 0 [] [0, 4])
      = Outcome.ok (Control.at_ Control.retCode 5 [] [0, 4]) := by
  decide

/-- C19 (fails on the code): `idiv` pushes the quotient of the two words as unsigned 32-bit numbers
(0 for a zero divisor); for `value1 = -6 = 0xFFFFFFFA` and `value2 = 2` it pushes `0x7FFFFFFD =
2147483645`, not `-3 = 0xFFFFFFFD`. -/
theorem C19_idiv_divides_unsigned :
    (∀ (value1 value2 : u4) (s : List u4),
      idiv (Control.at_ Control.idivCode 0 (value2 :: value1 :: s) [])
        = Outcome.ok (Control.at_ Control.idivCode 0
            ((if value2 = 0 then 0 else value1 / value2) :: s) [])) ∧
    idiv (Control.at_ Control.idivCode 0 [2, 0xFFFFFFFA] [])
      = Outcome.ok (Control.at_ Control.idivCode 0 [0x7FFFFFFD] []) :=
  ⟨fun _ _ _ => rfl, rfl⟩

/-- C20 (fails on the code): with the divisor 0 on top of the operand stack, `idiv` (which tests
the divisor and prints `ERRO nao pode ser feita divisao por zero`) pushes 0 and goes on, while
`irem` has no test and evaluates the remainder by zero, which is undefined. -/
theorem C20_irem_does_not_test_the_divisor :
    (∀ (value1 : u4) (s : List u4),
      irem (Control.at_ Control.iremCode 0 (0 :: value1 :: s) []) = Outcome.undefined) ∧
    (∀ (value1 : u4) (s : List u4),
      idiv (Control.at_ Control.idivCode 0 (0 :: value1 :: s) [])
        = Outcome.ok (Control.at_ Control.idivCode 0 (0 :: s) [])) :=
  ⟨fun _ _ => rfl, fun _ _ => rfl⟩

/-- C21 (fails on the code): `ishr` pushes `value1 >> (value2 & 0x1F)` computed on `u4`, a
shift that fills with zeros; for `value1 = -8 = 0xFFFFFFF8` and `value2 = 1` it pushes
`0x7FFFFFFC`, not `-4 = 0xFFFFFFFC`. -/
theorem C21_ishr_shifts_zeros_in :
    (∀ (value1 value2 : u4) (s : List u4),
      ishr (Control.at_ Control.ishrCode 0 (value2 :: value1 :: s) [])
        = Outcome.ok (Control.at_ Control.ishrCode 0
            (((value1 % 4294967296) >>> (value2 &&& 0x1F)) :: s) [])) ∧
    ishr (Control.at_ Control.ishrCode 0 [1, 0xFFFFFFF8] [])
      = Outcome.ok (Control.at_ Control.ishrCode 0 [0x7FFFFFFC] []) :=
  ⟨fun _ _ _ => rfl, rfl⟩

set_option maxRecDepth 100000 in
/-- C22 (fails on the code): `lshl` masks the count with `0x1F`.  With the count 32 on top of
the value whose high word is 0 and whose low word is 5 it pushes the value unchanged (high word
0 on top of low word 5), not high word 5 on top of low word 0; with the count 33 it shifts by
one bit. -/
theorem C22_lshl_masks_the_count_to_five_bits :
    lshl (Control.at_ Control.lshlCode 0 [32, 0, 5] [])
      = Outcome.ok (Control.at_ Control.lshlCode 0 [0, 5] []) ∧
    lshl (Control.at_ Control.lshlCode 0 [33, 0, 5] [])
      = Outcome.ok (Control.at_ Control.lshlCode 0 [0, 10] []) := by
  decide

set_option maxRecDepth 100000 in
/-- C23 (fails on the code): `wide iinc 1 by 5` at offset 0 with `locals = [10, 20]` moves `PC`
over the five bytes and leaves the locals as they are, `locals[1] = 20`, not 25; the plain
`iinc 1 by 5` on the same locals leaves `locals[1] = 25`. -/
theorem C23_wide_iinc_does_not_change_the_local :
    wide Control.opcodes (Control.at_ Control.wideIincCode 0 [9] [10, 20])
      = Outcome.ok (Control.at_ Control.wideIincCode 5 [9] [10, 20]) ∧
    iinc (Control.at_ Control.iincCode 0 [9] [10, 20])
      = Outcome.ok (Control.at_ Control.iincCode 2 [9] [10, 25]) := by
  decide

/-- C24: with the high word on top of the low word on the operand stack and `i + 1` inside the
locals, a two-word store at `i` followed by the two-word load at `i` returns the state in which
the operand stack is the one before the store and the locals hold the high word at `i` and the
low word at `i + 1`, every other local being unchanged.  This holds for `lstore`/`lload` and
`dstore`/`dload` with the index byte `i`, for the forms `_0` to `_3` with `i` the number of the
form, and for `wide` with an opcode of `lstore` or `dstore`, then of `lload` or `dload`, and
the index bytes of `i`, when the opcode constants are distinct. -/
theorem C24_two_word_store_then_load_round_trips (env : Environment) (top : Frame)
    (rest : List Frame) (high low : u4) (s : List u4) (i : Nat)
    (hframes : env.thread.vmStack = top :: rest)
    (hstack : top.opStk = some (high :: low :: s))
    (hi : i + 1 < top.localVariablesVector.length) :
    (codeByteAtPC (addPC env 1) = Outcome.ok i → codeByteAtPC (addPC env 3) = Outcome.ok i →
      followedBy lstore lload env = Outcome.ok
        (updated env top rest (storedPair top.localVariablesVector i high low)
          (high :: low :: s) 3) ∧
      followedBy dstore dload env = Outcome.ok
        (updated env top rest (storedPair top.localVariablesVector i high low)
          (high :: low :: s) 3)) ∧
    (i = 0 →
      followedBy lstore_0 lload_0 env = Outcome.ok
        (updated env top rest (storedPair top.localVariablesVector 0 high low)
          (high :: low :: s) 1) ∧
      followedBy dstore_0 dload_0 env = Outcome.ok
        (updated env top rest (storedPair top.localVariablesVector 0 high low)
          (high :: low :: s) 1)) ∧
    (i = 1 →
      followedBy lstore_1 lload_1 env = Outcome.ok
        (updated env top rest (storedPair top.localVariablesVector 1 high low)
          (high :: low :: s) 1) ∧
      followedBy dstore_1 dload_1 env = Outcome.ok
        (updated env top rest (storedPair top.localVariablesVector 1 high low)
          (high :: low :: s) 1)) ∧
    (i = 2 →
      followedBy lstore_2 lload_2 env = Outcome.ok
        (updated env top rest (storedPair top.localVariablesVector 2 high low)
          (high :: low :: s) 1) ∧
      followedBy dstore_2 dload_2 env = Outcome.ok
        (updated env top rest (storedPair top.localVariablesVector 2 high low)
          (high :: low :: s) 1)) ∧
    (i = 3 →
      followedBy lstore_3 lload_3 env = Outcome.ok
        (updated env top rest (storedPair top.localVariablesVector 3 high low)
          (high :: low :: s) 1) ∧
      followedBy dstore_3 dload_3 env = Outcome.ok
        (updated env top rest (storedPair top.localVariablesVector 3 high low)
          (high :: low :: s) 1)) ∧
    (∀ (ops : WideOpcodes) (opStore opLoad i1 i2 : u1), ops.Distinct →
      (opStore = ops.OP_lstore ∨ opStore = ops.OP_dstore) →
      (opLoad = ops.OP_lload ∨ opLoad = ops.OP_dload) →
      ((i1 <<< 8) ||| i2) % 65536 = i →
      codeByteAtPC (addPC env 1) = Outcome.ok opStore →
      codeByteAtPC (addPC env 2) = Outcome.ok i1 →
      codeByteAtPC (addPC env 3) = Outcome.ok i2 →
      codeByteAtPC (addPC env 5) = Outcome.ok opLoad →
      codeByteAtPC (addPC env 6) = Outcome.ok i1 →
      codeByteAtPC (addPC env 7) = Outcome.ok i2 →
      followedBy (wide ops) (wide ops) env = Outcome.ok
        (updated env top rest (storedPair top.localVariablesVector i high low)
          (high :: low :: s) 7)) ∧
    (storedPair top.localVariablesVector i high low).get? i = some high ∧
    (storedPair top.localVariablesVector i high low).get? (i + 1) = some low ∧
    (∀ j : Nat, j ≠ i → j ≠ i + 1 →
      (storedPair top.localVariablesVector i high low).get? j
        = top.localVariablesVector.get? j) := by
  refine ⟨?_, ?_, ?_, ?_, ?_, ?_, ?_, ?_, ?_⟩
  · intro hstore hload
    exact indexed_store_load env top rest high low s i hframes hstack hi hstore hload
  · intro h0
    subst h0
    exact ⟨numbered_store_load env top rest high low s 0 hframes hstack hi,
      numbered_store_load env top rest high low s 0 hframes hstack hi⟩
  · intro h1
    subst h1
    exact ⟨numbered_store_load env top rest high low s 1 hframes hstack hi,
      numbered_store_load env top rest high low s 1 hframes hstack hi⟩
  · intro h2
    subst h2
    exact ⟨numbered_store_load env top rest high low s 2 hframes hstack hi,
      numbered_store_load env top rest high low s 2 hframes hstack hi⟩
  · intro h3
    subst h3
    exact ⟨numbered_store_load env top rest high low s 3 hframes hstack hi,
      numbered_store_load env top rest high low s 3 hframes hstack hi⟩
  · intro ops opStore opLoad i1 i2 hd hs hl hindex b1 b2 b3 b5 b6 b7
    exact wide_store_load ops env top rest high low s i opStore opLoad i1 i2 hd hs hl hindex
      hframes hstack hi b1 b2 b3 b5 b6 b7
  · exact (storedPair_get top.localVariablesVector high low i hi).1
  · exact (storedPair_get top.localVariablesVector high low i hi).2
  · intro j hj hj1
    unfold storedPair
    rw [List.get?_eq_getElem?, List.get?_eq_getElem?,
      List.getElem?_set_ne (fun h => hj1 h.symm), List.getElem?_set_ne (fun h => hj h.symm)]

set_option maxRecDepth 100000 in
/-- Witness of C24 with the words 7 (high) on top of 8 (low) above the word 9 and the locals
`[10, 20, 30]`: `lstore 1; lload 1`, `dstore_1; dload_1` and `wide lstore 1; wide lload 1`
each leave the operand stack `[7, 8, 9]` and the locals `[10, 7, 8]`. -/
theorem C24_witness :
    followedBy lstore lload (Control.at_ Control.lstoreCode 0 [7, 8, 9] [10, 20, 30])
      = Outcome.ok (Control.at_ Control.lstoreCode 3 [7, 8, 9] [10, 7, 8]) ∧
    followedBy dstore_1 dload_1 (Control.at_ Control.dstore1Code 0 [7, 8, 9] [10, 20, 30])
      = Outcome.ok (Control.at_ Control.dstore1Code 1 [7, 8, 9] [10, 7, 8]) ∧
    followedBy (wide Control.opcodes) (wide Control.opcodes)
        (Control.at_ Control.wideLstoreCode 0 [7, 8, 9] [10, 20, 30])
      = Outcome.ok (Control.at_ Control.wideLstoreCode 7 [7, 8, 9] [10, 7, 8]) :=
  ⟨((C24_two_word_store_then_load_round_trips
        (Control.at_ Control.lstoreCode 0 [7, 8, 9] [10, 20, 30])
        (Control.frame Control.lstoreCode 0 [7, 8, 9] [10, 20, 30]) [] 7 8 [9] 1
        rfl rfl (by decide)).1 (by decide) (by decide)).1,
   ((C24_two_word_store_then_load_round_trips
        (Control.at_ Control.dstore1Code 0 [7, 8, 9] [10, 20, 30])
        (Control.frame Control.dstore1Code 0 [7, 8, 9] [10, 20, 30]) [] 7 8 [9] 1
        rfl rfl (by decide)).2.2.1 rfl).2,
   (C24_two_word_store_then_load_round_trips
        (Control.at_ Control.wideLstoreCode 0 [7, 8, 9] [10, 20, 30])
        (Control.frame Control.wideLstoreCode 0 [7, 8, 9] [10, 20, 30]) [] 7 8 [9] 1
        rfl rfl (by decide)).2.2.2.2.2.1 Control.opcodes 0x37 0x16 0 1 (by decide)
        (Or.inl rfl) (Or.inl rfl) (by decide) (by decide) (by decide) (by decide) (by decide)
        (by decide) (by decide)⟩

/-- C25: for a word `v` of 32 bits on top of the operand stack, `i2l` replaces it by the low
word `v` beneath the high word, which is `0xFFFFFFFF` when `v` is negative as an `int` and 0
otherwise; `i2l` followed by `l2i` leaves the operand stack as it was. -/
theorem C25_i2l_sign_extends_and_l2i_undoes_it (env : Environment) (top : Frame)
    (rest : List Frame) (v : u4) (s : List u4)
    (hframes : env.thread.vmStack = top :: rest)
    (hstack : top.opStk = some (v :: s)) (hv : v < 4294967296) :
    i2l env = Outcome.ok (resumed env top rest
      ((if toInt32 v < 0 then 0xFFFFFFFF else 0) :: v :: s) 0) ∧
    followedBy i2l l2i env = Outcome.ok (resumed env top rest (v :: s) 1) := by
  have h := i2l_frames env top rest v s hframes hstack hv
  refine ⟨h, ?_⟩
  simp only [followedBy, h, Outcome.bind, addPC_resumed]
  exact l2i_resumed env top rest _ v s (0 + 1) hv

set_option maxRecDepth 100000 in
/-- Witness of C25 on `v = -2 = 0xFFFFFFFE` above the word 9: `i2l` leaves `0xFFFFFFFF` on top
of `0xFFFFFFFE`, and `i2l; l2i` leaves `0xFFFFFFFE` on top again. -/
theorem C25_witness :
    i2l (Control.at_ Control.i2lCode 0 [0xFFFFFFFE, 9] [])
      = Outcome.ok (Control.at_ Control.i2lCode 0 [0xFFFFFFFF, 0xFFFFFFFE, 9] []) ∧
    followedBy i2l l2i (Control.at_ Control.i2lCode 0 [0xFFFFFFFE, 9] [])
      = Outcome.ok (Control.at_ Control.i2lCode 1 [0xFFFFFFFE, 9] []) :=
  C25_i2l_sign_extends_and_l2i_undoes_it (Control.at_ Control.i2lCode 0 [0xFFFFFFFE, 9] [])
    (Control.frame Control.i2lCode 0 [0xFFFFFFFE, 9] []) [] 0xFFFFFFFE [9] rfl rfl (by decide)

/-- C26 (fails on the code): `i2c` converts the popped word to the 8-bit signed `char` of C and
pushes it sign-extended; `i2c` of `0x00011234` pushes `0x34`, not `0x1234`, and `i2c` of
`-1 = 0xFFFFFFFF` pushes `0xFFFFFFFF`, not 65535. -/
theorem C26_i2c_truncates_to_eight_bits :
    (∀ (v : u4) (s : List u4),
      i2c (Control.at_ Control.i2cCode 0 (v :: s) [])
        = Outcome.ok (Control.at_ Control.i2cCode 0 (ofInt32 (toChar v) :: s) [])) ∧
    i2c (Control.at_ Control.i2cCode 0 [0x00011234] [])
      = Outcome.ok (Control.at_ Control.i2cCode 0 [0x34] []) ∧
    i2c (Control.at_ Control.i2cCode 0 [0xFFFFFFFF] [])
      = Outcome.ok (Control.at_ Control.i2cCode 0 [0xFFFFFFFF] []) :=
  ⟨fun _ _ => rfl, rfl, rfl⟩

set_option maxRecDepth 100000 in
/-- C27 (fails on the code): the test of `classInitializeFields` never accepts a field whose
access flags are 0.  The object `newObjectFromClass` creates for `K` has entries for `y` and
`c` only; `getObjectAttributeReference` on the field `x`, declared with no modifier, returns
`NULL`, and `getfield K.x` on the object reads through that pointer. -/
theorem C27_field_without_modifier_is_left_out_of_the_object :
    (∀ (cp : List cp_info) (flagsAccept flagsRegect name_index descriptor_index : u2)
        (attributes : List attribute_info) (rest : List field_info),
      initializeFieldsFrom cp flagsAccept flagsRegect
          (field_or_method.mk 0 name_index descriptor_index attributes :: rest)
        = initializeFieldsFrom cp flagsAccept flagsRegect rest) ∧
    ((newObjectFromClass 1 1000 "K" (Instances.at_ 0 [])).bind
        (fun r => derefObject r.2 r.1)).map
        (fun object => object.handler.fields.map (fun entry => entry.name))
      = Outcome.ok ["y", "c"] ∧
    (newObjectFromClass 1 1000 "K" (Instances.at_ 0 [])).bind
        (fun r => getObjectAttributeReference r.2 r.1 "x")
      = Outcome.ok none ∧
    (newObjectFromClass 1 1000 "K" (Instances.at_ 0 [])).bind
        (fun r => (pushInOperandStack r.2 r.1).bind getfield)
      = Outcome.undefined := by
  refine ⟨?_, by decide, by decide, by decide⟩
  intro cp flagsAccept flagsRegect name_index descriptor_index attributes rest
  simp [initializeFieldsFrom]

set_option maxRecDepth 100000 in
/-- C28 (fails on the code): the object `newObjectFromClass` creates for `Derived`, whose
super-class `Base` declares the instance field `f`, has an entry for its own field `g` only;
`getObjectAttributeReference` on `f` returns `NULL` and `getfield Derived.f` on the object
reads through that pointer, while `getfield Derived.g` pushes 0. -/
theorem C28_inherited_field_is_left_out_of_the_object :
    ((newObjectFromClass 1 1000 "Derived" (Instances.at_ 12 [])).bind
        (fun r => derefObject r.2 r.1)).map
        (fun object => object.handler.fields.map (fun entry => entry.name))
      = Outcome.ok ["g"] ∧
    (newObjectFromClass 1 1000 "Derived" (Instances.at_ 12 [])).bind
        (fun r => getObjectAttributeReference r.2 r.1 "f")
      = Outcome.ok none ∧
    (newObjectFromClass 1 1000 "Derived" (Instances.at_ 12 [])).bind
        (fun r => (pushInOperandStack r.2 r.1).bind getfield)
      = Outcome.undefined ∧
    ((newObjectFromClass 1 1000 "Derived" (Instances.at_ 15 [])).bind
        (fun r => (pushInOperandStack r.2 r.1).bind getfield)).map
        (fun env => env.thread.vmStack.map (fun frame => frame.opStk))
      = Outcome.ok [some [0]] := by
  decide

set_option maxRecDepth 100000 in
/-- C29 (fails on the code): the cell `classInitializeField` creates for the descriptor `C`
holds the character `'0'`, the byte 48, while the cells of the seven other primitive
descriptors hold 0; `getfield K.c` on a new object of `K` pushes 48. -/
theorem C29_char_field_is_initialised_to_the_digit_zero :
    classInitializeField "C" = Cell.mk 1 (some 48) ∧
    classInitializeField "B" = Cell.mk 1 (some 0) ∧
    classInitializeField "D" = Cell.mk 8 (some 0) ∧
    classInitializeField "F" = Cell.mk 4 (some 0) ∧
    classInitializeField "I" = Cell.mk 4 (some 0) ∧
    classInitializeField "J" = Cell.mk 8 (some 0) ∧
    classInitializeField "S" = Cell.mk 2 (some 0) ∧
    classInitializeField "Z" = Cell.mk 1 (some 0) ∧
    ((newObjectFromClass 1 1000 "K" (Instances.at_ 6 [])).bind
        (fun r => (pushInOperandStack r.2 r.1).bind getfield)).map
        (fun env => env.thread.vmStack.map (fun frame => frame.opStk))
      = Outcome.ok [some [48]] := by
  decide

set_option maxRecDepth 100000 in
/-- C30 (fails on the code): for `static final int X = 7` of `K`, whose `ConstantValue`
attribute holds the index 21 of the entry `Integer 7`, `getClassAttributeReference` returns
the address of element 21 of the pool array, which is the entry 22, `Integer 9`;
`getstatic K.X` pushes 9, not 7. -/
theorem C30_final_static_is_read_from_the_next_pool_entry :
    cpEntry Instances.pool 21 = Outcome.ok (cp_info.Integer 7) ∧
    getClassAttributeReference 1 "K" "X" (Instances.at_ 9 [])
      = Outcome.ok (ValueRef.poolSlot (JavaClassPtr.loaded 0) 21, Instances.at_ 9 []) ∧
    readReference (Instances.at_ 9 []) (ValueRef.poolSlot (JavaClassPtr.loaded 0) 21) 4
      = Outcome.ok 9 ∧
    getstatic 1 Instances.noBridge (Instances.at_ 9 [])
      = Outcome.ok (Instances.at_ 11 [9]) := by
  decide

/-- C31: for a class image whose `super_class` and `this_class` resolve to class names,
`classVerifier` returns `LinkageError_UnsupportedClassVersionError` exactly when the major
version is above 48, or is 48 with a minor version above 0; otherwise it returns
`LinkageError_ClassCirculatityError` exactly when the two names are equal, and `LinkageSuccess`
otherwise.  The three results are different numbers. -/
theorem C31_classVerifier_checks_the_version_then_the_super_class (arqClass : ArqClass)
    (superName thisName : String)
    (hsuper : getClassNameFromConstantPool arqClass.constant_pool arqClass.super_class
      = Outcome.ok superName)
    (hthis : getClassNameFromConstantPool arqClass.constant_pool arqClass.this_class
      = Outcome.ok thisName) :
    classVerifier arqClass = Outcome.ok
      (if arqClass.major_version > 48 ∨
          (arqClass.major_version = 48 ∧ arqClass.minor_version > 0) then
        LinkageError_UnsupportedClassVersionError
      else if superName = thisName then LinkageError_ClassCirculatityError
      else LinkageSuccess) ∧
    LinkageError_UnsupportedClassVersionError ≠ LinkageError_ClassCirculatityError ∧
    LinkageError_UnsupportedClassVersionError ≠ LinkageSuccess ∧
    LinkageError_ClassCirculatityError ≠ LinkageSuccess := by
  refine ⟨?_, by decide, by decide, by decide⟩
  unfold classVerifier
  simp only [LECLASS_MAJ_Version, LECLASS_MIN_Version, hsuper, hthis, Outcome.ok_bind,
    Outcome.pure_eq_ok]
  by_cases h1 : arqClass.major_version > 48
  · simp [h1]
  · by_cases h2 : arqClass.major_version = 48 ∧ arqClass.minor_version > 0
    · simp [h1, h2]
    · by_cases h3 : superName = thisName
      · simp [h1, h2, h3]
      · simp [h1, h2, h3]

set_option maxRecDepth 100000 in
/-- Witness of C31 on the image of `Base` of the example program, on the same image with
the versions 49.0, 48.1, 47.9 and with `super_class` equal to `this_class`, and on an image
whose two names are the bytes `A 0 X` and `A 0 Y`, which both end at the 0 byte. -/
theorem C31_witness :
    classVerifier Instances.imageBase = Outcome.ok LinkageSuccess ∧
    classVerifier { Instances.imageBase with major_version := 49 }
      = Outcome.ok LinkageError_UnsupportedClassVersionError ∧
    classVerifier { Instances.imageBase with major_version := 48, minor_version := 1 }
      = Outcome.ok LinkageError_UnsupportedClassVersionError ∧
    classVerifier { Instances.imageBase with major_version := 47, minor_version := 9 }
      = Outcome.ok LinkageSuccess ∧
    classVerifier { Instances.imageBase with super_class := 4 }
      = Outcome.ok LinkageError_ClassCirculatityError ∧
    classVerifier { Instances.imageBase with
        constant_pool := [cp_info.Utf8 "A\x00X", cp_info.Class 1, cp_info.Utf8 "A\x00Y",
          cp_info.Class 3], this_class := 2, super_class := 4 }
      = Outcome.ok LinkageError_ClassCirculatityError :=
  ⟨(C31_classVerifier_checks_the_version_then_the_super_class Instances.imageBase
      "java/lang/Object" "Base" (by decide) (by decide)).1,
   (C31_classVerifier_checks_the_version_then_the_super_class
      { Instances.imageBase with major_version := 49 }
      "java/lang/Object" "Base" (by decide) (by decide)).1,
   (C31_classVerifier_checks_the_version_then_the_super_class
      { Instances.imageBase with major_version := 48, minor_version := 1 }
      "java/lang/Object" "Base" (by decide) (by decide)).1,
   (C31_classVerifier_checks_the_version_then_the_super_class
      { Instances.imageBase with major_version := 47, minor_version := 9 }
      "java/lang/Object" "Base" (by decide) (by decide)).1,
   (C31_classVerifier_checks_the_version_then_the_super_class
      { Instances.imageBase with super_class := 4 }
      "Base" "Base" (by decide) (by decide)).1,
   (C31_classVerifier_checks_the_version_then_the_super_class
      { Instances.imageBase with
        constant_pool := [cp_info.Utf8 "A\x00X", cp_info.Class 1, cp_info.Utf8 "A\x00Y",
          cp_info.Class 3], this_class := 2, super_class := 4 }
      "A" "A" (by decide) (by decide)).1⟩

set_option maxRecDepth 100000 in
/-- Counterexample to C32: with the count 2 and a file that holds one `Long`, read at the last
index 1, the loop fills element 0 and its `cp++` skips element 1: two index slots are filled
or skipped, not `2 - 1`. -/
theorem C32_counterexample :
    leCtePoolLoop (2 - 1) [] [5, 0, 0, 0, 0, 0, 0, 0, 1, 0xCA]
      = ([PoolSlot.entry (cp_info.Long 0 1), PoolSlot.unwritten], [0xCA]) ∧
    (leCtePoolLoop (2 - 1) [] [5, 0, 0, 0, 0, 0, 0, 0, 1, 0xCA]).1.length ≠ 2 - 1 ∧
    leCtePool 2 [5, 0, 0, 0, 0, 0, 0, 0, 1, 0xCA]
      = Outcome.ok ([PoolSlot.entry (cp_info.Long 0 1), PoolSlot.unwritten], [0xCA]) := by
  decide

/-- C32 (amended): the array `leCtePool` returns holds, from element 0 on, the index slots
of the entries read from the file in order: the entry of index `k` in element `k - 1`, the
element after each `Long` and `Double` not written, and the next entry of the file in the
element after that; the bytes left in the file are those after the entries read.  The slots
the loop fills or skips number `constant_pool_count - 1`, except that they number
`constant_pool_count` when the entry read at the last index `constant_pool_count - 1` is a
`Long` or `Double`; when they number `constant_pool_count - 1`, the array is these slots and
one last element that is not written.  The body of the loop takes two slots exactly for the
tags `Long` and `Double`, and after such a tag it reads exactly eight bytes, the two `u4` of
the value. -/
theorem C32_long_and_double_take_two_index_slots (constant_pool_count : u2) (arq : List u1)
    (hcount : 0 < constant_pool_count) :
    (∃ n, leCtePoolLoop (constant_pool_count - 1) [] arq
          = (indexLayout (leCtePoolEntries n arq).1, (leCtePoolEntries n arq).2) ∧
      leCtePool constant_pool_count arq
        = Outcome.ok ((indexLayout (leCtePoolEntries n arq).1 ++ [PoolSlot.unwritten]).take
            constant_pool_count, (leCtePoolEntries n arq).2) ∧
      ((indexLayout (leCtePoolEntries n arq).1).length = constant_pool_count - 1 ∨
        ((indexLayout (leCtePoolEntries n arq).1).length = constant_pool_count ∧
          ∃ (before : List (PoolSlot × Bool)) (slot : PoolSlot),
            (leCtePoolEntries n arq).1 = before ++ [(slot, true)] ∧
            (indexLayout before).length + 1 = constant_pool_count - 1))) ∧
    (∀ n, (indexLayout (leCtePoolEntries n arq).1).length = constant_pool_count - 1 →
      leCtePool constant_pool_count arq
        = Outcome.ok (indexLayout (leCtePoolEntries n arq).1 ++ [PoolSlot.unwritten],
            (leCtePoolEntries n arq).2)) ∧
    (∀ file : List u1, (leCtePoolEntry file).2.1 = true ↔
      (u1Le file).1 = CONSTANT_Long ∨ (u1Le file).1 = CONSTANT_Double) ∧
    (∀ (b0 b1 b2 b3 b4 b5 b6 b7 : Nat) (rest : List u1),
      b0 < 256 → b1 < 256 → b2 < 256 → b3 < 256 →
      b4 < 256 → b5 < 256 → b6 < 256 → b7 < 256 →
      leCtePoolEntry (CONSTANT_Long :: b0 :: b1 :: b2 :: b3 :: b4 :: b5 :: b6 :: b7 :: rest)
        = (PoolSlot.entry (cp_info.Long (bigEndian b0 b1 b2 b3) (bigEndian b4 b5 b6 b7)),
            true, rest) ∧
      leCtePoolEntry (CONSTANT_Double :: b0 :: b1 :: b2 :: b3 :: b4 :: b5 :: b6 :: b7 :: rest)
        = (PoolSlot.entry (cp_info.Double (bigEndian b0 b1 b2 b3) (bigEndian b4 b5 b6 b7)),
            true, rest)) := by
  refine ⟨leCtePool_slots constant_pool_count arq hcount, ?_, leCtePoolEntry_two, ?_⟩
  · intro n hslots
    have hne : constant_pool_count ≠ 0 := Nat.pos_iff_ne_zero.mp hcount
    have hloop := leCtePoolLoop_layout n (constant_pool_count - 1) [] arq hslots
    have hlen : constant_pool_count - (indexLayout (leCtePoolEntries n arq).1).length = 1 := by
      rw [hslots]
      exact Nat.sub_sub_self hcount
    simp only [leCtePool, hne, if_false, hloop, List.nil_append, hlen, List.replicate_one,
      Outcome.pure_eq_ok, List.replicate_zero]
  · intro b0 b1 b2 b3 b4 b5 b6 b7 rest h0 h1 h2 h3 h4 h5 h6 h7
    constructor
    · simp [leCtePoolEntry, u1Le, getc, CONSTANT_Long, CONSTANT_Class, CONSTANT_Fieldref,
        CONSTANT_NameAndType, CONSTANT_Utf8, CONSTANT_Methodref, CONSTANT_InterfaceMethodref,
        CONSTANT_String, CONSTANT_Integer, CONSTANT_Float, u4Le_bytes, h0, h1, h2, h3, h4, h5,
        h6, h7]
    · simp [leCtePoolEntry, u1Le, getc, CONSTANT_Long, CONSTANT_Double, CONSTANT_Class,
        CONSTANT_Fieldref, CONSTANT_NameAndType, CONSTANT_Utf8, CONSTANT_Methodref,
        CONSTANT_InterfaceMethodref, CONSTANT_String, CONSTANT_Integer, CONSTANT_Float,
        u4Le_bytes, h0, h1, h2, h3, h4, h5, h6, h7]

set_option maxRecDepth 100000 in
/-- Witness of C32: a file with the count 6 holds `Utf8 "A"`, `Long 0x0102030405060708`,
`Class 1` and `Integer 7`; they are stored at the indices 1, 2, 4 and 5, and the elements of
the indices 3 and 6 are not written. -/
theorem C32_witness :
    leCtePool 6 [1, 0, 1, 65,  5, 1, 2, 3, 4, 5, 6, 7, 8,  7, 0, 1,  3, 0, 0, 0, 7,  0xCA]
      = Outcome.ok
          ([ PoolSlot.entry (cp_info.Utf8 "A"),
             PoolSlot.entry (cp_info.Long 0x01020304 0x05060708),
             PoolSlot.unwritten,
             PoolSlot.entry (cp_info.Class 1),
             PoolSlot.entry (cp_info.Integer 7),
             PoolSlot.unwritten ], [0xCA]) :=
  (C32_long_and_double_take_two_index_slots 6
    [1, 0, 1, 65,  5, 1, 2, 3, 4, 5, 6, 7, 8,  7, 0, 1,  3, 0, 0, 0, 7,  0xCA]
    (by decide)).2.1 4 (by decide)

/-- Counterexample to C33: on the method area `newMethodArea` creates, with no class
registered, `findJavaClassOnMethodArea` returns the constant `(JavaClass*) 1` for
`java/util/ArrayList`, not `NULL`. -/
theorem C33_counterexample :
    findJavaClassOnMethodArea "java/util/ArrayList" newMethodArea = some JavaClassPtr.stub := by
  decide

/-- C33 (amended): for a name that starts with `java/` or `Ljava/`,
`findJavaClassOnMethodArea` returns the constant `(JavaClass*) 1` whatever the method area
holds.  For any other name it returns `NULL` exactly when no entry of the class table has that
name, and otherwise the record of the first entry with that name; a class that
`addJavaClassToMethodArea` registers under a name no entry had is the one found under that name
afterwards. -/
theorem C33_find_returns_the_registered_class_or_the_library_constant (qualifiedName : String)
    (methodArea : MethodArea) :
    (javaLibIsFrom qualifiedName = true →
      findJavaClassOnMethodArea qualifiedName methodArea = some JavaClassPtr.stub) ∧
    (javaLibIsFrom qualifiedName = false →
      (findJavaClassOnMethodArea qualifiedName methodArea = none ↔
        ∀ entry ∈ methodArea.classTable, entry.name ≠ qualifiedName) ∧
      (∀ ptr : JavaClassPtr, findJavaClassOnMethodArea qualifiedName methodArea = some ptr →
        ∃ (i : Nat) (entry : ClassTable), ptr = JavaClassPtr.loaded i ∧
          methodArea.classTable.get? i = some entry ∧ entry.name = qualifiedName ∧
          derefClass methodArea ptr = Outcome.ok entry.javaClass ∧
          ∀ (j : Nat) (e : ClassTable), j < i → methodArea.classTable.get? j = some e →
            e.name ≠ qualifiedName) ∧
      (∀ (javaClass : JavaClass) (env : Environment),
        env.methodArea = methodArea →
        getClassNameFromConstantPool javaClass.arqClass.constant_pool
          javaClass.arqClass.this_class = Outcome.ok qualifiedName →
        (∀ entry ∈ methodArea.classTable, entry.name ≠ qualifiedName) →
        ∃ (ptr : JavaClassPtr) (next : Environment),
          addJavaClassToMethodArea javaClass env = Outcome.ok (ptr, next) ∧
          findJavaClassOnMethodArea qualifiedName next.methodArea = some ptr ∧
          derefClass next.methodArea ptr = Outcome.ok javaClass)) := by
  refine ⟨?_, ?_⟩
  · intro hlib
    simp [findJavaClassOnMethodArea, hlib]
  · intro hlib
    refine ⟨?_, ?_, ?_⟩
    · simp only [findJavaClassOnMethodArea, hlib, Bool.false_eq_true, if_false]
      exact findClassFrom_eq_none methodArea.classTable 0 qualifiedName
    · intro ptr hfind
      simp only [findJavaClassOnMethodArea, hlib, Bool.false_eq_true, if_false] at hfind
      obtain ⟨k, entry, hp, hget, hname, hbefore⟩ :=
        findClassFrom_eq_some methodArea.classTable 0 qualifiedName ptr hfind
      rw [Nat.zero_add] at hp
      refine ⟨k, entry, hp, hget, hname, ?_, hbefore⟩
      rw [hp]
      simp only [derefClass, hget, Option.map_some', Outcome.ofOption]
    · intro javaClass env henv hname hnone
      subst henv
      refine ⟨JavaClassPtr.loaded env.methodArea.classTable.length,
        Environment.mk env.thread
          (MethodArea.mk (env.methodArea.classTable ++ [ClassTable.mk qualifiedName javaClass]))
          env.debugFlags env.heap env.classFiles, ?_, ?_, ?_⟩
      · simp only [addJavaClassToMethodArea, hname, Outcome.ok_bind, Outcome.pure_eq_ok]
      · simp only [findJavaClassOnMethodArea, hlib, Bool.false_eq_true, if_false]
        have h := findClassFrom_append env.methodArea.classTable 0 qualifiedName javaClass hnone
        rw [Nat.zero_add] at h
        exact h
      · simp [derefClass, Outcome.ofOption]

set_option maxRecDepth 100000 in
/-- Witness of C33 on the example program: `Base` is found at position 1 of the method area of
the example, `Missing` is not found, a class `Base` registered in the empty method area is
found at position 0, and a class whose name is the bytes `A 0 X` is registered and found
under the C string `A`. -/
theorem C33_witness :
    findJavaClassOnMethodArea "java/lang/String" Instances.area = some JavaClassPtr.stub ∧
    (findJavaClassOnMethodArea "Missing" Instances.area = none ↔
      ∀ entry ∈ Instances.area.classTable, entry.name ≠ "Missing") ∧
    (∃ (ptr : JavaClassPtr) (next : Environment),
      addJavaClassToMethodArea (JavaClass.mk [] Instances.imageBase [])
          { Instances.at_ 0 [] with methodArea := newMethodArea } = Outcome.ok (ptr, next) ∧
      findJavaClassOnMethodArea "Base" next.methodArea = some ptr ∧
      derefClass next.methodArea ptr = Outcome.ok (JavaClass.mk [] Instances.imageBase [])) ∧
    (∃ (ptr : JavaClassPtr) (next : Environment),
      addJavaClassToMethodArea (JavaClass.mk []
          { Instances.imageBase with
            constant_pool := [cp_info.Utf8 "A\x00X", cp_info.Class 1], this_class := 2 } [])
          { Instances.at_ 0 [] with methodArea := newMethodArea } = Outcome.ok (ptr, next) ∧
      findJavaClassOnMethodArea "A" next.methodArea = some ptr ∧
      derefClass next.methodArea ptr = Outcome.ok (JavaClass.mk []
          { Instances.imageBase with
            constant_pool := [cp_info.Utf8 "A\x00X", cp_info.Class 1], this_class := 2 }
          [])) :=
  ⟨(C33_find_returns_the_registered_class_or_the_library_constant "java/lang/String"
      Instances.area).1 (by decide),
   ((C33_find_returns_the_registered_class_or_the_library_constant "Missing"
      Instances.area).2 (by decide)).1,
   ((C33_find_returns_the_registered_class_or_the_library_constant "Base"
      newMethodArea).2 (by decide)).2.2 (JavaClass.mk [] Instances.imageBase [])
      { Instances.at_ 0 [] with methodArea := newMethodArea } rfl (by decide)
      (by decide),
   ((C33_find_returns_the_registered_class_or_the_library_constant "A"
      newMethodArea).2 (by decide)).2.2 (JavaClass.mk []
        { Instances.imageBase with
          constant_pool := [cp_info.Utf8 "A\x00X", cp_info.Class 1], this_class := 2 } [])
      { Instances.at_ 0 [] with methodArea := newMethodArea } rfl (by decide)
      (by decide)⟩

set_option maxRecDepth 100000 in
/-- C34 (fails on the code): `newJavaArray` takes the count as a `u2`.  `newarray int` with the
count 70000 followed by `arraylength` pushes `70000 mod 65536 = 4464`, with the count 65536 it
pushes 0; with the count 5 it pushes 5. -/
theorem C34_array_count_is_kept_in_sixteen_bits :
    (followedBy (newarray 2000 1000) arraylength
        (Control.at_ Control.newarrayCode 0 [70000] [])).map
      (fun env => env.thread.vmStack.map (fun frame => frame.opStk)) = Outcome.ok [some [4464]] ∧
    (followedBy (newarray 2000 1000) arraylength
        (Control.at_ Control.newarrayCode 0 [65536] [])).map
      (fun env => env.thread.vmStack.map (fun frame => frame.opStk)) = Outcome.ok [some [0]] ∧
    followedBy (newarray 2000 1000) arraylength (Control.at_ Control.newarrayCode 0 [5] [])
      = Outcome.ok { Control.at_ Control.newarrayCode 2 [5] [] with
          heap := [(1000, HeapCell.array (JavaArray.mk 10 5 2000)),
            (2000, HeapCell.block [0, 0, 0, 0, 0])] } := by
  decide

set_option maxRecDepth 100000 in
/-- C35 (fails on the code): `multianewarray` has no `pushInOperandStack`.  At
`multianewarray #2, 2` with the counts 2 and 3 above the word 9, the handler pops the two
counts and leaves the stack `[9]`, of depth `3 - 2` and not `3 - 2 + 1`: so it does when the
`char` computed from the address of the class name is no type letter (address `0x08049000`),
and when it is the letter `I` (address `0x08049047`) and the last count is 0.  With the letter
`I` and the counts 2 and 3, `initializeNDArray` reads `count[2]` of a vector of two. -/
theorem C35_multianewarray_pushes_nothing :
    multianewarray 0x08049000 (Control.at_ Control.multianewarrayCode 0 [3, 2, 9] [])
      = Outcome.ok (Control.at_ Control.multianewarrayCode 3 [9] []) ∧
    multianewarray 0x08049047 (Control.at_ Control.multianewarrayCode 0 [0, 2, 9] [])
      = Outcome.ok (Control.at_ Control.multianewarrayCode 3 [9] []) ∧
    multianewarray 0x08049047 (Control.at_ Control.multianewarrayCode 0 [3, 2, 9] [])
      = Outcome.undefined := by
  decide

/-- C36 (fails on the code): for `java/io/PrintStream.println` with the descriptor `()V`, whose
genuine call takes the receiver alone, `printStreamPrintln` pops one word in its last branch
and `printStreamExecuteMethod` pops one more: two words leave the stack, the receiver and the
word `below` that lay under it.  With `(I)V` two words are popped and with `(J)V` three, as
many as the call takes. -/
theorem C36_println_without_argument_pops_two_words (memory : u4 → Option StringRef)
    (pc : Int) (javaClass : JavaClassPtr) (method : Option method_info) (returnPC : Int)
    (locals : List u4) (rest : List Frame) (methodArea : MethodArea) (debugFlags : u1)
    (heap : List (Nat × HeapCell)) (classFiles : List (String × ArqClass))
    (receiver below high low value : u4) (s : List u4) :
    javaIOExecuteMethod memory "PrintStream" "println" "()V"
        (Environment.mk
          (Thread.mk pc (Frame.mk javaClass method returnPC locals
            (some (receiver :: below :: s)) :: rest))
          methodArea debugFlags heap classFiles)
      = Outcome.ok (Environment.mk
          (Thread.mk pc (Frame.mk javaClass method returnPC locals (some s) :: rest))
          methodArea debugFlags heap classFiles) ∧
    javaIOExecuteMethod memory "PrintStream" "println" "(I)V"
        (Environment.mk
          (Thread.mk pc (Frame.mk javaClass method returnPC locals
            (some (value :: receiver :: s)) :: rest))
          methodArea debugFlags heap classFiles)
      = Outcome.ok (Environment.mk
          (Thread.mk pc (Frame.mk javaClass method returnPC locals (some s) :: rest))
          methodArea debugFlags heap classFiles) ∧
    javaIOExecuteMethod memory "PrintStream" "println" "(J)V"
        (Environment.mk
          (Thread.mk pc (Frame.mk javaClass method returnPC locals
            (some (high :: low :: receiver :: s)) :: rest))
          methodArea debugFlags heap classFiles)
      = Outcome.ok (Environment.mk
          (Thread.mk pc (Frame.mk javaClass method returnPC locals (some s) :: rest))
          methodArea debugFlags heap classFiles) :=
  ⟨rfl, rfl, rfl⟩

set_option maxRecDepth 100000 in
/-- C37 (fails on the code): for the `tableswitch` at offset 0 of `Control.tableCode`
(`low = 0`, `high = 1`, three pad bytes), whose operands take `3 + 12 + 4 * 2 = 23` bytes,
`getOpcodeAttributesNumber` returns `3 + 11 + 4 * 2 = 22`; for the `lookupswitch` at offset 0
of `Control.lookupCode` (`npairs = 1`, three pad bytes), whose operands take
`3 + 8 + 8 * 1 = 19` bytes, it returns `3 + 7 + 8 * 1 = 18`.  For `sipush` and `wide iinc` it
returns the numbers of operand bytes 2 and 5. -/
theorem C37_switch_sizes_are_one_byte_short :
    getOpcodeAttributesNumber Control.opcodeValue (Control.opcodeValue "tableswitch")
        Control.tableCode 1 = Outcome.ok 22 ∧
    getOpcodeAttributesNumber Control.opcodeValue (Control.opcodeValue "lookupswitch")
        Control.lookupCode 1 = Outcome.ok 18 ∧
    getOpcodeAttributesNumber Control.opcodeValue (Control.opcodeValue "sipush")
        [0x11, 0x01, 0x02, 0xb1] 1 = Outcome.ok 2 ∧
    getOpcodeAttributesNumber Control.opcodeValue (Control.opcodeValue "wide")
        Control.wideIincCode 1 = Outcome.ok 5 := by
  decide

/-- C38: for every numbering `OP` of the mnemonics that gives the labels of the switch of
`getOpcodeName` different values (as C requires of the labels of one switch), `decode`
answers a byte that is no label of its own switch by `JVMstopAbrupt`; it answers the opcode
of each of its labels with the handler of the same mnemonic; the twelve opcodes `dup_x1`,
`dup_x2`, `dup2`, `dup2_x1`, `dup2_x2`, `swap`, `pop2`, `athrow`, `checkcast`, `instanceof`,
`monitorenter`, `monitorexit` are among those answered by `JVMstopAbrupt`; and for every
byte one of the two happens. -/
theorem C38_decode_dispatches_its_cases_and_stops_on_every_other_byte
    (OP : OpcodeTable) (hOP : (opcodeMnemonics.map OP).Nodup) :
    (∀ bytecode, (∀ c ∈ decodeCases, OP c.1 ≠ bytecode) →
      decode OP bytecode = Outcome.stopAbrupt) ∧
    (∀ c ∈ decodeCases, decode OP (OP c.1) = Outcome.ok (handlerIdentifier c.1)) ∧
    (∀ m ∈ ["dup_x1", "dup_x2", "dup2", "dup2_x1", "dup2_x2", "swap", "pop2", "athrow",
      "checkcast", "instanceof", "monitorenter", "monitorexit"],
      decode OP (OP m) = Outcome.stopAbrupt) ∧
    (∀ bytecode, decode OP bytecode = Outcome.stopAbrupt ∨
      ∃ c ∈ decodeCases, OP c.1 = bytecode ∧
        decode OP bytecode = Outcome.ok (handlerIdentifier c.1)) := by
  refine ⟨?_, decode_case OP hOP, ?_, ?_⟩
  · intro bytecode hne
    rcases decode_of_case OP bytecode with ⟨h, _⟩ | ⟨d, hd, hOPd, _⟩
    · exact h
    · exact absurd hOPd (hne d hd)
  · intro m hm
    exact decode_not_dispatched OP hOP m (listed_not_dispatched m hm).1
      (listed_not_dispatched m hm).2
  · intro bytecode
    rcases decode_of_case OP bytecode with ⟨h, _⟩ | ⟨d, hd, hOPd, hdec⟩
    · exact Or.inl h
    · exact Or.inr ⟨d, hd, hOPd, by rw [hdec, decodeCases_handlers d hd]⟩

set_option maxRecDepth 1000000 in
/-- C38, at the numbering of the Java virtual machine: the labels have different values;
`0x60` is dispatched to `iadd`, `0xb1` to `return_`, `0x6d` to `Ldiv`; `0x5f` (`swap`),
`0xbf` (`athrow`) and the unassigned byte `0xcb` stop the machine. -/
theorem C38_witness :
    (opcodeMnemonics.map Control.opcodeValue).Nodup ∧
    decode Control.opcodeValue 0x60 = Outcome.ok "iadd" ∧
    decode Control.opcodeValue 0xb1 = Outcome.ok "return_" ∧
    decode Control.opcodeValue 0x6d = Outcome.ok "Ldiv" ∧
    decode Control.opcodeValue 0x5f = Outcome.stopAbrupt ∧
    decode Control.opcodeValue 0xbf = Outcome.stopAbrupt ∧
    decode Control.opcodeValue 0xcb = Outcome.stopAbrupt :=
  ⟨Control.opcodeValue_nodup,
   (C38_decode_dispatches_its_cases_and_stops_on_every_other_byte Control.opcodeValue
      Control.opcodeValue_nodup).2.1 ("iadd", "iadd") (by decide),
   (C38_decode_dispatches_its_cases_and_stops_on_every_other_byte Control.opcodeValue
      Control.opcodeValue_nodup).2.1 ("return", "return_") (by decide),
   (C38_decode_dispatches_its_cases_and_stops_on_every_other_byte Control.opcodeValue
      Control.opcodeValue_nodup).2.1 ("ldiv", "Ldiv") (by decide),
   (C38_decode_dispatches_its_cases_and_stops_on_every_other_byte Control.opcodeValue
      Control.opcodeValue_nodup).2.2.1 "swap" (by decide),
   (C38_decode_dispatches_its_cases_and_stops_on_every_other_byte Control.opcodeValue
      Control.opcodeValue_nodup).2.2.1 "athrow" (by decide),
   (C38_decode_dispatches_its_cases_and_stops_on_every_other_byte Control.opcodeValue
      Control.opcodeValue_nodup).1 0xcb (by decide)⟩

/-- C39: at an instruction that names a field `cn.name` of a descriptor other than `J` and
`D`, whose cell has the size of the descriptor (1 byte for `B`, `C`, `Z`, 2 for `S`, 4
otherwise): `getfield` on an object that holds the field pushes the unsigned value of the
bytes of the cell, and so does `getstatic` for a static cell of a registered class (the bits
of the word above these bytes are 0); `putfield` of a word `v` followed by `getfield` of the
same field of the same object pushes `v mod 256` for `B`, `v mod 65536` for `S`, and `v`
for `I`, `F` and the reference descriptors. -/
theorem C39_byte_and_short_fields_are_read_zero_extended :
    (∀ (env : Environment) (top : Frame) (rest : List Frame) (cc : JavaClass) (b1 b2 : u1)
        (cn name descriptor : String) (ref : u4) (s : List u4) (o : Object) (k : Nat)
        (entry : FieldsTable) (bits : Nat),
      CallSite env top rest cc b1 b2 cn name descriptor →
      top.opStk = some (ref :: s) →
      heapAt env.heap ref = some (HeapCell.object o) →
      findField name o.handler.fields 0 = some k →
      o.handler.fields.get? k = some entry →
      entry.memoryAddress = Cell.mk (classGetFieldDescriptorSize descriptor) (some bits) →
      descriptor ≠ "J" ∧ descriptor ≠ "D" →
      getfield env = Outcome.ok (resumed env top rest
        (bits % 2 ^ (8 * classGetFieldDescriptorSize descriptor) :: s) 2)) ∧
    (∀ (fuel : Nat) (javaLibGetStatic : Bridge) (env : Environment) (top : Frame)
        (rest : List Frame) (cc : JavaClass) (b1 b2 : u1) (cn name descriptor : String)
        (s : List u4) (ptr : JavaClassPtr) (javaClass : JavaClass) (k : Nat)
        (entry : FieldsTable) (bits : Nat),
      CallSite env top rest cc b1 b2 cn name descriptor →
      top.opStk = some s →
      findJavaClassOnMethodArea cn env.methodArea = some ptr →
      derefClass env.methodArea ptr = Outcome.ok javaClass →
      findField name javaClass.staticFields 0 = some k →
      javaClass.staticFields.get? k = some entry →
      entry.memoryAddress = Cell.mk (classGetFieldDescriptorSize descriptor) (some bits) →
      descriptor ≠ "J" ∧ descriptor ≠ "D" →
      getstatic fuel javaLibGetStatic env = Outcome.ok (resumed env top rest
        (bits % 2 ^ (8 * classGetFieldDescriptorSize descriptor) :: s) 2)) ∧
    (∀ (env : Environment) (top : Frame) (rest : List Frame) (cc : JavaClass) (b1 b2 : u1)
        (cn name descriptor : String) (v ref : u4) (s : List u4) (o : Object) (k : Nat)
        (entry : FieldsTable),
      CallSite env top rest cc b1 b2 cn name descriptor →
      getByteCodeFromMethod top.method_info cc.arqClass.constant_pool (env.thread.PC + 4)
        = Outcome.ok b1 →
      getByteCodeFromMethod top.method_info cc.arqClass.constant_pool (env.thread.PC + 5)
        = Outcome.ok b2 →
      top.opStk = some (v :: ref :: ref :: s) →
      v < 4294967296 →
      heapAt env.heap ref = some (HeapCell.object o) →
      findField name o.handler.fields 0 = some k →
      o.handler.fields.get? k = some entry →
      entry.memoryAddress.size = classGetFieldDescriptorSize descriptor →
      descriptor ≠ "J" ∧ descriptor ≠ "D" →
      ∃ heap, followedBy putfield getfield env = Outcome.ok
        { resumed env top rest (fieldWord descriptor v :: s) 5 with heap := heap }) ∧
    (∀ v : u4, fieldWord "B" v = v % 256 ∧ fieldWord "S" v = v % 65536 ∧
      fieldWord "I" v = v ∧ fieldWord "F" v = v ∧ fieldWord "Ljava/lang/Object;" v = v) := by
  refine ⟨?_, ?_, ?_, fun v => ⟨rfl, rfl, rfl, rfl, rfl⟩⟩
  · intro env top rest cc b1 b2 cn name descriptor ref s o k entry bits hs hstack hobj hk he
      hcell hd
    exact getfield_site env top rest cc b1 b2 cn name descriptor ref s o k entry bits hs
      hstack hobj hk he (by rw [hcell]) (by rw [hcell]) hd
  · intro fuel bridge env top rest cc b1 b2 cn name descriptor s ptr javaClass k entry bits
      hs hstack hfound hclass hk he hcell hd
    exact getstatic_site fuel bridge env top rest cc b1 b2 cn name descriptor s ptr javaClass
      k entry bits hs hstack hfound hclass hk he (by rw [hcell]) (by rw [hcell]) hd
  · intro env top rest cc b1 b2 cn name descriptor v ref s o k entry hs hget1 hget2 hstack hv
      hobj hk he hsize hd
    rw [← fieldWord_eq descriptor v hv hd]
    exact putfield_getfield env top rest cc b1 b2 cn name descriptor v ref s o k entry hs
      hget1 hget2 hstack hobj hk he hsize hd

set_option maxRecDepth 100000 in
/-- Witness of C39 on the program `Stores`: `getfield P.b` on the instance whose cell of `b`
holds `0x80` pushes 128; `getstatic P.sb`, whose cell holds `0x80`, pushes 128; `putfield`
of `-1 = 0xFFFFFFFF` followed by `getfield` pushes 255 for `P.b`, 65535 for `P.h` and
`0xFFFFFFFF` for `P.i`. -/
theorem C39_witness :
    getfield (Stores.at_ 3 [1000, 7]) = Outcome.ok (Stores.at_ 5 [128, 7]) ∧
    getstatic 1 Stores.noBridge (Stores.at_ 24 [7]) = Outcome.ok (Stores.at_ 26 [128, 7]) ∧
    (∃ heap, followedBy putfield getfield (Stores.at_ 0 [0xFFFFFFFF, 1000, 1000, 7])
      = Outcome.ok { Stores.at_ 5 [255, 7] with heap := heap }) ∧
    (∃ heap, followedBy putfield getfield (Stores.at_ 6 [0xFFFFFFFF, 1000, 1000, 7])
      = Outcome.ok { Stores.at_ 11 [65535, 7] with heap := heap }) ∧
    (∃ heap, followedBy putfield getfield (Stores.at_ 12 [0xFFFFFFFF, 1000, 1000, 7])
      = Outcome.ok { Stores.at_ 17 [0xFFFFFFFF, 7] with heap := heap }) :=
  ⟨C39_byte_and_short_fields_are_read_zero_extended.1 (Stores.at_ 3 [1000, 7])
      (Stores.frame [1000, 7]) [] (Stores.classP 0x80) 0 19 "P" "b" "B" 1000 [7]
      (Stores.instanceP 0x80) 0 (FieldsTable.mk "b" "B" (Cell.mk 1 (some 0x80)) Stores.P_b)
      0x80 ⟨rfl, by decide, by decide, by decide, by decide, by decide⟩ rfl (by decide)
      (by decide) (by decide) (by decide) (by decide),
   C39_byte_and_short_fields_are_read_zero_extended.2.1 1 Stores.noBridge
      (Stores.at_ 24 [7]) (Stores.frame [7]) [] (Stores.classP 0x80) 0 27 "P" "sb" "B" [7]
      (JavaClassPtr.loaded 0) (Stores.classP 0x80) 0
      (FieldsTable.mk "sb" "B" (Cell.mk 1 (some 0x80)) Stores.P_sb) 0x80
      ⟨rfl, by decide, by decide, by decide, by decide, by decide⟩ rfl (by decide)
      (by decide) (by decide) (by decide) (by decide) (by decide),
   C39_byte_and_short_fields_are_read_zero_extended.2.2.1
      (Stores.at_ 0 [0xFFFFFFFF, 1000, 1000, 7]) (Stores.frame [0xFFFFFFFF, 1000, 1000, 7])
      [] (Stores.classP 0x80) 0 19 "P" "b" "B" 0xFFFFFFFF 1000 [7] (Stores.instanceP 0x80) 0
      (FieldsTable.mk "b" "B" (Cell.mk 1 (some 0x80)) Stores.P_b)
      ⟨rfl, by decide, by decide, by decide, by decide, by decide⟩ (by decide) (by decide)
      rfl (by decide) (by decide) (by decide) (by decide) (by decide) (by decide),
   C39_byte_and_short_fields_are_read_zero_extended.2.2.1
      (Stores.at_ 6 [0xFFFFFFFF, 1000, 1000, 7]) (Stores.frame [0xFFFFFFFF, 1000, 1000, 7])
      [] (Stores.classP 0x80) 0 21 "P" "h" "S" 0xFFFFFFFF 1000 [7] (Stores.instanceP 0x80) 1
      (FieldsTable.mk "h" "S" (Cell.mk 2 (some 0)) Stores.P_h)
      ⟨rfl, by decide, by decide, by decide, by decide, by decide⟩ (by decide) (by decide)
      rfl (by decide) (by decide) (by decide) (by decide) (by decide) (by decide),
   C39_byte_and_short_fields_are_read_zero_extended.2.2.1
      (Stores.at_ 12 [0xFFFFFFFF, 1000, 1000, 7]) (Stores.frame [0xFFFFFFFF, 1000, 1000, 7])
      [] (Stores.classP 0x80) 0 23 "P" "i" "I" 0xFFFFFFFF 1000 [7] (Stores.instanceP 0x80) 2
      (FieldsTable.mk "i" "I" (Cell.mk 4 (some 0)) Stores.P_i)
      ⟨rfl, by decide, by decide, by decide, by decide, by decide⟩ (by decide) (by decide)
      rfl (by decide) (by decide) (by decide) (by decide) (by decide) (by decide)⟩

end JVM
